import Mathlib

/-!
Verification model of the Humidity Intelligence automation engine
(`src/automations/engine.py` and the constants it imports from
`src/const.py`).

Modelling conventions, used throughout:
* Python floats are modelled as exact rationals (`ℚ`).  `round(x, 1)`
  (banker's rounding) is modelled exactly over `ℚ`.
* `datetime.now()` is modelled as an integer number of seconds supplied by
  the environment (`Env.now`); `datetime.now().month` as `Env.month`;
  the wall-clock time used by the time gate as minutes-of-day
  (`Env.nowTime`).  Gate start/end times are supplied pre-parsed
  (`_parse_time` string parsing is outside the claims under study).
* `math.log` (used only inside the Magnus dew-point formula) is
  transcendental; it is supplied as an environment oracle `Env.lnQ`.
* Home Assistant state reads are a snapshot (`Hass.states`,
  `Hass.hasService`); outward service calls, input-boolean writes and
  timer starts are recorded as an explicit command list (`Cmd`).
  Human-readable reason strings and display labels are not modelled
  (no claim mentions their text); runtime mode is modelled exactly.
* Python dicts that the engine iterates are modelled as association
  lists in insertion order; `list(set(...))` is modelled as
  first-occurrence deduplication (only membership matters to the claims).
-/

namespace HI

-- Batteries marks the rational arithmetic operations irreducible, which
-- blocks `decide` on concrete engine runs; restore default reducibility
-- for this file so witnesses evaluate.
attribute [local semireducible] Rat.add Rat.sub Rat.mul Rat.inv Rat.ofScientific

/-! ## Python-style scalar values and string helpers -/

/-- The value of a fan-level configuration entry as stored in the config
dict: Python `None`, an `int`, or a `str`. -/
inductive FanIn where
  | none
  | intVal (n : Int)
  | strVal (s : String)
deriving DecidableEq

/-- ASCII whitespace recognised by `str.strip()` (the configs under study
only ever carry these). -/
def isWs (c : Char) : Bool := c = ' ' || c = '\t' || c = '\n' || c = '\r'

def trimCharsL : List Char → List Char
  | [] => []
  | c :: cs => if isWs c then trimCharsL cs else c :: cs

/-- models Python `str.strip()`. -/
def pyStrip (s : String) : String :=
  ⟨(trimCharsL ((trimCharsL s.data.reverse)).reverse)⟩

/-- models Python `str.lower()` for the ASCII strings in the configs. -/
def pyLower (s : String) : String := ⟨s.data.map Char.toLower⟩

def allDigits (l : List Char) : Bool := l.all Char.isDigit

def digitsVal (l : List Char) : Nat :=
  l.foldl (fun a c => a * 10 + (c.toNat - 48)) 0

/-- models Python `float(text)` for plain decimal literals (optional
sign, digits, optional fractional part).  Returns `none` where Python
would raise `ValueError`; exotic accepted spellings (exponents, `inf`,
`nan`) do not occur in the modelled data. -/
def parsePyFloat (s : String) : Option ℚ :=
  let l := s.data
  let signed : Bool × List Char :=
    match l with
    | '-' :: r => (true, r)
    | '+' :: r => (false, r)
    | r => (false, r)
  let body := signed.2
  let intPart := body.takeWhile (fun c => c ≠ '.')
  let rest := body.dropWhile (fun c => c ≠ '.')
  let val : Option ℚ :=
    match rest with
    | [] =>
        if intPart ≠ [] ∧ allDigits intPart then
          some ((digitsVal intPart : Int) : ℚ)
        else
          Option.none
    | _ :: frac =>
        if allDigits intPart ∧ allDigits frac ∧ (intPart ≠ [] ∨ frac ≠ []) then
          some (((digitsVal intPart : Int) : ℚ) +
            ((digitsVal frac : Int) : ℚ) / ((10 : ℚ) ^ frac.length))
        else
          Option.none
  val.map (fun q => if signed.1 then -q else q)

/-- Truncation toward zero, as Python `int(float)`. -/
def pyTrunc (q : ℚ) : Int := if q < 0 then -(Rat.floor (-q)) else Rat.floor q

/-- models Python `int(float(s))`. -/
def parseIntFloat (s : String) : Option Int := (parsePyFloat s).map pyTrunc

/-- models Python `round(x, 1)` (round-half-to-even) over exact
rationals. -/
def roundHalfEven (q : ℚ) : Int :=
  let f := Rat.floor q
  let r := q - (f : ℚ)
  if r < 1/2 then f else if 1/2 < r then f + 1 else (if f % 2 = 0 then f else f + 1)

def round1 (q : ℚ) : ℚ := ((roundHalfEven (q * 10) : Int) : ℚ) / 10

/-! ## Constants (src/const.py) -/

def FAN_OUTPUT_LEVEL_AUTO : String := "auto"
def FAN_OUTPUT_LEVEL_STEPS : List Int := [33, 66, 100]
def ZONE_OUTPUT_LEVEL_DEFAULT : Int := 66
def ZONE_OUTPUT_LEVEL_BOOST_DEFAULT : Int := 100
def HUMIDIFIER_RECOVERY_IN_BAND_DEFAULT : ℚ := 3
def CO_EMERGENCY_START : ℚ := 15

/-- `ALERT_THRESHOLD_BOUNDS` from src/const.py, as
`trigger_type ↦ (min, max, default)`; absent entries give an empty
bounds dict (all three lookups `None`). -/
def alertThresholdBounds (t : String) : Option ℚ × Option ℚ × Option ℚ :=
  if t = "humidity_danger" then (some 55, some 90, some 75)
  else if t = "co_emergency" then (some 10, some 100, some 15)
  else (Option.none, Option.none, Option.none)

/-! ## Numeric coercion helpers (engine.py bottom section) -/

/-- `_to_float`: in this model numeric-or-absent config entries are
already `Option ℚ`, so the Python try/except is the identity. -/
def _to_float (v : Option ℚ) : Option ℚ := v

/-- `_bounded_int`; `none` stands for a value `int()` rejects (absent or
non-numeric). -/
def _bounded_int (value : Option Int) (minValue maxValue fallback : Int) : Int :=
  match value with
  | Option.none => fallback
  | some parsed => max minValue (min maxValue parsed)

/-- `_safe_alert_threshold`. -/
def _safe_alert_threshold (triggerType : String) (value : Option ℚ) (fallback : ℚ) : ℚ :=
  let bounds := alertThresholdBounds triggerType
  let defaultValue := (_to_float bounds.2.2).getD fallback
  let minValue := (_to_float bounds.1).getD defaultValue
  let maxValue := (_to_float bounds.2.1).getD defaultValue
  let threshold := (_to_float value).getD defaultValue
  max minValue (min maxValue threshold)

/-! ## Fan-level normalisation (engine.py `_normalize_fan_level` etc.) -/

/-- `min(FAN_OUTPUT_LEVEL_STEPS, key=lambda step: abs(step - numeric))`:
Python `min` keeps the first element attaining the minimal key. -/
def nearestStep (n : Int) : Int :=
  if (33 - n).natAbs ≤ (66 - n).natAbs ∧ (33 - n).natAbs ≤ (100 - n).natAbs then 33
  else if (66 - n).natAbs ≤ (100 - n).natAbs then 66
  else 100

/-- The tail of `_normalize_fan_level` once a Python int `numeric` is in
hand. -/
def normNumLevel (n : Int) : String :=
  if n ≤ 0 then FAN_OUTPUT_LEVEL_AUTO
  else if 100 ≤ n then "100"
  else toString (nearestStep n)

/-- `numeric = int(fallback) if str(fallback).isdigit() else
ZONE_OUTPUT_LEVEL_DEFAULT` (the except-branch of `_normalize_fan_level`).
`str(n).isdigit()` holds exactly for nonnegative ints; for a string it is
`isdigit` of the string itself; `str(None) = "None"` is not a digit
string. -/
def fallbackNum (fallback : FanIn) : Int :=
  match fallback with
  | .intVal n => if 0 ≤ n then n else ZONE_OUTPUT_LEVEL_DEFAULT
  | .strVal s =>
      if s.data ≠ [] ∧ allDigits s.data then (digitsVal s.data : Int)
      else ZONE_OUTPUT_LEVEL_DEFAULT
  | .none => ZONE_OUTPUT_LEVEL_DEFAULT

/-- `_normalize_fan_level(value, fallback)`. -/
def _normalize_fan_level (value fallback : FanIn) : String :=
  let raw : FanIn := match value with | .none => fallback | v => v
  match raw with
  | .strVal s =>
      let text := pyLower (pyStrip s)
      if text = FAN_OUTPUT_LEVEL_AUTO then FAN_OUTPUT_LEVEL_AUTO
      else
        let text2 : String :=
          if text.data.getLast? = some '%' then ⟨text.data.dropLast⟩ else text
        match parseIntFloat text2 with
        | some n => normNumLevel n
        | Option.none => normNumLevel (fallbackNum fallback)
  | .intVal n => normNumLevel n
  | .none => normNumLevel (fallbackNum fallback)

/-- `_fan_level_rank`; `none` and `""` are both Python-falsy. -/
def _fan_level_rank (level : Option String) : Int :=
  match level with
  | Option.none => 0
  | some s =>
      if s = "" then 0
      else
        let normalized := _normalize_fan_level (.strVal s) (.intVal ZONE_OUTPUT_LEVEL_DEFAULT)
        if normalized = FAN_OUTPUT_LEVEL_AUTO then 0
        else (parseIntFloat normalized).getD 0

/-- `_max_fan_level`. -/
def _max_fan_level (current : Option String) (candidate : String) : String :=
  match current with
  | Option.none => candidate
  | some c =>
      if _fan_level_rank (some c) ≤ _fan_level_rank (some candidate) then candidate else c

/-- `_coerce_fan_percentage` (its argument is always an `int` at the one
call site). -/
def _coerce_fan_percentage (value : Int) : Int :=
  let pct := _bounded_int (some value) 0 100 ZONE_OUTPUT_LEVEL_DEFAULT
  if pct ≤ 0 then 0
  else if 100 ≤ pct then 100
  else nearestStep pct

/-! ## Home Assistant snapshot, commands and effect accumulator -/

/-- Snapshot of one entity's state: its state string plus the two
attributes the engine reads (`preset_mode`, `percentage`). -/
structure HAState where
  state : String
  presetMode : Option String := Option.none
  percentage : Option Int := Option.none
deriving DecidableEq

/-- The read-only host interface for one evaluation cycle. -/
structure Hass where
  states : String → Option HAState
  hasService : String → String → Bool

/-- One outward effect.  `svcCall domain service entity pct` records a
`hass.services.async_call`; `pct` is `some p` only for
`fan.set_percentage` (for `fan.set_preset_mode` the preset is always
`"auto"`).  `flashCmd idx` records the alert flash service call for
alert index `idx` (its light list / color / duration payload is not
modelled). -/
inductive Cmd where
  | svcCall (domain service entity : String) (pct : Option Int)
  | setBoolCmd (key : String) (value : Bool)
  | startTimerCmd (key : String) (seconds : Int)
  | cancelTimerCmd (key : String)
  | flashCmd (idx : Nat)
deriving DecidableEq

/-- The engine's accumulated effects during a cycle: the HI input-boolean
store (`hi_input_booleans`: key present ↦ current `is_on`), the commands
issued so far, and the published runtime mode (reason strings and display
labels are not modelled). -/
structure Eff where
  booleans : String → Option Bool
  cmds : List Cmd
  runtimeMode : Option String

/-- The ambient inputs of a cycle. -/
structure Env where
  hass : Hass
  booleans0 : String → Option Bool
  /-- `hi_timers`: key present ↦ the timer entity's `native_value`. -/
  timers : String → Option String
  /-- `datetime.now()`, in seconds. -/
  now : Int
  /-- `datetime.now().month`. -/
  month : Int
  /-- `datetime.now().time()` as minutes of the day, for the time gate. -/
  nowTime : Int
  /-- oracle for `math.log` (only reached through `_dew_point`). -/
  lnQ : ℚ → ℚ

def initEff (env : Env) : Eff :=
  { booleans := env.booleans0, cmds := [], runtimeMode := Option.none }

def emit (f : Eff) (c : Cmd) : Eff :=
  { f with cmds := f.cmds ++ [c] }

/-- `_set_bool`: only acts when the input-boolean entity exists. -/
def _set_bool (f : Eff) (key : String) (value : Bool) : Eff :=
  match f.booleans key with
  | Option.none => f
  | some _ =>
      { booleans := fun k => if k = key then some value else f.booleans k,
        cmds := f.cmds ++ [Cmd.setBoolCmd key value],
        runtimeMode := f.runtimeMode }

/-- `_bool_is_on`. -/
def _bool_is_on (f : Eff) (key : String) : Bool := (f.booleans key).getD false

/-- `_set_timer`: only acts when the timer entity exists. -/
def _set_timer (env : Env) (f : Eff) (key : String) (durationSeconds : Int) : Eff :=
  match env.timers key with
  | Option.none => f
  | some _ => emit f (Cmd.startTimerCmd key durationSeconds)

/-- `_clear_timer`. -/
def _clear_timer (env : Env) (f : Eff) (key : String) : Eff :=
  match env.timers key with
  | Option.none => f
  | some _ => emit f (Cmd.cancelTimerCmd key)

/-- `_set_runtime_mode` (display label not modelled). -/
def _set_runtime_mode (f : Eff) (mode : String) : Eff :=
  { f with runtimeMode := some mode }

/-! ## Configuration structures (as read from entry data/options) -/

structure TelemetryItem where
  entity_id : Option String := Option.none
  sensor_type : Option String := Option.none
  level : Option String := Option.none
  room : Option String := Option.none

structure AlertCfg where
  enabled : Bool := true
  trigger_type : Option String := Option.none
  custom_trigger : Option String := Option.none
  threshold : Option ℚ := Option.none
  outputs : List String := []

structure ZoneCfg where
  enabled : Bool := false
  level : Option String := Option.none
  rooms : List String := []
  triggers : List String := []
  thresholds : String → Option ℚ := fun _ => Option.none
  outputs : List String := []
  /-- `none` = key absent (default applies). -/
  output_level : Option FanIn := Option.none
  boost_output_level : Option FanIn := Option.none

structure AqCfg where
  enabled : Bool := false
  triggers : List String := []
  thresholds : String → Option ℚ := fun _ => Option.none
  outputs : List String := []
  output_level : Option FanIn := Option.none
  /-- `none` = absent or non-int (both fall back to 30 in
  `_bounded_int`). -/
  run_duration : Option Int := Option.none

structure HumCfg where
  enabled : Bool := false
  outputs : List String := []
  /-- `cfg.get("band_adjust", 0)` then `_to_float`; `none` = absent or
  non-numeric (both become 0). -/
  band_adjust : Option ℚ := Option.none
  recovery_in_band : Option ℚ := Option.none

structure TimeGateCfg where
  enabled : Bool := false
  gateStart : Option Int := Option.none
  gateEnd : Option Int := Option.none
  outside_action : Option String := Option.none

structure PresenceGateCfg where
  enabled : Bool := false
  entities : List String := []
  present_states : List String := []
  away_states : List String := []

/-- The per-instance configuration, after the data/options merge of
`_cfg`. -/
structure Engine where
  telemetry : List TelemetryItem := []
  time_gate : TimeGateCfg := {}
  presence_gate : PresenceGateCfg := {}
  zones : List (String × ZoneCfg) := []
  humidifiers : List (String × HumCfg) := []
  aq : List (String × AqCfg) := []
  alerts : List AlertCfg := []

/-- One scheduled AQ run-window timer task. `alive` means neither
cancelled nor finished (`not task.done()`). -/
structure AqTask where
  id : Nat
  level : String
  duration : Int
  alive : Bool
deriving DecidableEq

/-- The engine's mutable fields. -/
structure EngineState where
  coEmergencyActive : Bool := false
  coBelowSince : Option Int := Option.none
  /-- `_aq_trigger_active` (`.get(level, False)` semantics). -/
  aqTrigger : String → Bool := fun _ => false
  /-- `_aq_tasks` as an association list `level ↦ task id`. -/
  aqMap : List (String × Nat) := []
  aqNextId : Nat := 0
  /-- every task ever created this engine lifetime, with liveness. -/
  aqTasks : List AqTask := []
  /-- `_last_alert`. -/
  lastAlert : Nat → Option Int := fun _ => Option.none

/-! ## Telemetry reading and derived metrics -/

/-- `_get_float`. -/
def _get_float (hass : Hass) (entityId : Option String) : Option ℚ :=
  match entityId with
  | Option.none => Option.none
  | some e =>
      match hass.states e with
      | Option.none => Option.none
      | some st =>
          if st.state = "unknown" ∨ st.state = "unavailable" then Option.none
          else parsePyFloat st.state

/-- `_collect_values`. -/
def _collect_values (env : Env) (eng : Engine) (sensorType : String) : List ℚ :=
  eng.telemetry.foldl
    (fun values item =>
      if item.sensor_type = some sensorType then
        match _get_float env.hass item.entity_id with
        | some v => values ++ [v]
        | Option.none => values
      else values)
    []

/-- `_level_avg`. -/
def _level_avg (env : Env) (eng : Engine) (sensorType : String) (level : Option String) :
    Option ℚ :=
  let vals := eng.telemetry.foldl
    (fun vals item =>
      if item.sensor_type = some sensorType then
        match level with
        | some l =>
            if item.level = some l then
              match _get_float env.hass item.entity_id with
              | some v => vals ++ [v]
              | Option.none => vals
            else vals
        | Option.none =>
            match _get_float env.hass item.entity_id with
            | some v => vals ++ [v]
            | Option.none => vals
      else vals)
    []
  match vals with
  | [] => Option.none
  | _ => some (round1 (vals.foldl (fun a b => a + b) 0 / (vals.length : ℚ)))

/-- `_rooms_avg` (room names compared lowercased; empty/absent rooms are
Python-falsy and skipped when building the room set). -/
def _rooms_avg (env : Env) (eng : Engine) (sensorType : String) (rooms : List String) :
    Option ℚ :=
  if rooms = [] then Option.none
  else
    let roomSet := (rooms.filter (fun r => r ≠ "")).map pyLower
    let vals := eng.telemetry.foldl
      (fun vals item =>
        if item.sensor_type = some sensorType then
          let room := pyLower ((item.room).getD "")
          if roomSet.contains room then
            match _get_float env.hass item.entity_id with
            | some v => vals ++ [v]
            | Option.none => vals
          else vals
        else vals)
      []
    match vals with
    | [] => Option.none
    | _ => some (round1 (vals.foldl (fun a b => a + b) 0 / (vals.length : ℚ)))

/-- update-or-append on an association list (Python dict update,
insertion order preserved). -/
def assocSet (l : List (String × Option String)) (k : String) (v : Option String) :
    List (String × Option String) :=
  match l with
  | [] => [(k, v)]
  | (k0, v0) :: rest =>
      if k0 = k then (k0, v) :: rest else (k0, v0) :: assocSet rest k v

def assocGet (l : List (String × Option String)) (k : String) : Option (Option String) :=
  match l with
  | [] => Option.none
  | (k0, v0) :: rest => if k0 = k then some v0 else assocGet rest k

/-- `_room_map`: `room ↦ (sensor_type ↦ entity_id)`.  Items with an
absent sensor type still create the room entry in Python (under a `None`
key) but that key is never looked up, so such items are skipped here
after creating the room. -/
def _room_map (telemetry : List TelemetryItem) :
    List (String × List (String × Option String)) :=
  telemetry.foldl
    (fun rooms item =>
      match item.room with
      | Option.none => rooms
      | some r =>
          if r = "" then rooms
          else
            let current := match rooms.find? (fun p => p.1 = r) with
              | some p => p.2
              | Option.none => []
            let updated := match item.sensor_type with
              | some st => assocSet current st item.entity_id
              | Option.none => current
            match rooms.find? (fun p => p.1 = r) with
            | some _ => rooms.map (fun p => if p.1 = r then (p.1, updated) else p)
            | Option.none => rooms ++ [(r, updated)])
    []

/-- `_dew_point` (Magnus formula; `math.log` through the oracle; the
division is exact rational division — the pole `a = gamma` does not occur
in the modelled data). -/
def _dew_point (env : Env) (tempC rh : ℚ) : Option ℚ :=
  if rh ≤ 0 then Option.none
  else
    let a : ℚ := 17.62
    let b : ℚ := 243.12
    let gamma := a * tempC / (b + tempC) + env.lnQ (rh / 100)
    some (b * gamma / (a - gamma))

/-- `_mould_level`. -/
def _mould_level (rh spread : ℚ) : Int :=
  let level : Int := 0
  let level := if 75 ≤ rh then level + 2 else if 68 ≤ rh then level + 1 else level
  let level := if spread ≤ 2 then level + 2 else if spread ≤ 4 then level + 1 else level
  min level 3

/-- `_worst_spread`. -/
def _worst_spread (env : Env) (eng : Engine) : Option ℚ :=
  let spreads := (_room_map eng.telemetry).foldl
    (fun spreads room =>
      let rh := _get_float env.hass ((assocGet room.2 "humidity").getD Option.none)
      let temp := _get_float env.hass ((assocGet room.2 "temperature").getD Option.none)
      match rh, temp with
      | some rhv, some tempv =>
          match _dew_point env tempv rhv with
          | some dp => spreads ++ [tempv - dp]
          | Option.none => spreads
      | _, _ => spreads)
    []
  match spreads with
  | [] => Option.none
  | s :: rest => some (rest.foldl min s)

/-- `_worst_mould_level`. -/
def _worst_mould_level (env : Env) (eng : Engine) : Int :=
  (_room_map eng.telemetry).foldl
    (fun level room =>
      let rh := _get_float env.hass ((assocGet room.2 "humidity").getD Option.none)
      let temp := _get_float env.hass ((assocGet room.2 "temperature").getD Option.none)
      match rh, temp with
      | some rhv, some tempv =>
          match _dew_point env tempv rhv with
          | some dp => max level (_mould_level rhv (tempv - dp))
          | Option.none => level
      | _, _ => level)
    0

/-- `_target_low`. -/
def _target_low (env : Env) : ℚ :=
  if env.month = 11 ∨ env.month = 12 ∨ env.month = 1 ∨ env.month = 2 ∨ env.month = 3 then 45
  else if env.month = 6 ∨ env.month = 7 ∨ env.month = 8 then 51
  else 47

/-- `_target_high`. -/
def _target_high (env : Env) : ℚ :=
  if env.month = 11 ∨ env.month = 12 ∨ env.month = 1 ∨ env.month = 2 ∨ env.month = 3 then 55
  else if env.month = 6 ∨ env.month = 7 ∨ env.month = 8 then 60
  else 58

/-! ## Output drivers (module-level helpers at the bottom of engine.py) -/

/-- `entity_id.split(".")[0]`: the characters before the first dot. -/
def takeUntilDot : List Char → List Char
  | [] => []
  | c :: cs => if c = '.' then [] else c :: takeUntilDot cs

def domainOf (entityId : String) : String := ⟨takeUntilDot entityId.data⟩

/-- The skip test of `_set_fan_percentage`: state exists, is `"on"`, and
already reports the requested percentage. -/
def fanAlreadyAtPct (hass : Hass) (entityId : String) (pct : Int) : Bool :=
  match hass.states entityId with
  | some st => st.state = "on" && st.percentage = some pct
  | Option.none => false

/-- State-based skip test of the switch branches (`turn_on` when already
on / `turn_off` when already off). -/
def switchAlreadyAt (hass : Hass) (entityId : String) (turnOn : Bool) : Bool :=
  match hass.states entityId with
  | some st => if turnOn then st.state = "on" else st.state = "off"
  | Option.none => false

/-- `_set_fan_percentage` for a single entity (the loop body). -/
def setFanPctOne (env : Env) (f : Eff) (entityId : String) (pct : Int) : Eff :=
  let domain := domainOf entityId
  let st := env.hass.states entityId
  if domain = "fan" then
    if ¬ (env.hass.hasService "fan" "turn_on" ∧ env.hass.hasService "fan" "set_percentage") then f
    else if fanAlreadyAtPct env.hass entityId pct then f
    else
      let stateOn : Bool := match st with | some s => s.state = "on" | Option.none => false
      let f :=
        if stateOn then f
        else emit f (Cmd.svcCall "fan" "turn_on" entityId Option.none)
      emit f (Cmd.svcCall "fan" "set_percentage" entityId (some pct))
  else if domain = "switch" then
    let service := if 0 < pct then "turn_on" else "turn_off"
    if ¬ env.hass.hasService "switch" service then f
    else if switchAlreadyAt env.hass entityId (0 < pct) then f
    else emit f (Cmd.svcCall "switch" service entityId Option.none)
  else f

/-- `_set_fan_percentage`. -/
def _set_fan_percentage (env : Env) (f : Eff) (entities : List String) (pct : Int) : Eff :=
  let pct := _coerce_fan_percentage pct
  entities.foldl (fun f e => setFanPctOne env f e pct) f

/-- The skip test of the fan branch of `_set_fan_auto`
(`str(preset_mode).lower() == "auto"`, with `""` when there is no
state). -/
def fanPresetIsAuto (hass : Hass) (entityId : String) : Bool :=
  match hass.states entityId with
  | some st => pyLower (st.presetMode.getD "") = "auto"
  | Option.none => false

/-- `_set_fan_auto` for a single entity (the loop body). -/
def setFanAutoOne (env : Env) (f : Eff) (entityId : String) : Eff :=
  let domain := domainOf entityId
  if domain = "fan" then
    if ¬ env.hass.hasService "fan" "set_preset_mode" then f
    else if fanPresetIsAuto env.hass entityId then f
    else emit f (Cmd.svcCall "fan" "set_preset_mode" entityId Option.none)
  else if domain = "switch" then
    if ¬ env.hass.hasService "switch" "turn_off" then f
    else if switchAlreadyAt env.hass entityId false then f
    else emit f (Cmd.svcCall "switch" "turn_off" entityId Option.none)
  else f

/-- `_set_fan_auto`. -/
def _set_fan_auto (env : Env) (f : Eff) (entities : List String) : Eff :=
  entities.foldl (fun f e => setFanAutoOne env f e) f

/-- `_apply_fan_level`. -/
def _apply_fan_level (env : Env) (f : Eff) (entities : List String) (level : FanIn) : Eff :=
  let normalized := _normalize_fan_level level (.intVal ZONE_OUTPUT_LEVEL_DEFAULT)
  if normalized = FAN_OUTPUT_LEVEL_AUTO then _set_fan_auto env f entities
  else _set_fan_percentage env f entities ((parseIntFloat normalized).getD 0)

/-- `_set_humidifier_state` for a single entity (the loop body). -/
def setHumOne (env : Env) (f : Eff) (entityId : String) (turnOn : Bool) : Eff :=
  let domain := domainOf entityId
  let service := if turnOn then "turn_on" else "turn_off"
  if ¬ env.hass.hasService domain service then f
  else if switchAlreadyAt env.hass entityId turnOn then f
  else emit f (Cmd.svcCall domain service entityId Option.none)

/-- `_set_humidifier_state`. -/
def _set_humidifier_state (env : Env) (f : Eff) (entities : List String) (turnOn : Bool) : Eff :=
  entities.foldl (fun f e => setHumOne env f e turnOn) f

/-! ## Isolation wrappers (engine methods) -/

def _fan_outputs_isolated (f : Eff) : Bool := _bool_is_on f "air_isolate_fan_outputs"

def _humidifier_outputs_isolated (f : Eff) : Bool :=
  _bool_is_on f "air_isolate_humidifier_outputs"

/-- `_set_fan_outputs_level`. -/
def _set_fan_outputs_level (env : Env) (f : Eff) (outputs : List String) (level : FanIn) :
    Eff :=
  if _fan_outputs_isolated f then f else _apply_fan_level env f outputs level

/-- `_set_fan_outputs_auto`. -/
def _set_fan_outputs_auto (env : Env) (f : Eff) (outputs : List String) : Eff :=
  if _fan_outputs_isolated f then f else _set_fan_auto env f outputs

/-- `_set_humidifier_outputs_state`. -/
def _set_humidifier_outputs_state (env : Env) (f : Eff) (outputs : List String) (turnOn : Bool) :
    Eff :=
  if _humidifier_outputs_isolated f then f else _set_humidifier_state env f outputs turnOn

/-! ## Known outputs -/

/-- first-occurrence deduplication, modelling `list(set(...))` (only
membership is claim-relevant; Python's set order is arbitrary). -/
def dedup : List String → List String
  | [] => []
  | x :: xs => if xs.contains x then dedup xs else x :: dedup xs

/-- `_all_zone_outputs`. -/
def _all_zone_outputs (eng : Engine) : List String :=
  dedup (eng.zones.foldl (fun acc z => acc ++ z.2.outputs) [])

/-- `_all_fan_outputs`. -/
def _all_fan_outputs (eng : Engine) : List String :=
  dedup ((eng.zones.foldl (fun acc z => acc ++ z.2.outputs) []) ++
    (eng.aq.foldl (fun acc c => acc ++ c.2.outputs) []))

/-! ## CO emergency lane -/

/-- The body of the alert scan of `_co_emergency_settings`, accumulating
`(configured_outputs, configured_thresholds)`. -/
def coSettingsStep (acc : List String × List ℚ) (alert : AlertCfg) : List String × List ℚ :=
  if ¬ alert.enabled then acc
  else if alert.trigger_type ≠ some "co_emergency" then acc
  else
    let threshold :=
      _safe_alert_threshold "co_emergency" alert.threshold CO_EMERGENCY_START
    let outs := alert.outputs.filter
      (fun e => domainOf e = "fan" ∨ domainOf e = "switch")
    (acc.1 ++ outs, acc.2 ++ [threshold])

/-- `_co_emergency_settings`: effective start threshold, clear threshold,
selected outputs. -/
def _co_emergency_settings (eng : Engine) : ℚ × ℚ × List String :=
  let startThreshold : ℚ := CO_EMERGENCY_START
  let step := eng.alerts.foldl coSettingsStep ([], [])
  let configuredOutputs := step.1
  let configuredThresholds := step.2
  let startThreshold := match configuredThresholds with
    | [] => startThreshold
    | t :: rest => rest.foldl min t
  let clearThreshold := max 0 (startThreshold - 5)
  let clearThreshold :=
    if startThreshold ≤ clearThreshold then max 0 (startThreshold - 1) else clearThreshold
  match configuredOutputs with
  | [] => (startThreshold, clearThreshold, _all_fan_outputs eng)
  | _ =>
      -- the explicit seen-set dedup loop keeps first occurrences
      (startThreshold, clearThreshold, (configuredOutputs.reverse |> dedup).reverse)

/-- `_co_emergency_triggered` (also latches `_co_emergency_active`). -/
def _co_emergency_triggered (env : Env) (eng : Engine) (st : EngineState) :
    Bool × EngineState :=
  let startThreshold := (_co_emergency_settings eng).1
  let coValues := _collect_values env eng "co"
  if coValues.any (fun v => startThreshold ≤ v) then
    (true, { st with coEmergencyActive := true })
  else
    (st.coEmergencyActive, st)

/-- The body of `_co_clear_ready` once the clear threshold and the CO
readings are in hand: result and updated `_co_below_since`. -/
def coClearStep (clearThreshold : ℚ) (coValues : List ℚ) (now : Int)
    (belowSince : Option Int) : Bool × Option Int :=
  if coValues = [] then (false, belowSince)
  else if coValues.all (fun v => v < clearThreshold) then
    let b := belowSince.getD now
    (decide (120 ≤ now - b), some b)
  else (false, Option.none)

/-- `_co_clear_ready`. -/
def _co_clear_ready (env : Env) (eng : Engine) (st : EngineState) : Bool × EngineState :=
  let clearThreshold := (_co_emergency_settings eng).2.1
  let coValues := _collect_values env eng "co"
  let r := coClearStep clearThreshold coValues env.now st.coBelowSince
  (r.1, { st with coBelowSince := r.2 })

/-! ## Alert lane -/

def _alert_switch_key (idx : Nat) : String :=
  "air_alert_" ++ toString (idx + 1) ++ "_active"

def isState (hass : Hass) (entityId value : String) : Bool :=
  match hass.states entityId with
  | some st => st.state = value
  | Option.none => false

/-- `_alert_triggered`. -/
def _alert_triggered (env : Env) (eng : Engine) (alert : AlertCfg) : Bool :=
  let ttype := alert.trigger_type
  let customEntity : Bool :=
    match alert.custom_trigger with | some e => e ≠ "" | Option.none => false
  if ttype = some "custom_binary" ∧ customEntity then
    isState env.hass ((alert.custom_trigger).getD "") "on"
  else if ttype = some "condensation_danger" then
    isState env.hass "binary_sensor.hi_condensation_danger" "on"
  else if ttype = some "mould_danger" then
    isState env.hass "binary_sensor.hi_mould_danger" "on"
  else if ttype = some "humidity_danger" then
    let threshold := _safe_alert_threshold "humidity_danger" alert.threshold 75
    (_collect_values env eng "humidity").any (fun v => threshold ≤ v)
  else if ttype = some "co_emergency" then
    let threshold :=
      _safe_alert_threshold "co_emergency" alert.threshold CO_EMERGENCY_START
    (_collect_values env eng "co").any (fun v => threshold ≤ v)
  else false

def _clear_alert_activity_switches (eng : Engine) (f : Eff) : Eff :=
  (List.range (max eng.alerts.length 5)).foldl
    (fun f idx => _set_bool f (_alert_switch_key idx) false) f

/-- `_handle_alerts` (active labels feed only the reason string and are
not modelled; the flash payload is recorded as `Cmd.flashCmd`). -/
def _handle_alerts (env : Env) (eng : Engine) (st : EngineState) (f : Eff) :
    EngineState × Eff × Bool :=
  let f := _clear_alert_activity_switches eng f
  eng.alerts.enum.foldl
    (fun (acc : EngineState × Eff × Bool) idxAlert =>
      let st := acc.1
      let f := acc.2.1
      let anyActive := acc.2.2
      let idx := idxAlert.1
      let alert := idxAlert.2
      if ¬ alert.enabled then (st, f, anyActive)
      else
        let triggered := _alert_triggered env eng alert
        let f := _set_bool f (_alert_switch_key idx) triggered
        if ¬ triggered then (st, f, anyActive)
        else
          let debounced : Bool := match st.lastAlert idx with
            | some last => decide (env.now - last < 30)
            | Option.none => false
          if debounced then (st, f, true)
          else
            let st := { st with lastAlert := fun i => if i = idx then some env.now else st.lastAlert i }
            (st, emit f (Cmd.flashCmd idx), true))
    (st, f, false)

/-! ## Zone lane -/

def startsWithL : List Char → List Char → Bool
  | _, [] => true
  | [], _ :: _ => false
  | c :: cs, p :: ps => c = p && startsWithL cs ps

def containsSub (pat : List Char) : List Char → Bool
  | [] => startsWithL [] pat
  | c :: rest => startsWithL (c :: rest) pat || containsSub pat rest

/-- Python `sub in s`. -/
def strContains (s sub : String) : Bool := containsSub sub.data s.data

/-- Whether one configured zone trigger fires on the current snapshot
(the per-branch conditions of `_zone_trigger_level`). -/
def zoneTrigSat (env : Env) (eng : Engine) (zone : ZoneCfg) (level : Option String)
    (trig : String) : Bool :=
  if trig = "humidity_high" then
    let roomAvg := _rooms_avg env eng "humidity" zone.rooms
    let houseAvg := _level_avg env eng "humidity" Option.none
    let thresholdVal := zone.thresholds "humidity_high"
    match roomAvg, houseAvg, thresholdVal with
    | some r, some h, some t => decide (t ≤ r - h)
    | _, _, _ => false
  else if trig = "air_quality_bad" then
    match _level_avg env eng "iaq" level, _to_float (zone.thresholds "air_quality_bad") with
    | some iaq, some t => decide (iaq ≤ t)
    | _, _ => false
  else if trig = "condensation_risk" then
    match _worst_spread env eng, _to_float (zone.thresholds "condensation_risk") with
    | some spread, some t => decide (spread ≤ t)
    | _, _ => false
  else if trig = "mould_risk" then
    match _to_float (zone.thresholds "mould_risk") with
    | some t => decide (t ≤ ((_worst_mould_level env eng : Int) : ℚ))
    | Option.none => false
  else false

/-- The normal output level of a zone. -/
def zoneNormalLevel (zone : ZoneCfg) : String :=
  _normalize_fan_level (zone.output_level.getD (.intVal ZONE_OUTPUT_LEVEL_DEFAULT))
    (.intVal ZONE_OUTPUT_LEVEL_DEFAULT)

/-- The boost output level of a zone, after the floor clamp to the
normal level. -/
def zoneBoostLevel (zone : ZoneCfg) : String :=
  let normalLevel := zoneNormalLevel zone
  let boostLevel :=
    _normalize_fan_level (zone.boost_output_level.getD (.intVal ZONE_OUTPUT_LEVEL_BOOST_DEFAULT))
      (.intVal ZONE_OUTPUT_LEVEL_BOOST_DEFAULT)
  if _fan_level_rank (some boostLevel) < _fan_level_rank (some normalLevel) then normalLevel
  else boostLevel

/-- One iteration of the trigger loop of `_zone_trigger_level`
(`normalLevel`/`boostLevel` were computed before the loop). -/
def zoneTrigStep (env : Env) (eng : Engine) (zone : ZoneCfg) (level : Option String)
    (normalLevel boostLevel : String) (acc : Option String × List String) (trig : String) :
    Option String × List String :=
  if trig = "humidity_high" then
    if zoneTrigSat env eng zone level trig then
      (some (_max_fan_level acc.1 normalLevel), acc.2 ++ ["humidity_high"])
    else acc
  else if trig = "air_quality_bad" then
    if zoneTrigSat env eng zone level trig then
      (some (_max_fan_level acc.1 normalLevel), acc.2 ++ ["air_quality_bad"])
    else acc
  else if trig = "condensation_risk" then
    if zoneTrigSat env eng zone level trig then
      (some (_max_fan_level acc.1 boostLevel), acc.2 ++ ["condensation_risk"])
    else acc
  else if trig = "mould_risk" then
    if zoneTrigSat env eng zone level trig then
      (some (_max_fan_level acc.1 boostLevel), acc.2 ++ ["mould_risk"])
    else acc
  else acc

/-- `_zone_trigger_level` (trigger details are recorded as trigger names;
the formatted measurement text feeds only the reason string). -/
def _zone_trigger_level (env : Env) (eng : Engine) (triggers : List String) (zone : ZoneCfg)
    (level : Option String) : Option String × List String :=
  triggers.foldl
    (zoneTrigStep env eng zone level (zoneNormalLevel zone) (zoneBoostLevel zone))
    (Option.none, [])

/-- `_zone_mode_from_zone`. -/
def _zone_mode_from_zone (zoneKey : String) (zone : ZoneCfg) : String :=
  let zoneKeyLower := pyLower zoneKey
  if strContains zoneKeyLower "zone1" then "cooking"
  else if strContains zoneKeyLower "zone2" then "bathroom"
  else
    let rooms := (zone.rooms.filter (fun r => r ≠ "")).map pyLower
    if rooms.any (fun room => strContains room "kitchen") then "cooking"
    else if rooms.any (fun room =>
        strContains room "bath" || strContains room "toilet" || strContains room "shower") then
      "bathroom"
    else "zone"

/-- `_handle_zone_by_key`: issued commands, activity, zone mode (the
detail record feeds only the reason string). -/
def _handle_zone_by_key (env : Env) (eng : Engine) (f : Eff) (zoneKey : String) :
    Eff × Bool × Option String :=
  let zone := ((eng.zones.find? (fun p => p.1 = zoneKey)).map (fun p => p.2)).getD {}
  if ¬ zone.enabled then (f, false, Option.none)
  else
    let triggers := zone.triggers
    let outputs := zone.outputs
    if triggers = [] ∨ outputs = [] then (f, false, Option.none)
    else
      let r := _zone_trigger_level env eng triggers zone zone.level
      match r.1 with
      | Option.none => (f, false, Option.none)
      | some runLevel =>
          if runLevel = "" then (f, false, Option.none)
          else
            let f := _set_fan_outputs_level env f outputs (.strVal runLevel)
            (f, true, some (_zone_mode_from_zone zoneKey zone))

/-- `_set_zone_outputs_auto` (`if exclude:` is Python-falsy on `[]`). -/
def _set_zone_outputs_auto (env : Env) (eng : Engine) (f : Eff)
    (exclude : Option (List String)) : Eff :=
  let outputs := _all_zone_outputs eng
  let outputs := match exclude with
    | some ex => if ex = [] then outputs else outputs.filter (fun e => ¬ ex.contains e)
    | Option.none => outputs
  _set_fan_outputs_auto env f outputs

/-! ## AQ lane -/

def taskAlive (st : EngineState) (id : Nat) : Bool :=
  match st.aqTasks.find? (fun t => t.id = id) with
  | some t => t.alive
  | Option.none => false

/-- `task and not task.done()` for the task registered for a level. -/
def taskRunning (st : EngineState) (level : String) : Bool :=
  match st.aqMap.find? (fun p => p.1 = level) with
  | some p => taskAlive st p.2
  | Option.none => false

/-- `task.cancel()` (a finished task is also recorded this way). -/
def cancelTaskId (st : EngineState) (id : Nat) : EngineState :=
  { st with aqTasks := st.aqTasks.map (fun t => if t.id = id then { t with alive := false } else t) }

/-- `_cancel_aq_task`. -/
def _cancel_aq_task (st : EngineState) (level : String) : EngineState :=
  let st := match st.aqMap.find? (fun p => p.1 = level) with
    | some p =>
        let popped := { st with aqMap := st.aqMap.filter (fun q => q.1 ≠ level) }
        if taskAlive popped p.2 then cancelTaskId popped p.2 else popped
    | Option.none => st
  { st with aqTrigger := fun l => if l = level then false else st.aqTrigger l }

def aqActiveKey (level : String) : String :=
  "air_aq_" ++ (if level = "level2" then "upstairs" else "downstairs") ++ "_active"

def aqRunKey (level : String) : String :=
  "air_aq_" ++ (if level = "level2" then "upstairs" else "downstairs") ++ "_run"

def _set_aq_level_active (f : Eff) (level : String) (isActive : Bool) : Eff :=
  _set_bool f (aqActiveKey level) isActive

def _set_aq_level_timer (env : Env) (f : Eff) (level : String) (durationSeconds : Int) : Eff :=
  _set_timer env f (aqRunKey level) durationSeconds

def _clear_aq_level_timer (env : Env) (f : Eff) (level : String) : Eff :=
  _clear_timer env f (aqRunKey level)

/-- `_aq_trigger_details` (details recorded as trigger names; the
formatted measurement text feeds only the reason string — only emptiness
steers control flow). -/
def _aq_trigger_details (env : Env) (eng : Engine) (level : String) (cfg : AqCfg) :
    List String :=
  cfg.triggers.foldl
    (fun details trig =>
      let threshold := cfg.thresholds trig
      let details :=
        if trig = "iaq_bad" then
          match _level_avg env eng "iaq" (some level), _to_float threshold with
          | some val, some t => if val ≤ t then details ++ ["iaq_bad"] else details
          | _, _ => details
        else details
      let details :=
        if trig = "pm25_high" then
          match _level_avg env eng "pm25" (some level), _to_float threshold with
          | some val, some t => if t ≤ val then details ++ ["pm25_high"] else details
          | _, _ => details
        else details
      let details :=
        if trig = "voc_bad" then
          match _level_avg env eng "voc" (some level), _to_float threshold with
          | some val, some t => if t ≤ val then details ++ ["voc_bad"] else details
          | _, _ => details
        else details
      let details :=
        if trig = "co2_high" then
          match _level_avg env eng "co2" (some level), _to_float threshold with
          | some val, some t => if t ≤ val then details ++ ["co2_high"] else details
          | _, _ => details
        else details
      let details :=
        if trig = "co_warning" then
          match _level_avg env eng "co" (some level), _to_float threshold with
          | some val, some t => if t ≤ val then details ++ ["co_warning"] else details
          | _, _ => details
        else details
      details)
    []

/-- `_start_aq` up to the point where the fresh timer task is created and
registered (its expiry coroutine is the separate `aqTimerFire`
transition).  The dict write `_aq_tasks[level] = task` is modelled as
update-in-front (lookup-equivalent to Python's in-place update). -/
def _start_aq (env : Env) (st : EngineState) (f : Eff) (level : String) (cfg : AqCfg) :
    EngineState × Eff :=
  let outputs := cfg.outputs
  let outputLevel :=
    _normalize_fan_level (cfg.output_level.getD (.intVal ZONE_OUTPUT_LEVEL_DEFAULT))
      (.intVal ZONE_OUTPUT_LEVEL_DEFAULT)
  let duration := _bounded_int cfg.run_duration 1 (24 * 60) 30 * 60
  let f := _set_fan_outputs_level env f outputs (.strVal outputLevel)
  let f := _set_aq_level_active f level true
  let f := _set_aq_level_timer env f level duration
  let st := match st.aqMap.find? (fun p => p.1 = level) with
    | some p => cancelTaskId st p.2
    | Option.none => st
  let newTask : AqTask := { id := st.aqNextId, level := level, duration := duration, alive := true }
  let st :=
    { st with
      aqTasks := st.aqTasks ++ [newTask],
      aqNextId := st.aqNextId + 1,
      aqMap := (level, newTask.id) :: st.aqMap.filter (fun q => q.1 ≠ level) }
  (st, f)

/-- The body of the `for level, cfg in self.aq.items()` loop of
`_handle_aq`. -/
def handleAqLevel (env : Env) (eng : Engine) (acc : EngineState × Eff × Bool)
    (lc : String × AqCfg) : EngineState × Eff × Bool :=
  let st := acc.1
  let f := acc.2.1
  let active := acc.2.2
  let level := lc.1
  let cfg := lc.2
  if ¬ cfg.enabled ∨ cfg.outputs = [] then
    let st := _cancel_aq_task st level
    let f := _set_aq_level_active f level false
    let f := _clear_aq_level_timer env f level
    let st := { st with aqTrigger := fun l => if l = level then false else st.aqTrigger l }
    (st, f, active)
  else
    let running := taskRunning st level
    let trigDetails := _aq_trigger_details env eng level cfg
    let triggered := trigDetails ≠ []
    let prev := st.aqTrigger level
    let stepped : EngineState × Eff :=
      if triggered then
        if ¬ running ∨ ¬ prev then _start_aq env st f level cfg else (st, f)
      else if ¬ running then
        let st := _cancel_aq_task st level
        let f := _set_aq_level_active f level false
        let f := _clear_aq_level_timer env f level
        (st, f)
      else (st, f)
    let st := stepped.1
    let f := stepped.2
    let st := { st with aqTrigger := fun l => if l = level then triggered else st.aqTrigger l }
    -- `running` is forced true inside the triggered branch, so the lane
    -- counts as active when triggered or when the timer is still running
    (st, f, active || triggered || running)

/-- `_handle_aq`. -/
def _handle_aq (env : Env) (eng : Engine) (st : EngineState) (f : Eff) :
    EngineState × Eff × Bool :=
  let configuredLevels := eng.aq.map (fun p => p.1)
  let cleanup := (["level1", "level2"].filter (fun l => ¬ configuredLevels.contains l)).foldl
    (fun (acc : EngineState × Eff) level =>
      let st := _cancel_aq_task acc.1 level
      let f := _set_aq_level_active acc.2 level false
      let f := _clear_aq_level_timer env f level
      let st := { st with aqTrigger := fun l => if l = level then false else st.aqTrigger l }
      (st, f))
    (st, f)
  eng.aq.foldl (handleAqLevel env eng) (cleanup.1, cleanup.2, false)

/-- `_aq_outputs_reserved_by_other_levels` (a Python set; only membership
is used). -/
def _aq_outputs_reserved_by_other_levels (eng : Engine) (st : EngineState) (level : String) :
    List String :=
  dedup (eng.aq.foldl
    (fun acc oc =>
      if oc.1 ≠ level ∧ taskRunning st oc.1 then acc ++ oc.2.outputs else acc)
    [])

/-- `_active_aq_outputs`. -/
def _active_aq_outputs (eng : Engine) (st : EngineState) : List String :=
  dedup (eng.aq.foldl
    (fun acc oc => if taskRunning st oc.1 then acc ++ oc.2.outputs else acc)
    [])

/-- `_deactivate_aq_activity`. -/
def _deactivate_aq_activity (env : Env) (eng : Engine) (st : EngineState) (f : Eff)
    (setFanAuto : Bool) : EngineState × Eff :=
  let st := st.aqMap.foldl
    (fun s p => if taskAlive s p.2 then cancelTaskId s p.2 else s) st
  let st := { st with aqMap := [] }
  let f := eng.aq.foldl
    (fun f c => if setFanAuto then _set_fan_outputs_auto env f c.2.outputs else f) f
  let st := { st with aqTrigger := fun _ => false }
  let f := _set_bool f "air_aq_upstairs_active" false
  let f := _set_bool f "air_aq_downstairs_active" false
  let f := _clear_timer env f "air_aq_upstairs_run"
  let f := _clear_timer env f "air_aq_downstairs_run"
  (st, f)

/-- The expiry coroutine of the AQ timer task `taskId` (scheduled by
`_start_aq`): a no-op if the task was cancelled before firing; otherwise
re-check the triggers and either restart the run or release the outputs.
The trailing `async_request_evaluate()` of the release branch is a
separate `_evaluate` transition of the trace and is not inlined here.
The level's configuration is looked up in the engine's (fixed)
configuration, which the coroutine captured at creation time. -/
def aqTimerFire (env : Env) (eng : Engine) (st : EngineState) (f : Eff) (taskId : Nat) :
    EngineState × Eff :=
  match st.aqTasks.find? (fun t => t.id = taskId) with
  | Option.none => (st, f)
  | some t =>
      if ¬ t.alive then (st, f)
      else
        match eng.aq.find? (fun p => p.1 = t.level) with
        | Option.none => (st, f)
        | some lc =>
            let cfg := lc.2
            if _aq_trigger_details env eng t.level cfg ≠ [] then
              let r := _start_aq env st f t.level cfg
              (cancelTaskId r.1 taskId, r.2)
            else
              let reserved := _aq_outputs_reserved_by_other_levels eng st t.level
              let outputsToAuto := cfg.outputs.filter (fun e => ¬ reserved.contains e)
              let f := _set_fan_outputs_auto env f outputsToAuto
              let f := _set_aq_level_active f t.level false
              let f := _clear_aq_level_timer env f t.level
              let st := { st with aqTrigger := fun l => if l = t.level then false else st.aqTrigger l }
              (cancelTaskId st taskId, f)

/-! ## Humidifier lane -/

def _humidifier_active_key (level : String) : String :=
  "air_" ++ (if level = "level1" then "downstairs" else "upstairs") ++ "_humidifier_active"

/-- The target band of the humidifier hysteresis:
`(low, high, recovery_off)` as computed inside `_handle_humidifiers`. -/
def humBand (env : Env) (cfg : HumCfg) : ℚ × ℚ × ℚ :=
  let bandAdjust := (_to_float cfg.band_adjust).getD 0
  let recoveryInBand :=
    (_to_float cfg.recovery_in_band).getD HUMIDIFIER_RECOVERY_IN_BAND_DEFAULT
  let recoveryInBand := max 1 (min 8 recoveryInBand)
  let low := _target_low env + bandAdjust
  let high := _target_high env + bandAdjust
  let recoveryOff := min high (low + recoveryInBand)
  (low, high, recoveryOff)

/-- The body of the `for level, cfg in self.humidifiers.items()` loop of
`_handle_humidifiers` (the active-detail records feed only the reason
string and are not modelled). -/
def handleHumLevel (env : Env) (eng : Engine) (f : Eff) (lc : String × HumCfg) : Eff :=
  let level := lc.1
  let cfg := lc.2
  let activeKey := _humidifier_active_key level
  let outputs := cfg.outputs
  if ¬ cfg.enabled then
    let f := _set_humidifier_outputs_state env f outputs false
    _set_bool f activeKey false
  else if outputs = [] then _set_bool f activeKey false
  else
    match _level_avg env eng "humidity" (some level) with
    | Option.none => _set_bool f activeKey false
    | some avg =>
        let band := humBand env cfg
        let low := band.1
        let recoveryOff := band.2.2
        let currentlyActive := _bool_is_on f activeKey
        if avg ≤ low then
          if ¬ currentlyActive then
            let f := _set_humidifier_outputs_state env f outputs true
            _set_bool f activeKey true
          else f
        else if recoveryOff ≤ avg then
          if currentlyActive then
            let f := _set_humidifier_outputs_state env f outputs false
            _set_bool f activeKey false
          else f
        else f

/-- `_handle_humidifiers`. -/
def _handle_humidifiers (env : Env) (eng : Engine) (f : Eff) : Eff :=
  let configuredLevels := eng.humidifiers.map (fun p => p.1)
  let f := (["level1", "level2"].filter (fun l => ¬ configuredLevels.contains l)).foldl
    (fun f level => _set_bool f (_humidifier_active_key level) false) f
  eng.humidifiers.foldl (handleHumLevel env eng) f

/-- `_deactivate_humidifier_activity`. -/
def _deactivate_humidifier_activity (env : Env) (eng : Engine) (f : Eff)
    (turnOffOutputs : Bool) : Eff :=
  let f := eng.humidifiers.foldl
    (fun f c => if turnOffOutputs then _set_humidifier_outputs_state env f c.2.outputs false else f)
    f
  let f := _set_bool f "air_downstairs_humidifier_active" false
  _set_bool f "air_upstairs_humidifier_active" false

/-! ## Gates, pause and the evaluation cycle -/

/-- `_control_lock_reason`. -/
def _control_lock_reason (f : Eff) : Option String :=
  let controlDisabled : Bool := match f.booleans "air_control_enabled" with
    | some b => ¬ b
    | Option.none => false
  if controlDisabled then some "System control is disabled, so all automation lanes are idle."
  else
    let overrideOn : Bool := match f.booleans "air_control_manual_override" with
      | some b => b
      | Option.none => false
    if overrideOn then some "Manual override is enabled, so HI automation is standing down."
    else Option.none

/-- `_time_in_window`. -/
def _time_in_window (now start finish : Int) : Bool :=
  if start ≤ finish then start ≤ now ∧ now ≤ finish
  else start ≤ now ∨ now ≤ finish

/-- `_gate_status` (reason text abridged; only the boolean steers the
cycle). -/
def _gate_status (env : Env) (eng : Engine) : Bool × Option String :=
  let timeResult : Option (Bool × Option String) :=
    if eng.time_gate.enabled then
      match eng.time_gate.gateStart, eng.time_gate.gateEnd with
      | some s, some e =>
          if ¬ _time_in_window env.nowTime s e then
            let action := (eng.time_gate.outside_action).getD "no_action"
            if action = "no_action" then some (true, Option.none)
            else some (false, some "Time gate is outside the configured window.")
          else Option.none
      | _, _ => Option.none
    else Option.none
  match timeResult with
  | some r => r
  | Option.none =>
      if eng.presence_gate.enabled then
        let entities := eng.presence_gate.entities
        let presentStates := eng.presence_gate.present_states
        if entities ≠ [] ∧ presentStates ≠ [] then
          if entities.any (fun e =>
              match env.hass.states e with
              | some st => presentStates.contains st.state
              | Option.none => false) then
            (true, Option.none)
          else
            (false, some "Presence gate is active (no entity in present states).")
        else (true, Option.none)
      else (true, Option.none)

/-- `_pause_active`. -/
def _pause_active (env : Env) : Bool :=
  match env.timers "air_control_pause" with
  | some v => v = "active"
  | Option.none =>
      match env.hass.states "sensor.hi_air_control_pause" with
      | some st => st.state = "active"
      | Option.none => false

/-- `_return_to_normal`. -/
def _return_to_normal (env : Env) (eng : Engine) (st : EngineState) (f : Eff) :
    EngineState × Eff :=
  let f := _clear_alert_activity_switches eng f
  let f := _set_zone_outputs_auto env eng f Option.none
  let r := _deactivate_aq_activity env eng st f true
  let st := r.1
  let f := _deactivate_humidifier_activity env eng r.2 true
  (st, _set_runtime_mode f "normal")

/-- `_deactivate_non_alert_activity`. -/
def _deactivate_non_alert_activity (env : Env) (eng : Engine) (st : EngineState) (f : Eff) :
    EngineState × Eff :=
  let r := _deactivate_aq_activity env eng st f true
  let f := _set_zone_outputs_auto env eng r.2 Option.none
  (r.1, _deactivate_humidifier_activity env eng f true)

/-- `_apply_co_emergency`. -/
def _apply_co_emergency (env : Env) (eng : Engine) (st : EngineState) (f : Eff) :
    EngineState × Eff :=
  let outputs := (_co_emergency_settings eng).2.2
  let r := _deactivate_aq_activity env eng st f false
  let st := r.1
  let f := _deactivate_humidifier_activity env eng r.2 true
  let f := _clear_alert_activity_switches eng f
  let f := _set_bool f "air_co_emergency_active" true
  let allOutputs := _all_fan_outputs eng
  let outputsToAuto := allOutputs.filter (fun e => ¬ outputs.contains e)
  let f := _set_fan_outputs_auto env f outputsToAuto
  let f := _set_fan_outputs_level env f outputs (.strVal "100")
  (st, _set_runtime_mode f "co_emergency")

/-- Python `mode or default` (falsy on `""` and `None`). -/
def modeOr (m : Option String) (d : String) : String :=
  match m with
  | some s => if s = "" then d else s
  | Option.none => d

/-- The tail of `_evaluate` once the alert lane came back inactive:
humidifiers, zone1, zone2, AQ, the zone-auto release and the final
runtime mode. -/
def evalMain (env : Env) (eng : Engine) (st : EngineState) (f : Eff) :
    EngineState × Eff :=
  let f := _handle_humidifiers env eng f
  let z1 := _handle_zone_by_key env eng f "zone1"
  let z2 := _handle_zone_by_key env eng z1.1 "zone2"
  let f := z2.1
  let zone1Active := z1.2.1
  let zone2Active := z2.2.1
  let zoneOutputsActive := zone1Active || zone2Active
  let aqStep : EngineState × Eff × Bool :=
    if ¬ zoneOutputsActive then _handle_aq env eng st f
    else
      let r := _deactivate_aq_activity env eng st f (¬ zoneOutputsActive)
      (r.1, r.2, false)
  let st := aqStep.1
  let f := aqStep.2.1
  let aqActive := aqStep.2.2
  let f :=
    if ¬ (zone1Active || zone2Active) then
      _set_zone_outputs_auto env eng f
        (if aqActive then some (_active_aq_outputs eng st) else Option.none)
    else f
  let runtimeMode :=
    if zone1Active then modeOr z1.2.2 "cooking"
    else if zone2Active then modeOr z2.2.2 "bathroom"
    else if aqActive then "air_quality"
    else "normal"
  (st, _set_runtime_mode f runtimeMode)

/-- `_evaluate`: one full evaluation cycle (reason strings and the
final `_refresh_core_entities` carry no modelled observable). -/
def _evaluate (env : Env) (eng : Engine) (st : EngineState) : EngineState × Eff :=
  let f := initEff env
  match _control_lock_reason f with
  | some _ => _return_to_normal env eng st f
  | Option.none =>
      let gates := _gate_status env eng
      if ¬ gates.1 then
        let action := (eng.time_gate.outside_action).getD "safe_state"
        if action = "safe_state" then
          let r := _return_to_normal env eng st f
          (r.1, _set_runtime_mode r.2 "global_gate")
        else (st, _set_runtime_mode f "global_gate")
      else if _pause_active env then _return_to_normal env eng st f
      else
        let trig := _co_emergency_triggered env eng st
        let st := trig.2
        if trig.1 then _apply_co_emergency env eng st f
        else
          let st :=
            if st.coEmergencyActive then
              let r := _co_clear_ready env eng st
              if r.1 then { r.2 with coEmergencyActive := false, coBelowSince := Option.none }
              else r.2
            else st
          let f := _set_bool f "air_co_emergency_active" st.coEmergencyActive
          let al := _handle_alerts env eng st f
          let st := al.1
          let f := al.2.1
          let alertActive := al.2.2
          if alertActive then
            let r := _deactivate_non_alert_activity env eng st f
            (r.1, _set_runtime_mode r.2 "alert")
          else evalMain env eng st f

/-! ## Infrastructure: the command log only grows -/

/-- `g` continues `f`: commands already recorded in `f` stay recorded. -/
def Ext (f g : Eff) : Prop := ∃ l, g.cmds = f.cmds ++ l

theorem ext_rfl (f : Eff) : Ext f f := ⟨[], by simp⟩

theorem ext_trans {f g h : Eff} (h1 : Ext f g) (h2 : Ext g h) : Ext f h := by
  obtain ⟨l1, e1⟩ := h1
  obtain ⟨l2, e2⟩ := h2
  exact ⟨l1 ++ l2, by rw [e2, e1, List.append_assoc]⟩

theorem mem_of_ext {c : Cmd} {f g : Eff} (hm : c ∈ f.cmds) (he : Ext f g) : c ∈ g.cmds := by
  obtain ⟨l, e⟩ := he
  rw [e]
  exact List.mem_append_left _ hm

theorem ext_emit (f : Eff) (c : Cmd) : Ext f (emit f c) := ⟨[c], rfl⟩

theorem ext_set_bool (f : Eff) (k : String) (v : Bool) : Ext f (_set_bool f k v) := by
  unfold _set_bool
  split
  · exact ext_rfl f
  · exact ⟨[Cmd.setBoolCmd k v], rfl⟩

theorem ext_set_timer (env : Env) (f : Eff) (k : String) (d : Int) :
    Ext f (_set_timer env f k d) := by
  unfold _set_timer
  split
  · exact ext_rfl f
  · exact ext_emit f _

theorem ext_clear_timer (env : Env) (f : Eff) (k : String) :
    Ext f (_clear_timer env f k) := by
  unfold _clear_timer
  split
  · exact ext_rfl f
  · exact ext_emit f _

theorem ext_set_runtime_mode (f : Eff) (m : String) : Ext f (_set_runtime_mode f m) :=
  ⟨[], by simp [_set_runtime_mode]⟩

theorem ext_foldl {α : Type} (step : Eff → α → Eff) (hs : ∀ f a, Ext f (step f a)) :
    ∀ (l : List α) (f : Eff), Ext f (l.foldl step f)
  | [], f => ext_rfl f
  | a :: l, f => ext_trans (hs f a) (ext_foldl step hs l (step f a))

theorem ext_setFanPctOne (env : Env) (f : Eff) (e : String) (p : Int) :
    Ext f (setFanPctOne env f e p) := by
  simp only [setFanPctOne]
  split_ifs <;>
    first
      | exact ext_rfl f
      | exact ext_emit f _
      | exact ext_trans (ext_emit f _) (ext_emit _ _)

theorem ext_set_fan_percentage (env : Env) (f : Eff) (l : List String) (p : Int) :
    Ext f (_set_fan_percentage env f l p) :=
  ext_foldl _ (fun f e => ext_setFanPctOne env f e _) l f

theorem ext_setFanAutoOne (env : Env) (f : Eff) (e : String) :
    Ext f (setFanAutoOne env f e) := by
  simp only [setFanAutoOne]
  split_ifs <;> first | exact ext_rfl f | exact ext_emit f _

theorem ext_set_fan_auto (env : Env) (f : Eff) (l : List String) :
    Ext f (_set_fan_auto env f l) :=
  ext_foldl _ (fun f e => ext_setFanAutoOne env f e) l f

theorem ext_apply_fan_level (env : Env) (f : Eff) (l : List String) (lv : FanIn) :
    Ext f (_apply_fan_level env f l lv) := by
  unfold _apply_fan_level
  dsimp only
  split
  · exact ext_set_fan_auto env f l
  · exact ext_set_fan_percentage env f l _

theorem ext_setHumOne (env : Env) (f : Eff) (e : String) (onV : Bool) :
    Ext f (setHumOne env f e onV) := by
  simp only [setHumOne]
  split_ifs <;> first | exact ext_rfl f | exact ext_emit f _

theorem ext_set_humidifier_state (env : Env) (f : Eff) (l : List String) (onV : Bool) :
    Ext f (_set_humidifier_state env f l onV) :=
  ext_foldl _ (fun f e => ext_setHumOne env f e onV) l f

theorem ext_set_fan_outputs_level (env : Env) (f : Eff) (l : List String) (lv : FanIn) :
    Ext f (_set_fan_outputs_level env f l lv) := by
  unfold _set_fan_outputs_level
  split
  · exact ext_rfl f
  · exact ext_apply_fan_level env f l lv

theorem ext_set_fan_outputs_auto (env : Env) (f : Eff) (l : List String) :
    Ext f (_set_fan_outputs_auto env f l) := by
  unfold _set_fan_outputs_auto
  split
  · exact ext_rfl f
  · exact ext_set_fan_auto env f l

theorem ext_set_humidifier_outputs_state (env : Env) (f : Eff) (l : List String) (onV : Bool) :
    Ext f (_set_humidifier_outputs_state env f l onV) := by
  unfold _set_humidifier_outputs_state
  split
  · exact ext_rfl f
  · exact ext_set_humidifier_state env f l onV

theorem ext_set_zone_outputs_auto (env : Env) (eng : Engine) (f : Eff)
    (ex : Option (List String)) : Ext f (_set_zone_outputs_auto env eng f ex) :=
  ext_set_fan_outputs_auto env f _

theorem ext_clear_alert_switches (eng : Engine) (f : Eff) :
    Ext f (_clear_alert_activity_switches eng f) :=
  ext_foldl _ (fun f idx => ext_set_bool f (_alert_switch_key idx) false) _ f

theorem ext_deactivate_humidifier (env : Env) (eng : Engine) (f : Eff) (b : Bool) :
    Ext f (_deactivate_humidifier_activity env eng f b) := by
  unfold _deactivate_humidifier_activity
  refine ext_trans (ext_foldl _ (fun f c => ?_) _ f) (ext_trans (ext_set_bool _ _ _) (ext_set_bool _ _ _))
  split
  · exact ext_set_humidifier_outputs_state env f _ false
  · exact ext_rfl f

theorem ext_deactivate_aq (env : Env) (eng : Engine) (st : EngineState) (f : Eff) (b : Bool) :
    Ext f (_deactivate_aq_activity env eng st f b).2 := by
  unfold _deactivate_aq_activity
  refine ext_trans (ext_foldl _ (fun f c => ?_) _ f)
    (ext_trans (ext_set_bool _ _ _) (ext_trans (ext_set_bool _ _ _)
      (ext_trans (ext_clear_timer _ _ _) (ext_clear_timer _ _ _))))
  split
  · exact ext_set_fan_outputs_auto env f _
  · exact ext_rfl f

/-! ## Infrastructure: effect of the helpers on the boolean store -/

theorem booleans_emit (f : Eff) (c : Cmd) : (emit f c).booleans = f.booleans := rfl

theorem booleans_set_timer (env : Env) (f : Eff) (k : String) (d : Int) :
    (_set_timer env f k d).booleans = f.booleans := by
  unfold _set_timer
  split <;> rfl

theorem booleans_clear_timer (env : Env) (f : Eff) (k : String) :
    (_clear_timer env f k).booleans = f.booleans := by
  unfold _clear_timer
  split <;> rfl

theorem booleans_set_runtime_mode (f : Eff) (m : String) :
    (_set_runtime_mode f m).booleans = f.booleans := rfl

theorem booleans_foldl {α : Type} (step : Eff → α → Eff)
    (hs : ∀ f a, (step f a).booleans = f.booleans) :
    ∀ (l : List α) (f : Eff), (l.foldl step f).booleans = f.booleans
  | [], _ => rfl
  | a :: l, f => by rw [List.foldl_cons, booleans_foldl step hs l (step f a), hs f a]

theorem booleans_setFanPctOne (env : Env) (f : Eff) (e : String) (p : Int) :
    (setFanPctOne env f e p).booleans = f.booleans := by
  simp only [setFanPctOne]
  split_ifs <;> rfl

theorem booleans_setFanAutoOne (env : Env) (f : Eff) (e : String) :
    (setFanAutoOne env f e).booleans = f.booleans := by
  simp only [setFanAutoOne]
  split_ifs <;> rfl

theorem booleans_setHumOne (env : Env) (f : Eff) (e : String) (onV : Bool) :
    (setHumOne env f e onV).booleans = f.booleans := by
  simp only [setHumOne]
  split_ifs <;> rfl

theorem booleans_set_fan_percentage (env : Env) (f : Eff) (l : List String) (p : Int) :
    (_set_fan_percentage env f l p).booleans = f.booleans :=
  booleans_foldl _ (fun f e => booleans_setFanPctOne env f e _) l f

theorem booleans_set_fan_auto (env : Env) (f : Eff) (l : List String) :
    (_set_fan_auto env f l).booleans = f.booleans :=
  booleans_foldl _ (fun f e => booleans_setFanAutoOne env f e) l f

theorem booleans_apply_fan_level (env : Env) (f : Eff) (l : List String) (lv : FanIn) :
    (_apply_fan_level env f l lv).booleans = f.booleans := by
  unfold _apply_fan_level
  dsimp only
  split
  · exact booleans_set_fan_auto env f l
  · exact booleans_set_fan_percentage env f l _

theorem booleans_set_humidifier_state (env : Env) (f : Eff) (l : List String) (onV : Bool) :
    (_set_humidifier_state env f l onV).booleans = f.booleans :=
  booleans_foldl _ (fun f e => booleans_setHumOne env f e onV) l f

theorem booleans_set_fan_outputs_level (env : Env) (f : Eff) (l : List String) (lv : FanIn) :
    (_set_fan_outputs_level env f l lv).booleans = f.booleans := by
  unfold _set_fan_outputs_level
  split
  · rfl
  · exact booleans_apply_fan_level env f l lv

theorem booleans_set_fan_outputs_auto (env : Env) (f : Eff) (l : List String) :
    (_set_fan_outputs_auto env f l).booleans = f.booleans := by
  unfold _set_fan_outputs_auto
  split
  · rfl
  · exact booleans_set_fan_auto env f l

theorem booleans_set_humidifier_outputs_state (env : Env) (f : Eff) (l : List String)
    (onV : Bool) : (_set_humidifier_outputs_state env f l onV).booleans = f.booleans := by
  unfold _set_humidifier_outputs_state
  split
  · rfl
  · exact booleans_set_humidifier_state env f l onV

theorem booleans_set_zone_outputs_auto (env : Env) (eng : Engine) (f : Eff)
    (ex : Option (List String)) : (_set_zone_outputs_auto env eng f ex).booleans = f.booleans :=
  booleans_set_fan_outputs_auto env f _

/-- `_set_bool` leaves every other key unchanged. -/
theorem set_bool_booleans_ne (f : Eff) (k : String) (v : Bool) (k' : String) (h : k' ≠ k) :
    (_set_bool f k v).booleans k' = f.booleans k' := by
  unfold _set_bool
  split
  · rfl
  · simp [h]

/-- `_set_bool` on an existing key records the value. -/
theorem set_bool_booleans_eq {f : Eff} {k : String} (v : Bool) (h : (f.booleans k).isSome) :
    (_set_bool f k v).booleans k = some v := by
  unfold _set_bool
  split
  · simp_all
  · simp

/-- Generic: a fold whose step preserves a projection preserves it. -/
theorem foldl_proj {α β γ : Type} (step : β → α → β) (proj : β → γ)
    (hs : ∀ b a, proj (step b a) = proj b) :
    ∀ (l : List α) (b : β), proj (l.foldl step b) = proj b
  | [], _ => rfl
  | a :: l, b => by rw [List.foldl_cons, foldl_proj step proj hs l (step b a), hs b a]

/-! ## Infrastructure: the alert switch keys collide with no fixed key -/

theorem strDataAppend (a b : String) : (a ++ b).data = a.data ++ b.data := by
  cases a
  cases b
  rfl

/-- Character 4 of every `_alert_switch_key` is `'a'` (from the literal
prefix `"air_alert_"`). -/
theorem alert_key_get4 (idx : Nat) : (_alert_switch_key idx).data.get? 4 = some 'a' := by
  unfold _alert_switch_key
  rw [strDataAppend, strDataAppend]
  rfl

theorem alert_key_ne (idx : Nat) (k : String) (hk : k.data.get? 4 ≠ some 'a') :
    _alert_switch_key idx ≠ k := by
  intro h
  exact hk (by rw [← h]; exact alert_key_get4 idx)

theorem clear_alerts_booleans_ne (eng : Engine) (f : Eff) (k : String)
    (hk : k.data.get? 4 ≠ some 'a') :
    (_clear_alert_activity_switches eng f).booleans k = f.booleans k :=
  foldl_proj _ (fun (f : Eff) => f.booleans k)
    (fun f idx => set_bool_booleans_ne f _ false k (Ne.symm (alert_key_ne idx k hk))) _ f

theorem deactivate_humidifier_booleans_ne (env : Env) (eng : Engine) (f : Eff) (b : Bool)
    (k : String) (h1 : k ≠ "air_downstairs_humidifier_active")
    (h2 : k ≠ "air_upstairs_humidifier_active") :
    (_deactivate_humidifier_activity env eng f b).booleans k = f.booleans k := by
  unfold _deactivate_humidifier_activity
  dsimp only
  rw [set_bool_booleans_ne _ _ _ _ h2, set_bool_booleans_ne _ _ _ _ h1]
  refine foldl_proj _ (fun (f : Eff) => f.booleans k) (fun f c => ?_) _ _
  split
  · exact congrFun (booleans_set_humidifier_outputs_state env f _ false) k
  · rfl

theorem deactivate_aq_booleans_ne (env : Env) (eng : Engine) (st : EngineState) (f : Eff)
    (b : Bool) (k : String) (h1 : k ≠ "air_aq_upstairs_active")
    (h2 : k ≠ "air_aq_downstairs_active") :
    (_deactivate_aq_activity env eng st f b).2.booleans k = f.booleans k := by
  unfold _deactivate_aq_activity
  dsimp only
  rw [booleans_clear_timer, booleans_clear_timer,
    set_bool_booleans_ne _ _ _ _ h2, set_bool_booleans_ne _ _ _ _ h1]
  refine foldl_proj _ (fun (f : Eff) => f.booleans k) (fun f c => ?_) _ _
  split
  · exact congrFun (booleans_set_fan_outputs_auto env f _) k
  · rfl

/-- `_deactivate_aq_activity` never touches the CO latch fields. -/
theorem deactivate_aq_co (env : Env) (eng : Engine) (st : EngineState) (f : Eff) (b : Bool) :
    (_deactivate_aq_activity env eng st f b).1.coEmergencyActive = st.coEmergencyActive ∧
    (_deactivate_aq_activity env eng st f b).1.coBelowSince = st.coBelowSince := by
  unfold _deactivate_aq_activity
  dsimp only
  constructor
  · refine foldl_proj _ (fun (s : EngineState) => s.coEmergencyActive) (fun s p => ?_) _ _
    split <;> rfl
  · refine foldl_proj _ (fun (s : EngineState) => s.coBelowSince) (fun s p => ?_) _ _
    split <;> rfl

/-- A boolean flag that is not recorded `some true` reads as off. -/
theorem bool_is_on_false_of_ne {f : Eff} {k : String} (h : f.booleans k ≠ some true) :
    _bool_is_on f k = false := by
  unfold _bool_is_on
  cases hb : f.booleans k with
  | none => rfl
  | some b =>
      cases b with
      | false => rfl
      | true => exact absurd hb h

/-! ## Infrastructure: emission membership -/

theorem mem_emit (f : Eff) (c : Cmd) : c ∈ (emit f c).cmds := by simp [emit]

theorem cmds_set_runtime_mode (f : Eff) (m : String) :
    (_set_runtime_mode f m).cmds = f.cmds := rfl

theorem foldl_mem_of_mem {α : Type} (step : Eff → α → Eff) (hext : ∀ f a, Ext f (step f a))
    (e : α) (target : Cmd) (hstep : ∀ f, target ∈ (step f e).cmds) :
    ∀ (l : List α) (f : Eff), e ∈ l → target ∈ (l.foldl step f).cmds
  | a :: l, f, hm => by
      rcases List.mem_cons.mp hm with h | h
      · rw [List.foldl_cons]
        exact mem_of_ext (h ▸ hstep f) (ext_foldl step hext l (step f a))
      · exact foldl_mem_of_mem step hext e target hstep l (step f a) h

/-- `_set_fan_percentage` issues `fan.set_percentage` for every listed
fan entity whose services are available and that is not already at the
requested percentage. -/
theorem mem_set_fan_percentage (env : Env) (f : Eff) (l : List String) (pct : Int)
    (e : String) (hmem : e ∈ l) (hdom : domainOf e = "fan")
    (h1 : env.hass.hasService "fan" "turn_on" = true)
    (h2 : env.hass.hasService "fan" "set_percentage" = true)
    (h3 : fanAlreadyAtPct env.hass e (_coerce_fan_percentage pct) = false) :
    Cmd.svcCall "fan" "set_percentage" e (some (_coerce_fan_percentage pct)) ∈
      (_set_fan_percentage env f l pct).cmds := by
  unfold _set_fan_percentage
  dsimp only
  refine foldl_mem_of_mem _ (fun f a => ext_setFanPctOne env f a _) e _ (fun f => ?_) l f hmem
  simp only [setFanPctOne, hdom, h1, h2, h3]
  simp [emit]

/-- `_set_fan_auto` issues `fan.set_preset_mode` for every listed fan
entity not already in its auto preset. -/
theorem mem_set_fan_auto (env : Env) (f : Eff) (l : List String)
    (e : String) (hmem : e ∈ l) (hdom : domainOf e = "fan")
    (h1 : env.hass.hasService "fan" "set_preset_mode" = true)
    (h2 : fanPresetIsAuto env.hass e = false) :
    Cmd.svcCall "fan" "set_preset_mode" e Option.none ∈ (_set_fan_auto env f l).cmds := by
  refine foldl_mem_of_mem _ (fun f a => ext_setFanAutoOne env f a) e _ (fun f => ?_) l f hmem
  simp only [setFanAutoOne, hdom, h1, h2]
  simp [emit]

/-- `_set_fan_percentage` at level 100 issues `switch.turn_on` for every
listed switch entity whose service is available and that is not already
on. -/
theorem mem_set_fan_percentage_switch (env : Env) (f : Eff) (l : List String)
    (e : String) (hmem : e ∈ l) (hdom : domainOf e = "switch")
    (h1 : env.hass.hasService "switch" "turn_on" = true)
    (h2 : switchAlreadyAt env.hass e true = false) :
    Cmd.svcCall "switch" "turn_on" e Option.none ∈
      (_set_fan_percentage env f l 100).cmds := by
  unfold _set_fan_percentage
  dsimp only
  have hc : _coerce_fan_percentage 100 = 100 := by decide
  rw [hc]
  refine foldl_mem_of_mem _ (fun f a => ext_setFanPctOne env f a _) e _ (fun f => ?_) l f hmem
  simp only [setFanPctOne, hdom, h1, h2]
  simp [emit, h1, h2]

/-- `_set_humidifier_state` issues `turn_on`/`turn_off` in the entity's
domain for every listed entity not already in the requested state. -/
theorem mem_set_humidifier_state (env : Env) (f : Eff) (l : List String) (onV : Bool)
    (e : String) (hmem : e ∈ l)
    (h1 : env.hass.hasService (domainOf e) (if onV then "turn_on" else "turn_off") = true)
    (h2 : switchAlreadyAt env.hass e onV = false) :
    Cmd.svcCall (domainOf e) (if onV then "turn_on" else "turn_off") e Option.none ∈
      (_set_humidifier_state env f l onV).cmds := by
  refine foldl_mem_of_mem _ (fun f a => ext_setHumOne env f a onV) e _ (fun f => ?_) l f hmem
  simp only [setHumOne, h1, h2]
  simp [emit]

/-! ## Infrastructure: the CO-emergency lane -/

/-- With the fan-isolation flag off, the isolation wrapper releases to
the raw driver. -/
theorem set_fan_outputs_auto_eq (env : Env) (f : Eff) (outs : List String)
    (hiso : f.booleans "air_isolate_fan_outputs" ≠ some true) :
    _set_fan_outputs_auto env f outs = _set_fan_auto env f outs := by
  unfold _set_fan_outputs_auto _fan_outputs_isolated
  rw [bool_is_on_false_of_ne hiso]
  simp

/-- With the fan-isolation flag off, requesting level `"100"` is a
`set_percentage 100` drive. -/
theorem set_fan_outputs_level100_eq (env : Env) (f : Eff) (outs : List String)
    (hiso : f.booleans "air_isolate_fan_outputs" ≠ some true) :
    _set_fan_outputs_level env f outs (.strVal "100") = _set_fan_percentage env f outs 100 := by
  unfold _set_fan_outputs_level _fan_outputs_isolated
  rw [bool_is_on_false_of_ne hiso]
  have h100 : _normalize_fan_level (FanIn.strVal "100") (.intVal ZONE_OUTPUT_LEVEL_DEFAULT) = "100" := by decide
  simp [_apply_fan_level, h100, FAN_OUTPUT_LEVEL_AUTO]
  rfl

theorem apply_co_emergency_state (env : Env) (eng : Engine) (st : EngineState) (f : Eff) :
    (_apply_co_emergency env eng st f).1.coEmergencyActive = st.coEmergencyActive ∧
    (_apply_co_emergency env eng st f).1.coBelowSince = st.coBelowSince := by
  unfold _apply_co_emergency
  dsimp only
  exact deactivate_aq_co env eng st f false

theorem apply_co_emergency_mode (env : Env) (eng : Engine) (st : EngineState) (f : Eff) :
    (_apply_co_emergency env eng st f).2.runtimeMode = some "co_emergency" := rfl

/-- The fan drive of `_apply_co_emergency`: with fan isolation off, every
selected fan gets `set_percentage 100` (unless already there) and every
non-selected known fan gets `set_preset_mode auto` (unless already
there). -/
theorem apply_co_emergency_cmds (env : Env) (eng : Engine) (st : EngineState) (f : Eff)
    (hiso : f.booleans "air_isolate_fan_outputs" ≠ some true) :
    (∀ e ∈ (_co_emergency_settings eng).2.2,
        domainOf e = "fan" →
        env.hass.hasService "fan" "turn_on" = true →
        env.hass.hasService "fan" "set_percentage" = true →
        fanAlreadyAtPct env.hass e 100 = false →
        Cmd.svcCall "fan" "set_percentage" e (some 100) ∈
          (_apply_co_emergency env eng st f).2.cmds) ∧
    (∀ e ∈ (_co_emergency_settings eng).2.2,
        domainOf e = "switch" →
        env.hass.hasService "switch" "turn_on" = true →
        switchAlreadyAt env.hass e true = false →
        Cmd.svcCall "switch" "turn_on" e Option.none ∈
          (_apply_co_emergency env eng st f).2.cmds) ∧
    (∀ e ∈ (_all_fan_outputs eng).filter
        (fun e => ¬ (_co_emergency_settings eng).2.2.contains e),
        domainOf e = "fan" →
        env.hass.hasService "fan" "set_preset_mode" = true →
        fanPresetIsAuto env.hass e = false →
        Cmd.svcCall "fan" "set_preset_mode" e Option.none ∈
          (_apply_co_emergency env eng st f).2.cmds) := by
  unfold _apply_co_emergency
  dsimp only
  set f1 := (_deactivate_aq_activity env eng st f false).2 with hf1
  set f2 := _deactivate_humidifier_activity env eng f1 true with hf2
  set f3 := _clear_alert_activity_switches eng f2 with hf3
  set f4 := _set_bool f3 "air_co_emergency_active" true with hf4
  have s4 : f4.booleans "air_isolate_fan_outputs" ≠ some true := by
    have c4 : f4.booleans "air_isolate_fan_outputs" = f.booleans "air_isolate_fan_outputs" := by
      rw [hf4, set_bool_booleans_ne _ _ _ _ (by decide), hf3,
        clear_alerts_booleans_ne _ _ _ (by decide), hf2,
        deactivate_humidifier_booleans_ne _ _ _ _ _ (by decide) (by decide), hf1,
        deactivate_aq_booleans_ne _ _ _ _ _ _ (by decide) (by decide)]
    rw [c4]
    exact hiso
  rw [set_fan_outputs_auto_eq env f4 _ s4]
  have s5 : (_set_fan_auto env f4
      ((_all_fan_outputs eng).filter
        (fun e => ¬ (_co_emergency_settings eng).2.2.contains e))).booleans
      "air_isolate_fan_outputs" ≠ some true := by
    rw [congrFun (booleans_set_fan_auto env f4 _) "air_isolate_fan_outputs"]
    exact s4
  rw [set_fan_outputs_level100_eq env _ _ s5]
  refine ⟨?_, ?_, ?_⟩
  · intro e he hdom h1 h2 h3
    have hc : _coerce_fan_percentage 100 = 100 := by decide
    have hm := mem_set_fan_percentage env
      (_set_fan_auto env f4
        ((_all_fan_outputs eng).filter
          (fun e => ¬ (_co_emergency_settings eng).2.2.contains e)))
      (_co_emergency_settings eng).2.2 100 e he hdom h1 h2 (by rw [hc]; exact h3)
    rw [hc] at hm
    exact hm
  · intro e he hdom h1 h2
    exact mem_set_fan_percentage_switch env
      (_set_fan_auto env f4
        ((_all_fan_outputs eng).filter
          (fun e => ¬ (_co_emergency_settings eng).2.2.contains e)))
      (_co_emergency_settings eng).2.2 e he hdom h1 h2
  · intro e he hdom h1 h2
    exact mem_of_ext (mem_set_fan_auto env f4 _ e he hdom h1 h2)
      (ext_set_fan_percentage env _ _ 100)

/-- Under passing control lock, gate and pause, a positive
`_co_emergency_triggered` makes the cycle the CO-emergency branch. -/
theorem evaluate_co_branch (env : Env) (eng : Engine) (st : EngineState)
    (hlock : _control_lock_reason (initEff env) = Option.none)
    (hgate : (_gate_status env eng).1 = true)
    (hpause : _pause_active env = false)
    (htrig : (_co_emergency_triggered env eng st).1 = true) :
    _evaluate env eng st =
      _apply_co_emergency env eng (_co_emergency_triggered env eng st).2 (initEff env) := by
  unfold _evaluate
  dsimp only
  rw [hlock]
  simp [hgate, hpause, htrig]

/-- A reading at or above the start threshold makes
`_co_emergency_triggered` fire and latch. -/
theorem co_triggered_of_high (env : Env) (eng : Engine) (st : EngineState)
    (hco : ∃ v ∈ _collect_values env eng "co", (_co_emergency_settings eng).1 ≤ v) :
    _co_emergency_triggered env eng st = (true, { st with coEmergencyActive := true }) := by
  unfold _co_emergency_triggered
  dsimp only
  rw [if_pos]
  rw [List.any_eq_true]
  obtain ⟨v, hv, hle⟩ := hco
  exact ⟨v, hv, by simpa using hle⟩

/-- When `_co_emergency_triggered` comes back false the state is
untouched and the latch was already clear. -/
theorem co_triggered_false (env : Env) (eng : Engine) (st : EngineState)
    (h : (_co_emergency_triggered env eng st).1 = false) :
    _co_emergency_triggered env eng st = (false, st) ∧ st.coEmergencyActive = false := by
  unfold _co_emergency_triggered at h ⊢
  dsimp only at h ⊢
  split at h
  · exact absurd h (by simp)
  · rename_i hc
    rw [if_neg hc]
    simp only [] at h
    exact ⟨by rw [h], h⟩

/-! ## Claim C1 -/

/-- C1: in an evaluation cycle that reaches the CO-emergency lane
(control lock, gate and pause all pass) with some configured CO sensor
reading at or above the effective start threshold, the cycle latches
`coEmergencyActive = true`, publishes runtime mode `co_emergency`, drives
every selected output (per `_co_emergency_settings`) to level 100, and
drives every other known fan output to auto — stated here for fan-domain
entities through the idempotent output driver, with the fan-isolation
test flag off. -/
theorem c1_co_emergency_forces_outputs (env : Env) (eng : Engine) (st : EngineState)
    (hlock : _control_lock_reason (initEff env) = Option.none)
    (hgate : (_gate_status env eng).1 = true)
    (hpause : _pause_active env = false)
    (hco : ∃ v ∈ _collect_values env eng "co", (_co_emergency_settings eng).1 ≤ v)
    (hiso : env.booleans0 "air_isolate_fan_outputs" ≠ some true) :
    (_evaluate env eng st).1.coEmergencyActive = true ∧
    (_evaluate env eng st).2.runtimeMode = some "co_emergency" ∧
    (∀ e ∈ (_co_emergency_settings eng).2.2,
        domainOf e = "fan" →
        env.hass.hasService "fan" "turn_on" = true →
        env.hass.hasService "fan" "set_percentage" = true →
        fanAlreadyAtPct env.hass e 100 = false →
        Cmd.svcCall "fan" "set_percentage" e (some 100) ∈ (_evaluate env eng st).2.cmds) ∧
    (∀ e ∈ (_co_emergency_settings eng).2.2,
        domainOf e = "switch" →
        env.hass.hasService "switch" "turn_on" = true →
        switchAlreadyAt env.hass e true = false →
        Cmd.svcCall "switch" "turn_on" e Option.none ∈ (_evaluate env eng st).2.cmds) ∧
    (∀ e ∈ (_all_fan_outputs eng).filter
        (fun e => ¬ (_co_emergency_settings eng).2.2.contains e),
        domainOf e = "fan" →
        env.hass.hasService "fan" "set_preset_mode" = true →
        fanPresetIsAuto env.hass e = false →
        Cmd.svcCall "fan" "set_preset_mode" e Option.none ∈ (_evaluate env eng st).2.cmds) := by
  have ht := co_triggered_of_high env eng st hco
  have hbr := evaluate_co_branch env eng st hlock hgate hpause (by rw [ht])
  rw [ht] at hbr
  rw [hbr]
  have hcmds := apply_co_emergency_cmds env eng { st with coEmergencyActive := true }
    (initEff env) hiso
  exact ⟨(apply_co_emergency_state env eng _ _).1,
    apply_co_emergency_mode env eng _ _, hcmds.1, hcmds.2.1, hcmds.2.2⟩

/-- Witness fixture for C1: one CO sensor at 20 ppm, a `co_emergency`
alert selecting `fan.a` and `switch.s`, and `fan.b` as the other known
fan output. -/
def hassC1 : Hass :=
  { states := fun e =>
      if e = "sensor.co1" then some { state := "20" }
      else if e = "fan.a" then some { state := "off" }
      else if e = "switch.s" then some { state := "off" }
      else if e = "fan.b" then some { state := "on", presetMode := some "none" }
      else Option.none,
    hasService := fun _ _ => true }

def envC1 : Env :=
  { hass := hassC1, booleans0 := fun _ => Option.none, timers := fun _ => Option.none,
    now := 0, month := 1, nowTime := 600, lnQ := fun _ => 0 }

def engC1 : Engine :=
  { telemetry := [{ entity_id := some "sensor.co1", sensor_type := some "co" }],
    zones := [("zone1", { outputs := ["fan.a", "fan.b"] })],
    alerts := [{ enabled := true, trigger_type := some "co_emergency",
                 outputs := ["fan.a", "switch.s"] }] }

theorem c1_witness :
    (∃ v ∈ _collect_values envC1 engC1 "co", (_co_emergency_settings engC1).1 ≤ v) ∧
    (_evaluate envC1 engC1 {}).1.coEmergencyActive = true ∧
    (_evaluate envC1 engC1 {}).2.runtimeMode = some "co_emergency" ∧
    Cmd.svcCall "fan" "set_percentage" "fan.a" (some 100) ∈ (_evaluate envC1 engC1 {}).2.cmds ∧
    Cmd.svcCall "switch" "turn_on" "switch.s" Option.none ∈ (_evaluate envC1 engC1 {}).2.cmds ∧
    Cmd.svcCall "fan" "set_preset_mode" "fan.b" Option.none ∈ (_evaluate envC1 engC1 {}).2.cmds := by
  have h := c1_co_emergency_forces_outputs envC1 engC1 {} (by decide) (by decide) (by decide)
    ⟨20, by decide, by decide⟩ (by decide)
  exact ⟨⟨20, by decide, by decide⟩, h.1, h.2.1,
    h.2.2.1 "fan.a" (by decide) (by decide) rfl rfl (by decide),
    h.2.2.2.1 "switch.s" (by decide) (by decide) rfl (by decide),
    h.2.2.2.2 "fan.b" (by decide) (by decide) rfl (by decide)⟩

/-! ## Claim C10 -/

/-- C10: while `coEmergencyActive` is latched and no CO telemetry value
is readable, the clear check `_co_clear_ready` returns false without
starting or advancing the below-since clock, and the cycle keeps the
emergency lane engaged: runtime mode stays `co_emergency`, the latch
stays set and `coBelowSince` is unchanged. -/
theorem c10_latch_holds_without_readings (env : Env) (eng : Engine) (st : EngineState)
    (hlock : _control_lock_reason (initEff env) = Option.none)
    (hgate : (_gate_status env eng).1 = true)
    (hpause : _pause_active env = false)
    (hlatch : st.coEmergencyActive = true)
    (hvals : _collect_values env eng "co" = []) :
    _co_clear_ready env eng st = (false, st) ∧
    (_evaluate env eng st).1.coEmergencyActive = true ∧
    (_evaluate env eng st).2.runtimeMode = some "co_emergency" ∧
    (_evaluate env eng st).1.coBelowSince = st.coBelowSince := by
  have htrig : _co_emergency_triggered env eng st = (true, st) := by
    unfold _co_emergency_triggered
    dsimp only
    rw [hvals]
    simp [hlatch]
  have hbr := evaluate_co_branch env eng st hlock hgate hpause (by rw [htrig])
  rw [htrig] at hbr
  refine ⟨?_, ?_, ?_, ?_⟩
  · unfold _co_clear_ready
    dsimp only
    rw [hvals]
    rfl
  · rw [hbr, (apply_co_emergency_state env eng st (initEff env)).1]
    exact hlatch
  · rw [hbr]
    exact apply_co_emergency_mode env eng st (initEff env)
  · rw [hbr]
    exact (apply_co_emergency_state env eng st (initEff env)).2

/-- Witness fixture for C10: a configured CO sensor whose state is
`unavailable` while the latch is set. -/
def hassC10 : Hass :=
  { states := fun e =>
      if e = "sensor.co1" then some { state := "unavailable" } else Option.none,
    hasService := fun _ _ => true }

def envC10 : Env :=
  { hass := hassC10,
    booleans0 := fun _ => Option.none, timers := fun _ => Option.none,
    now := 0, month := 1, nowTime := 600, lnQ := fun _ => 0 }

def engC10 : Engine :=
  { telemetry := [{ entity_id := some "sensor.co1", sensor_type := some "co" }] }

theorem c10_witness :
    _collect_values envC10 engC10 "co" = [] ∧
    _co_clear_ready envC10 engC10 { coEmergencyActive := true, coBelowSince := some 7 } =
      (false, { coEmergencyActive := true, coBelowSince := some 7 }) ∧
    (_evaluate envC10 engC10 { coEmergencyActive := true, coBelowSince := some 7 }).1.coEmergencyActive = true ∧
    (_evaluate envC10 engC10 { coEmergencyActive := true, coBelowSince := some 7 }).2.runtimeMode = some "co_emergency" ∧
    (_evaluate envC10 engC10 { coEmergencyActive := true, coBelowSince := some 7 }).1.coBelowSince = some 7 := by
  have h := c10_latch_holds_without_readings envC10 engC10
    { coEmergencyActive := true, coBelowSince := some 7 }
    (by decide) (by decide) (by decide) (by decide) (by decide)
  exact ⟨by decide, h.1, h.2.1, h.2.2.1, h.2.2.2⟩

/-! ## Claim C2 -/

/-- Fixture for C2: one CO sensor, reading 0 ppm at `t = 0` and at
`t = 180 s`, with the latch initially set. -/
def engC2 : Engine :=
  { telemetry := [{ entity_id := some "sensor.co1", sensor_type := some "co" }] }

def hassC2 : Hass :=
  { states := fun e =>
      if e = "sensor.co1" then some { state := "0" } else Option.none,
    hasService := fun _ _ => true }

def envC2a : Env :=
  { hass := hassC2,
    booleans0 := fun _ => Option.none, timers := fun _ => Option.none,
    now := 0, month := 1, nowTime := 600, lnQ := fun _ => 0 }

def envC2b : Env := { envC2a with now := 180 }

def stC2 : EngineState := { coEmergencyActive := true }

/-- C2 (code bug): once latched, the CO-emergency latch can never clear.
`_co_emergency_triggered` returns the latch itself when no reading is at
or above the start threshold, so every latched cycle takes the emergency
branch and returns before the clear check at engine.py:169 — with all
readings at 0 ppm (far below the clear threshold 10) for 3 minutes, two
consecutive cycles still publish `co_emergency` and keep the latch,
while the hysteresis step `coClearStep` itself (the body of
`_co_clear_ready` the spec describes) would have started the below-since
clock at the first cycle and reported clear-ready at the second. -/
theorem c2_co_latch_never_clears :
    ((_evaluate envC2a engC2 stC2).2.runtimeMode = some "co_emergency" ∧
      (_evaluate envC2a engC2 stC2).1.coEmergencyActive = true) ∧
    ((_evaluate envC2b engC2 (_evaluate envC2a engC2 stC2).1).2.runtimeMode =
        some "co_emergency" ∧
      (_evaluate envC2b engC2 (_evaluate envC2a engC2 stC2).1).1.coEmergencyActive = true) ∧
    (coClearStep (_co_emergency_settings engC2).2.1 (_collect_values envC2a engC2 "co") 0
        Option.none).2 = some 0 ∧
    (coClearStep (_co_emergency_settings engC2).2.1 (_collect_values envC2b engC2 "co") 180
        (some 0)).1 = true := by
  decide

/-! ## Claim C3 -/

/-- The thresholds accumulated by the alert scan of
`_co_emergency_settings`: one per enabled `co_emergency` alert, the
custom value clamped (or the default when absent). -/
def coContribsList (alerts : List AlertCfg) : List ℚ :=
  (alerts.filter
      (fun a => a.enabled && decide (a.trigger_type = some "co_emergency"))).map
    (fun a => _safe_alert_threshold "co_emergency" a.threshold CO_EMERGENCY_START)

/-- Modelled from the spec's words (claim side, for comparison): the
minimum of the clamped custom thresholds over enabled `co_emergency`
alerts that define one; 15 when none does. -/
def claimStartThreshold (eng : Engine) : ℚ :=
  let custom := (eng.alerts.filter
      (fun a => a.enabled && decide (a.trigger_type = some "co_emergency") &&
        a.threshold.isSome)).map
    (fun a => _safe_alert_threshold "co_emergency" a.threshold CO_EMERGENCY_START)
  match custom with
  | [] => CO_EMERGENCY_START
  | t :: r => r.foldl min t

theorem coSettings_thresholds :
    ∀ (l : List AlertCfg) (acc : List String × List ℚ),
      (l.foldl coSettingsStep acc).2 = acc.2 ++ coContribsList l := by
  intro l
  induction l with
  | nil => intro acc; simp [coContribsList]
  | cons a l ih =>
      intro acc
      rw [List.foldl_cons]
      by_cases he : a.enabled
      · by_cases ht : a.trigger_type = some "co_emergency"
        · rw [ih]
          simp [coSettingsStep, coContribsList, he, ht]
        · rw [ih]
          simp [coSettingsStep, coContribsList, he, ht]
      · rw [ih]
        simp [coSettingsStep, coContribsList, he]

theorem settings_start_eq (eng : Engine) :
    (_co_emergency_settings eng).1 =
      (match coContribsList eng.alerts with
       | [] => CO_EMERGENCY_START
       | t :: r => r.foldl min t) := by
  unfold _co_emergency_settings
  dsimp only
  rw [coSettings_thresholds eng.alerts ([], [])]
  dsimp only
  split <;> rfl

theorem settings_clear_formula (eng : Engine) :
    (_co_emergency_settings eng).2.1 =
      (if (_co_emergency_settings eng).1 ≤ max 0 ((_co_emergency_settings eng).1 - 5)
       then max 0 ((_co_emergency_settings eng).1 - 1)
       else max 0 ((_co_emergency_settings eng).1 - 5)) := by
  unfold _co_emergency_settings
  dsimp only
  split <;> rfl

theorem foldl_min_le_init (l : List ℚ) : ∀ t, l.foldl min t ≤ t := by
  induction l with
  | nil => intro t; exact le_refl t
  | cons a l ih =>
      intro t
      exact le_trans (ih (min t a)) (min_le_left t a)

theorem foldl_min_le_mem (l : List ℚ) : ∀ t, ∀ x ∈ l, l.foldl min t ≤ x := by
  induction l with
  | nil => intro t x hx; cases hx
  | cons a l ih =>
      intro t x hx
      rcases List.mem_cons.mp hx with h | h
      · subst h
        exact le_trans (foldl_min_le_init l (min t x)) (min_le_right t x)
      · exact ih (min t a) x h

theorem le_foldl_min (l : List ℚ) (b : ℚ) : ∀ t, b ≤ t → (∀ x ∈ l, b ≤ x) →
    b ≤ l.foldl min t := by
  induction l with
  | nil => intro t ht _; exact ht
  | cons a l ih =>
      intro t ht hall
      exact ih (min t a) (le_min ht (hall a (List.mem_cons_self a l)))
        (fun x hx => hall x (List.mem_cons_of_mem a hx))

theorem foldl_min_mem (l : List ℚ) : ∀ t, l.foldl min t = t ∨ l.foldl min t ∈ l := by
  induction l with
  | nil => intro t; exact Or.inl rfl
  | cons a l ih =>
      intro t
      rcases ih (min t a) with h | h
      · rcases min_choice t a with h2 | h2
        · exact Or.inl (by rw [List.foldl_cons, h, h2])
        · refine Or.inr ?_
          rw [List.foldl_cons, h, h2]
          exact List.mem_cons_self a l
      · exact Or.inr (List.mem_cons_of_mem a h)

theorem safe_co_threshold_bounds (th : Option ℚ) (fb : ℚ) :
    10 ≤ _safe_alert_threshold "co_emergency" th fb ∧
    _safe_alert_threshold "co_emergency" th fb ≤ 100 := by
  unfold _safe_alert_threshold alertThresholdBounds _to_float
  simp only [reduceIte, String.reduceEq, if_false, if_true]
  refine ⟨le_max_left _ _, max_le (by norm_num) (le_trans (min_le_left _ _) (by norm_num))⟩

theorem contribs_bounds (alerts : List AlertCfg) :
    ∀ x ∈ coContribsList alerts, 10 ≤ x ∧ x ≤ 100 := by
  intro x hx
  unfold coContribsList at hx
  obtain ⟨a, _, ha⟩ := List.mem_map.mp hx
  rw [← ha]
  exact safe_co_threshold_bounds a.threshold CO_EMERGENCY_START

/-- C3 (amended): every enabled `co_emergency` alert contributes a
threshold — its custom value clamped into [10, 100], or the default 15
when it defines none — and the minimum contribution is the effective
start threshold (default 15 with no such alerts); the start threshold
always lies in [10, 100], so the clear threshold is exactly start − 5
(the `start − 1` fallback is unreachable) and is nonnegative. -/
theorem c3_threshold_resolution (eng : Engine) :
    ((_co_emergency_settings eng).1 =
      (match coContribsList eng.alerts with
       | [] => CO_EMERGENCY_START
       | t :: r => r.foldl min t)) ∧
    (coContribsList eng.alerts = [] → (_co_emergency_settings eng).1 = 15) ∧
    (∀ x ∈ coContribsList eng.alerts,
      10 ≤ x ∧ x ≤ 100 ∧ (_co_emergency_settings eng).1 ≤ x) ∧
    (coContribsList eng.alerts ≠ [] →
      (_co_emergency_settings eng).1 ∈ coContribsList eng.alerts) ∧
    10 ≤ (_co_emergency_settings eng).1 ∧ (_co_emergency_settings eng).1 ≤ 100 ∧
    (_co_emergency_settings eng).2.1 = (_co_emergency_settings eng).1 - 5 ∧
    0 ≤ (_co_emergency_settings eng).2.1 := by
  have hstart := settings_start_eq eng
  have hbounds : 10 ≤ (_co_emergency_settings eng).1 ∧ (_co_emergency_settings eng).1 ≤ 100 := by
    rw [hstart]
    cases hc : coContribsList eng.alerts with
    | nil => norm_num [CO_EMERGENCY_START]
    | cons t r =>
        have htb := contribs_bounds eng.alerts t (hc ▸ List.mem_cons_self t r)
        constructor
        · exact le_foldl_min r 10 t htb.1
            (fun x hx => (contribs_bounds eng.alerts x (hc ▸ List.mem_cons_of_mem t hx)).1)
        · exact le_trans (foldl_min_le_init r t) htb.2
  have hclear : (_co_emergency_settings eng).2.1 = (_co_emergency_settings eng).1 - 5 := by
    rw [settings_clear_formula eng]
    have h5 : max 0 ((_co_emergency_settings eng).1 - 5) = (_co_emergency_settings eng).1 - 5 :=
      max_eq_right (by linarith [hbounds.1])
    rw [h5, if_neg (by linarith [hbounds.1])]
  refine ⟨hstart, ?_, ?_, ?_, hbounds.1, hbounds.2, hclear, ?_⟩
  · intro hc
    rw [hstart, hc]
    rfl
  · intro x hx
    have hb := contribs_bounds eng.alerts x hx
    refine ⟨hb.1, hb.2, ?_⟩
    rw [hstart]
    cases hc : coContribsList eng.alerts with
    | nil => rw [hc] at hx; cases hx
    | cons t r =>
        dsimp only
        rw [hc] at hx
        rcases List.mem_cons.mp hx with h | h
        · exact h ▸ foldl_min_le_init r t
        · exact foldl_min_le_mem r t x h
  · intro hc
    rw [hstart]
    cases hcc : coContribsList eng.alerts with
    | nil => exact absurd hcc hc
    | cons t r =>
        dsimp only
        rcases foldl_min_mem r t with h | h
        · rw [h]; exact List.mem_cons_self t r
        · exact List.mem_cons_of_mem t h
  · rw [hclear]
    linarith [hbounds.1]

/-- Counterexample engine for C3: two enabled `co_emergency` alerts, one
without a custom threshold (contributing the default 15) and one with
threshold 20. -/
def engC3 : Engine :=
  { alerts := [{ enabled := true, trigger_type := some "co_emergency" },
               { enabled := true, trigger_type := some "co_emergency", threshold := some 20 }] }

/-- C3 counterexample: with a thresholdless enabled `co_emergency` alert
alongside one at 20, the code's effective start threshold is 15 (the
default contributed by the thresholdless alert), not the minimum 20 of
the alerts that define a custom threshold as the claim states. -/
theorem c3_counterexample :
    (_co_emergency_settings engC3).1 = 15 ∧ claimStartThreshold engC3 = 20 ∧
    (15 : ℚ) ≠ 20 := by
  decide

theorem c3_witness :
    (_co_emergency_settings ({} : Engine)).1 = 15 ∧
    10 ≤ (_co_emergency_settings engC3).1 ∧
    (_co_emergency_settings engC3).2.1 = (_co_emergency_settings engC3).1 - 5 ∧
    (_co_emergency_settings engC3).1 ∈ coContribsList engC3.alerts := by
  exact ⟨(c3_threshold_resolution {}).2.1 (by decide),
    (c3_threshold_resolution engC3).2.2.2.2.1,
    (c3_threshold_resolution engC3).2.2.2.2.2.2.1,
    (c3_threshold_resolution engC3).2.2.2.1 (by decide)⟩

/-! ## Claim C9 -/

/-- C9 counterexample: a `None` input does not map to `auto` — it falls
back to the call's fallback level (here the zone default 66). -/
theorem c9_counterexample :
    _normalize_fan_level FanIn.none (.intVal 66) = "66" ∧ ("66" : String) ≠ "auto" := by
  decide

/-- C9 (amended): fan-level normalisation maps every integer input at or
below 0 to `auto`, every input at or above 100 to `"100"`, and every
other integer to the nearest of {33, 66, 100} by absolute difference
(first step winning exact ties), so 50 ↦ 66 and 150 ↦ 100; the inputs 0
and `"0%"` map to `auto`; a `None` input is replaced by the fallback and
normalises as the fallback does (it maps to `auto` only when the
fallback itself does). -/
theorem c9_fan_level_normalization (fb : FanIn) (n : Int) :
    (n ≤ 0 → _normalize_fan_level (.intVal n) fb = "auto") ∧
    (100 ≤ n → _normalize_fan_level (.intVal n) fb = "100") ∧
    (0 < n → n < 100 →
      _normalize_fan_level (.intVal n) fb = toString (nearestStep n) ∧
      nearestStep n ∈ FAN_OUTPUT_LEVEL_STEPS ∧
      ∀ s ∈ FAN_OUTPUT_LEVEL_STEPS, (nearestStep n - n).natAbs ≤ (s - n).natAbs) ∧
    _normalize_fan_level (.strVal "0%") fb = "auto" ∧
    _normalize_fan_level .none fb = _normalize_fan_level fb fb ∧
    _normalize_fan_level (.intVal 50) fb = "66" ∧
    _normalize_fan_level (.intVal 150) fb = "100" := by
  have hint : ∀ m : Int, _normalize_fan_level (.intVal m) fb = normNumLevel m := fun m => rfl
  refine ⟨?_, ?_, ?_, ?_, ?_, ?_, ?_⟩
  · intro h
    rw [hint, normNumLevel, if_pos h]
    rfl
  · intro h
    rw [hint, normNumLevel, if_neg (by omega), if_pos h]
  · intro h1 h2
    refine ⟨by rw [hint, normNumLevel, if_neg (by omega), if_neg (by omega)], ?_, ?_⟩
    · unfold nearestStep
      split_ifs <;> simp [FAN_OUTPUT_LEVEL_STEPS]
    · intro s hs
      unfold nearestStep
      simp only [FAN_OUTPUT_LEVEL_STEPS, List.mem_cons, List.not_mem_nil, or_false] at hs
      rcases hs with h | h | h <;> subst h <;> split_ifs <;> omega
  · rfl
  · cases fb <;> rfl
  · rfl
  · rfl

theorem c9_witness :
    _normalize_fan_level (.intVal 0) (.intVal 66) = "auto" ∧
    _normalize_fan_level (.strVal "0%") (.intVal 66) = "auto" ∧
    _normalize_fan_level (.intVal 50) (.intVal 66) = "66" ∧
    _normalize_fan_level (.intVal 150) (.intVal 66) = "100" := by
  exact ⟨(c9_fan_level_normalization (.intVal 66) 0).1 (by decide),
    (c9_fan_level_normalization (.intVal 66) 0).2.2.2.1,
    (c9_fan_level_normalization (.intVal 66) 50).2.2.2.2.2.1,
    (c9_fan_level_normalization (.intVal 66) 150).2.1 (by decide)⟩

/-! ## Claim C7 -/

/-- The four trigger kinds the zone loop recognises. -/
def zoneTrigKnown (trig : String) : Bool :=
  trig = "humidity_high" || trig = "air_quality_bad" ||
  trig = "condensation_risk" || trig = "mould_risk"

/-- The candidate level a recognised trigger contributes: the boost
level for condensation/mould, the normal level otherwise. -/
def zoneTrigCandNB (normalLevel boostLevel : String) (trig : String) : String :=
  if trig = "condensation_risk" || trig = "mould_risk" then boostLevel else normalLevel

/-- Every `_normalize_fan_level` output is one of the four canonical
level strings. -/
def canonicalLevel (s : String) : Prop :=
  s = "auto" ∨ s = "33" ∨ s = "66" ∨ s = "100"

theorem normNumLevel_canonical (n : Int) : canonicalLevel (normNumLevel n) := by
  unfold normNumLevel canonicalLevel nearestStep FAN_OUTPUT_LEVEL_AUTO
  split_ifs <;> first | simp | decide

theorem normalize_canonical (v fb : FanIn) : canonicalLevel (_normalize_fan_level v fb) := by
  have hstr : ∀ s : String,
      canonicalLevel (_normalize_fan_level (.strVal s) fb) := by
    intro s
    unfold _normalize_fan_level
    dsimp only
    split
    · exact Or.inl rfl
    · split
      · exact normNumLevel_canonical _
      · exact normNumLevel_canonical _
  cases v with
  | none =>
      cases fb with
      | none => exact normNumLevel_canonical _
      | intVal n => exact normNumLevel_canonical n
      | strVal s => exact hstr s
  | intVal n => exact normNumLevel_canonical n
  | strVal s => exact hstr s

theorem canonical_rank_inj {a b : String} (ha : canonicalLevel a) (hb : canonicalLevel b)
    (h : _fan_level_rank (some a) = _fan_level_rank (some b)) : a = b := by
  rcases ha with h1 | h1 | h1 | h1 <;> rcases hb with h2 | h2 | h2 | h2 <;>
    subst h1 <;> subst h2 <;> first | rfl | exact absurd h (by decide)

theorem max_fan_none (cand : String) : _max_fan_level Option.none cand = cand := rfl

theorem max_fan_some (x cand : String) :
    (_max_fan_level (some x) cand = x ∨ _max_fan_level (some x) cand = cand) ∧
    _fan_level_rank (some x) ≤ _fan_level_rank (some (_max_fan_level (some x) cand)) ∧
    _fan_level_rank (some cand) ≤ _fan_level_rank (some (_max_fan_level (some x) cand)) := by
  unfold _max_fan_level
  dsimp only
  split_ifs with h
  · exact ⟨Or.inr rfl, h, le_refl _⟩
  · exact ⟨Or.inl rfl, le_refl _, le_of_not_le h⟩

/-- The floor clamp: the boost level never ranks below the normal
level. -/
theorem zoneNormal_canonical (zone : ZoneCfg) : canonicalLevel (zoneNormalLevel zone) :=
  normalize_canonical _ _

theorem zoneBoost_canonical (zone : ZoneCfg) : canonicalLevel (zoneBoostLevel zone) := by
  unfold zoneBoostLevel
  dsimp only
  split_ifs
  · exact normalize_canonical _ _
  · exact normalize_canonical _ _

theorem zone_boost_ge_normal (zone : ZoneCfg) :
    _fan_level_rank (some (zoneNormalLevel zone)) ≤
      _fan_level_rank (some (zoneBoostLevel zone)) := by
  unfold zoneBoostLevel
  dsimp only
  split_ifs with h
  · exact le_refl _
  · exact le_of_not_lt h

/-- Behaviour of one zone-trigger iteration. -/
theorem zoneTrigStep_spec (env : Env) (eng : Engine) (zone : ZoneCfg) (level : Option String)
    (normalLevel boostLevel : String) (acc : Option String × List String) (t : String) :
    (¬ (zoneTrigKnown t = true ∧ zoneTrigSat env eng zone level t = true) →
      zoneTrigStep env eng zone level normalLevel boostLevel acc t = acc) ∧
    (zoneTrigKnown t = true → zoneTrigSat env eng zone level t = true →
      (zoneTrigStep env eng zone level normalLevel boostLevel acc t).1 =
        some (_max_fan_level acc.1 (zoneTrigCandNB normalLevel boostLevel t))) := by
  unfold zoneTrigStep zoneTrigKnown zoneTrigCandNB
  by_cases h1 : t = "humidity_high"
  · subst h1
    by_cases hs : zoneTrigSat env eng zone level "humidity_high" = true <;>
      simp [hs]
  · by_cases h2 : t = "air_quality_bad"
    · subst h2
      by_cases hs : zoneTrigSat env eng zone level "air_quality_bad" = true <;>
        simp [hs]
    · by_cases h3 : t = "condensation_risk"
      · subst h3
        by_cases hs : zoneTrigSat env eng zone level "condensation_risk" = true <;>
          simp [hs]
      · by_cases h4 : t = "mould_risk"
        · subst h4
          by_cases hs : zoneTrigSat env eng zone level "mould_risk" = true <;>
            simp [hs]
        · simp [h1, h2, h3, h4]

/-- Full characterisation of the zone trigger fold. -/
theorem zone_trigger_fold_spec (env : Env) (eng : Engine) (zone : ZoneCfg)
    (level : Option String) (normalLevel boostLevel : String) :
    ∀ (triggers : List String) (acc : Option String × List String),
      ((triggers.foldl (zoneTrigStep env eng zone level normalLevel boostLevel) acc).1 =
          Option.none ↔
        (acc.1 = Option.none ∧ ∀ t ∈ triggers, zoneTrigKnown t = true →
          zoneTrigSat env eng zone level t = false)) ∧
      (∀ x, acc.1 = some x →
        ∃ L, (triggers.foldl (zoneTrigStep env eng zone level normalLevel boostLevel) acc).1 =
            some L ∧ _fan_level_rank (some x) ≤ _fan_level_rank (some L)) ∧
      (∀ t ∈ triggers, zoneTrigKnown t = true → zoneTrigSat env eng zone level t = true →
        ∃ L, (triggers.foldl (zoneTrigStep env eng zone level normalLevel boostLevel) acc).1 =
            some L ∧
          _fan_level_rank (some (zoneTrigCandNB normalLevel boostLevel t)) ≤
            _fan_level_rank (some L)) ∧
      (∀ L, (triggers.foldl (zoneTrigStep env eng zone level normalLevel boostLevel) acc).1 =
          some L →
        acc.1 = some L ∨ ∃ t, t ∈ triggers ∧ zoneTrigKnown t = true ∧
          zoneTrigSat env eng zone level t = true ∧
          zoneTrigCandNB normalLevel boostLevel t = L) := by
  intro triggers
  induction triggers with
  | nil =>
      intro acc
      refine ⟨by simp, fun x hx => ⟨x, hx, le_refl _⟩, by simp, fun L hL => Or.inl hL⟩
  | cons t ts ih =>
      intro acc
      rw [List.foldl_cons]
      by_cases hk : zoneTrigKnown t = true ∧ zoneTrigSat env eng zone level t = true
      · have hstep := (zoneTrigStep_spec env eng zone level normalLevel boostLevel acc t).2
          hk.1 hk.2
        have ihs := ih (zoneTrigStep env eng zone level normalLevel boostLevel acc t)
        refine ⟨?_, ?_, ?_, ?_⟩
        · constructor
          · intro hnone
            have h0 := (ihs.1.mp hnone).1
            rw [hstep] at h0
            exact absurd h0 (by simp)
          · intro ⟨_, hall⟩
            exact absurd (hall t (List.mem_cons_self t ts) hk.1) (by simp [hk.2])
        · intro x hx
          have hrk : _fan_level_rank (some x) ≤ _fan_level_rank
              (some (_max_fan_level acc.1 (zoneTrigCandNB normalLevel boostLevel t))) := by
            rw [hx]
            exact (max_fan_some x (zoneTrigCandNB normalLevel boostLevel t)).2.1
          obtain ⟨L, hL, hle⟩ := ihs.2.1 _ hstep
          exact ⟨L, hL, le_trans hrk hle⟩
        · intro t2 ht2 hk2 hs2
          rcases List.mem_cons.mp ht2 with he | he
          · subst he
            have hrk : _fan_level_rank (some (zoneTrigCandNB normalLevel boostLevel t2)) ≤
                _fan_level_rank
                  (some (_max_fan_level acc.1 (zoneTrigCandNB normalLevel boostLevel t2))) := by
              cases hacc : acc.1 with
              | none => rw [max_fan_none]
              | some x => exact (max_fan_some x _).2.2
            obtain ⟨L, hL, hle⟩ := ihs.2.1 _ hstep
            exact ⟨L, hL, le_trans hrk hle⟩
          · exact ihs.2.2.1 t2 he hk2 hs2
        · intro L hL
          rcases ihs.2.2.2 L hL with hacc | ⟨t2, ht2, h⟩
          · rw [hstep] at hacc
            have hinj := Option.some.inj hacc
            cases hacc2 : acc.1 with
            | none =>
                rw [hacc2, max_fan_none] at hinj
                exact Or.inr ⟨t, List.mem_cons_self t ts, hk.1, hk.2, hinj⟩
            | some x =>
                rw [hacc2] at hinj
                rcases (max_fan_some x (zoneTrigCandNB normalLevel boostLevel t)).1 with
                  hx | hx
                · exact Or.inl (by rw [← hinj, hx])
                · exact Or.inr ⟨t, List.mem_cons_self t ts, hk.1, hk.2, by rw [← hinj, hx]⟩
          · exact Or.inr ⟨t2, List.mem_cons_of_mem t ht2, h⟩
      · have hstep := (zoneTrigStep_spec env eng zone level normalLevel boostLevel acc t).1 hk
        rw [hstep]
        have ihs := ih acc
        refine ⟨?_, ihs.2.1, ?_, ?_⟩
        · rw [ihs.1]
          constructor
          · intro ⟨h1, h2⟩
            refine ⟨h1, fun t2 ht2 hk2 => ?_⟩
            rcases List.mem_cons.mp ht2 with he | he
            · subst he
              cases hs : zoneTrigSat env eng zone level t2 with
              | false => rfl
              | true => exact absurd ⟨hk2, hs⟩ hk
            · exact h2 t2 he hk2
          · intro ⟨h1, h2⟩
            exact ⟨h1, fun t2 ht2 => h2 t2 (List.mem_cons_of_mem t ht2)⟩
        · intro t2 ht2 hk2 hs2
          rcases List.mem_cons.mp ht2 with he | he
          · subst he
            exact absurd ⟨hk2, hs2⟩ hk
          · exact ihs.2.2.1 t2 he hk2 hs2
        · intro L hL
          rcases ihs.2.2.2 L hL with h | ⟨t2, ht2, h⟩
          · exact Or.inl h
          · exact Or.inr ⟨t2, List.mem_cons_of_mem t ht2, h⟩

/-- C7: each configured zone trigger contributes independently; the
selected output level is the maximum-rank level (auto < 33 < 66 < 100)
across all satisfied triggers — condensation/mould candidates use the
zone's boost level, humidity/air-quality its normal level, with the
boost level floor-clamped to never rank below the normal level — so the
result is absent iff no recognised trigger is satisfied, its rank
dominates every satisfied trigger's candidate and is attained by one of
them (hence is monotone non-decreasing in the maximum satisfied rank),
and with both `humidity_high` and `condensation_risk` satisfied the
selected level is exactly the zone's boost level. -/
theorem c7_zone_trigger_level_max (env : Env) (eng : Engine) (triggers : List String)
    (zone : ZoneCfg) (level : Option String) :
    (_fan_level_rank (some (zoneNormalLevel zone)) ≤
      _fan_level_rank (some (zoneBoostLevel zone))) ∧
    ((_zone_trigger_level env eng triggers zone level).1 = Option.none ↔
      ∀ t ∈ triggers, zoneTrigKnown t = true → zoneTrigSat env eng zone level t = false) ∧
    (∀ t ∈ triggers, zoneTrigKnown t = true → zoneTrigSat env eng zone level t = true →
      ∃ L, (_zone_trigger_level env eng triggers zone level).1 = some L ∧
        _fan_level_rank
            (some (zoneTrigCandNB (zoneNormalLevel zone) (zoneBoostLevel zone) t)) ≤
          _fan_level_rank (some L)) ∧
    (∀ L, (_zone_trigger_level env eng triggers zone level).1 = some L →
      ∃ t, t ∈ triggers ∧ zoneTrigKnown t = true ∧
        zoneTrigSat env eng zone level t = true ∧
        zoneTrigCandNB (zoneNormalLevel zone) (zoneBoostLevel zone) t = L) ∧
    ("humidity_high" ∈ triggers → "condensation_risk" ∈ triggers →
      zoneTrigSat env eng zone level "humidity_high" = true →
      zoneTrigSat env eng zone level "condensation_risk" = true →
      (_zone_trigger_level env eng triggers zone level).1 = some (zoneBoostLevel zone)) := by
  have hspec := zone_trigger_fold_spec env eng zone level (zoneNormalLevel zone)
    (zoneBoostLevel zone) triggers (Option.none, [])
  have hiff : (_zone_trigger_level env eng triggers zone level).1 = Option.none ↔
      ∀ t ∈ triggers, zoneTrigKnown t = true → zoneTrigSat env eng zone level t = false := by
    rw [_zone_trigger_level, hspec.1]
    simp
  have hupper := hspec.2.2.1
  have hachieve : ∀ L, (_zone_trigger_level env eng triggers zone level).1 = some L →
      ∃ t, t ∈ triggers ∧ zoneTrigKnown t = true ∧
        zoneTrigSat env eng zone level t = true ∧
        zoneTrigCandNB (zoneNormalLevel zone) (zoneBoostLevel zone) t = L := by
    intro L hL
    rcases hspec.2.2.2 L hL with h | h
    · cases h
    · exact h
  refine ⟨zone_boost_ge_normal zone, hiff, hupper, hachieve, ?_⟩
  intro hh hc hsh hsc
  obtain ⟨L, hL0, hle⟩ := hupper "condensation_risk" hc (by decide) hsc
  have hL : (_zone_trigger_level env eng triggers zone level).1 = some L := hL0
  obtain ⟨t, _, _, _, hcand⟩ := hachieve L hL
  have hcandBN : zoneTrigCandNB (zoneNormalLevel zone) (zoneBoostLevel zone) t =
      zoneNormalLevel zone ∨
      zoneTrigCandNB (zoneNormalLevel zone) (zoneBoostLevel zone) t = zoneBoostLevel zone := by
    unfold zoneTrigCandNB
    split_ifs <;> simp
  have hCboost : zoneTrigCandNB (zoneNormalLevel zone) (zoneBoostLevel zone)
      "condensation_risk" = zoneBoostLevel zone := by
    unfold zoneTrigCandNB
    simp
  rw [hCboost] at hle
  rcases hcandBN with hx | hx
  · rw [hx] at hcand
    have heq : _fan_level_rank (some (zoneNormalLevel zone)) =
        _fan_level_rank (some (zoneBoostLevel zone)) :=
      le_antisymm (zone_boost_ge_normal zone) (by rw [hcand]; exact hle)
    have := canonical_rank_inj (zoneNormal_canonical zone) (zoneBoost_canonical zone) heq
    rw [hL, ← hcand, this]
  · rw [hx] at hcand
    rw [hL, ← hcand]

/-- Witness fixture for C7: kitchen humidity 80 % against a house
average of 70 % (delta 10 ≥ threshold 5) and a kitchen dew-point spread
of 0 °C (≤ threshold 4, with the `ln` oracle fixed at 0). -/
def hassC7 : Hass :=
  { states := fun e =>
      if e = "sensor.kitchen_h" then some { state := "80" }
      else if e = "sensor.lounge_h" then some { state := "60" }
      else if e = "sensor.kitchen_t" then some { state := "20" }
      else Option.none,
    hasService := fun _ _ => true }

def envC7 : Env :=
  { hass := hassC7, booleans0 := fun _ => Option.none, timers := fun _ => Option.none,
    now := 0, month := 1, nowTime := 600, lnQ := fun _ => 0 }

def zoneC7 : ZoneCfg :=
  { enabled := true, level := some "level1", rooms := ["Kitchen"],
    triggers := ["humidity_high", "condensation_risk"],
    thresholds := fun t =>
      if t = "humidity_high" then some 5
      else if t = "condensation_risk" then some 4
      else Option.none,
    outputs := ["fan.k"],
    output_level := some (.intVal 66), boost_output_level := some (.intVal 100) }

def engC7 : Engine :=
  { telemetry := [
      { entity_id := some "sensor.kitchen_h", sensor_type := some "humidity",
        room := some "Kitchen", level := some "level1" },
      { entity_id := some "sensor.lounge_h", sensor_type := some "humidity",
        room := some "Lounge", level := some "level1" },
      { entity_id := some "sensor.kitchen_t", sensor_type := some "temperature",
        room := some "Kitchen", level := some "level1" }],
    zones := [("zone1", zoneC7)] }

theorem c7_witness :
    zoneTrigSat envC7 engC7 zoneC7 (some "level1") "humidity_high" = true ∧
    zoneTrigSat envC7 engC7 zoneC7 (some "level1") "condensation_risk" = true ∧
    (_zone_trigger_level envC7 engC7 zoneC7.triggers zoneC7 (some "level1")).1 =
      some (zoneBoostLevel zoneC7) ∧
    zoneBoostLevel zoneC7 = "100" := by
  have h := (c7_zone_trigger_level_max envC7 engC7 zoneC7.triggers zoneC7
      (some "level1")).2.2.2.2 (by decide) (by decide) (by decide) (by decide)
  exact ⟨by decide, by decide, h, by decide⟩

/-! ## Claim C8 -/

/-- Modelled from the spec's words (claim side, for comparison): the
band's low boundary with `band_adjust` clamped into [-3, 3]. -/
def claimTargetLow (env : Env) (cfg : HumCfg) : ℚ :=
  _target_low env + max (-3) (min 3 ((_to_float cfg.band_adjust).getD 0))

def hassC8 : Hass :=
  { states := fun e =>
      if e = "sensor.h1" then some { state := "40" }
      else if e = "switch.h" then some { state := "off" }
      else Option.none,
    hasService := fun _ _ => true }

def envC8 : Env :=
  { hass := hassC8,
    booleans0 := fun k =>
      if k = "air_downstairs_humidifier_active" then some false else Option.none,
    timers := fun _ => Option.none,
    now := 0, month := 1, nowTime := 600, lnQ := fun _ => 0 }

def humC8bad : HumCfg :=
  { enabled := true, outputs := ["switch.h"], band_adjust := some 10 }

/-- C8 counterexample: the engine applies `band_adjust` unclamped — with
`band_adjust = 10` in January the lane's low boundary is 45 + 10 = 55,
not the 45 + 3 = 48 the claim's [-3, 3] clamp would give. -/
theorem c8_counterexample :
    (humBand envC8 humC8bad).1 = 55 ∧ claimTargetLow envC8 humC8bad = 48 ∧
    (55 : ℚ) ≠ 48 := by
  decide

/-- The seasonal high target always exceeds the low target. -/
theorem target_high_gt_low (env : Env) : _target_low env < _target_high env := by
  unfold _target_low _target_high
  split_ifs <;> norm_num

/-- The low boundary is always strictly below the recovery-off point
(the seasonal band is at least 9 wide and `recovery_in_band ≥ 1`). -/
theorem humBand_low_lt_off (env : Env) (cfg : HumCfg) :
    (humBand env cfg).1 < (humBand env cfg).2.2 := by
  unfold humBand
  dsimp only
  have h1 := target_high_gt_low env
  refine lt_min (by linarith) ?_
  have h2 : (1 : ℚ) ≤ max 1 (min 8 ((_to_float cfg.recovery_in_band).getD
      HUMIDIFIER_RECOVERY_IN_BAND_DEFAULT)) := le_max_left _ _
  linarith

/-- C8 (amended): for an enabled humidifier level with configured
outputs and an available humidity average, the band low/high equal the
seasonal defaults (Nov–Mar 45/55, Jun–Aug 51/60, else 47/58) shifted by
`band_adjust` as configured (validated into [-3, 3] by the options flow
but used unclamped by the engine); the recovery-off point is
`min(high, low + recovery_in_band)` with `recovery_in_band` clamped into
[1, 8] (default 3); the lane turns on when the average is ≤ low and the
lane is off, turns off when the average is ≥ recovery-off and the lane
is on, and makes no transition strictly in between. -/
theorem c8_humidifier_hysteresis (env : Env) (eng : Engine) (level : String) (cfg : HumCfg)
    (f : Eff) (a : ℚ)
    (hen : cfg.enabled = true) (hout : cfg.outputs ≠ [])
    (havg : _level_avg env eng "humidity" (some level) = some a) :
    ((humBand env cfg).1 = _target_low env + (_to_float cfg.band_adjust).getD 0) ∧
    ((humBand env cfg).2.1 = _target_high env + (_to_float cfg.band_adjust).getD 0) ∧
    ((humBand env cfg).2.2 = min (humBand env cfg).2.1
      ((humBand env cfg).1 +
        max 1 (min 8 ((_to_float cfg.recovery_in_band).getD
          HUMIDIFIER_RECOVERY_IN_BAND_DEFAULT)))) ∧
    (a ≤ (humBand env cfg).1 → _bool_is_on f (_humidifier_active_key level) = false →
      ((f.booleans (_humidifier_active_key level)).isSome →
        (handleHumLevel env eng f (level, cfg)).booleans (_humidifier_active_key level) =
          some true) ∧
      (f.booleans "air_isolate_humidifier_outputs" ≠ some true →
        ∀ e ∈ cfg.outputs,
          env.hass.hasService (domainOf e) "turn_on" = true →
          switchAlreadyAt env.hass e true = false →
          Cmd.svcCall (domainOf e) "turn_on" e Option.none ∈
            (handleHumLevel env eng f (level, cfg)).cmds)) ∧
    ((humBand env cfg).2.2 ≤ a → _bool_is_on f (_humidifier_active_key level) = true →
      ((handleHumLevel env eng f (level, cfg)).booleans (_humidifier_active_key level) =
        some false) ∧
      (f.booleans "air_isolate_humidifier_outputs" ≠ some true →
        ∀ e ∈ cfg.outputs,
          env.hass.hasService (domainOf e) "turn_off" = true →
          switchAlreadyAt env.hass e false = false →
          Cmd.svcCall (domainOf e) "turn_off" e Option.none ∈
            (handleHumLevel env eng f (level, cfg)).cmds)) ∧
    ((humBand env cfg).1 < a → a < (humBand env cfg).2.2 →
      handleHumLevel env eng f (level, cfg) = f) := by
  have hbody : handleHumLevel env eng f (level, cfg) =
      (let band := humBand env cfg
       let currentlyActive := _bool_is_on f (_humidifier_active_key level)
       if a ≤ band.1 then
         if ¬ currentlyActive then
           _set_bool (_set_humidifier_outputs_state env f cfg.outputs true)
             (_humidifier_active_key level) true
         else f
       else if band.2.2 ≤ a then
         if currentlyActive then
           _set_bool (_set_humidifier_outputs_state env f cfg.outputs false)
             (_humidifier_active_key level) false
         else f
       else f) := by
    unfold handleHumLevel
    dsimp only
    rw [hen, havg]
    rw [if_neg (show ¬ (¬ true = true) by simp), if_neg hout]
  refine ⟨rfl, rfl, rfl, ?_, ?_, ?_⟩
  · intro hlow hoff
    rw [hbody]
    dsimp only
    rw [if_pos hlow, hoff, if_pos (show ¬ (false = true) by simp)]
    constructor
    · intro hsome
      refine set_bool_booleans_eq true ?_
      rw [congrFun (booleans_set_humidifier_outputs_state env f cfg.outputs true) _]
      exact hsome
    · intro hiso e he h1 h2
      refine mem_of_ext ?_ (ext_set_bool _ _ _)
      have hrel : _set_humidifier_outputs_state env f cfg.outputs true =
          _set_humidifier_state env f cfg.outputs true := by
        unfold _set_humidifier_outputs_state _humidifier_outputs_isolated
        rw [bool_is_on_false_of_ne hiso]
        simp
      rw [hrel]
      exact mem_set_humidifier_state env f cfg.outputs true e he h1 h2
  · intro hhigh hon
    rw [hbody]
    dsimp only
    have hnotlow : ¬ a ≤ (humBand env cfg).1 := by
      have := humBand_low_lt_off env cfg
      linarith
    rw [if_neg hnotlow, if_pos hhigh, hon, if_pos rfl]
    constructor
    · refine set_bool_booleans_eq false ?_
      rw [congrFun (booleans_set_humidifier_outputs_state env f cfg.outputs false) _]
      unfold _bool_is_on at hon
      cases hb : f.booleans (_humidifier_active_key level) with
      | none => rw [hb] at hon; exact absurd hon (by simp)
      | some b => simp
    · intro hiso e he h1 h2
      refine mem_of_ext ?_ (ext_set_bool _ _ _)
      have hrel : _set_humidifier_outputs_state env f cfg.outputs false =
          _set_humidifier_state env f cfg.outputs false := by
        unfold _set_humidifier_outputs_state _humidifier_outputs_isolated
        rw [bool_is_on_false_of_ne hiso]
        simp
      rw [hrel]
      exact mem_set_humidifier_state env f cfg.outputs false e he h1 h2
  · intro h1 h2
    rw [hbody]
    dsimp only
    rw [if_neg (by linarith), if_neg (by linarith)]

/-- Witness configuration for C8: downstairs humidifier lane, January
band 45/55, humidity average 40. -/
def humC8 : HumCfg := { enabled := true, outputs := ["switch.h"] }

def engC8 : Engine :=
  { telemetry := [
      { entity_id := some "sensor.h1", sensor_type := some "humidity",
        level := some "level1" }],
    humidifiers := [("level1", humC8)] }

theorem c8_witness :
    _level_avg envC8 engC8 "humidity" (some "level1") = some 40 ∧
    (humBand envC8 humC8).1 = 45 ∧ (humBand envC8 humC8).2.2 = 48 ∧
    (handleHumLevel envC8 engC8 (initEff envC8) ("level1", humC8)).booleans
      (_humidifier_active_key "level1") = some true ∧
    Cmd.svcCall (domainOf "switch.h") "turn_on" "switch.h" Option.none ∈
      (handleHumLevel envC8 engC8 (initEff envC8) ("level1", humC8)).cmds ∧
    domainOf "switch.h" = "switch" := by
  have h := c8_humidifier_hysteresis envC8 engC8 "level1" humC8 (initEff envC8) 40
    (by decide) (by decide) (by decide)
  have hON := h.2.2.2.1 (by decide) (by decide)
  exact ⟨by decide, by decide, by decide, hON.1 (by decide),
    hON.2 (by decide) "switch.h" (by decide) rfl (by decide), by decide⟩

/-! ## Claim C4 -/

/-- Well-formedness of the AQ timer arena: every task id is below the
allocation counter, task ids are unique, registered timer ids are below
the counter, and every live task is the one its level's registry entry
points at. -/
def aqWF (st : EngineState) : Prop :=
  (∀ t ∈ st.aqTasks, t.id < st.aqNextId) ∧
  (st.aqTasks.map (fun t => t.id)).Nodup ∧
  (∀ p ∈ st.aqMap, p.2 < st.aqNextId) ∧
  (∀ t ∈ st.aqTasks, t.alive = true →
    (st.aqMap.find? (fun p => p.1 = t.level)).map (fun p => p.2) = some t.id)

theorem find_cancel_list : ∀ (l : List AqTask) (i j : Nat),
    (l.map (fun t => if t.id = i then { t with alive := false } else t)).find?
        (fun t => t.id = j) =
      (l.find? (fun t => t.id = j)).map
        (fun t => if t.id = i then { t with alive := false } else t) := by
  intro l i j
  induction l with
  | nil => rfl
  | cons a l ih =>
      have hid : (if a.id = i then { a with alive := false } else a).id = a.id := by
        split <;> rfl
      rw [List.map_cons]
      by_cases ha : a.id = j
      · have hpred : decide
            ((if a.id = i then { a with alive := false } else a).id = j) = true := by
          rw [hid]
          simp [ha]
        rw [@List.find?_cons_of_pos AqTask (fun t => decide (t.id = j)) _ _ hpred,
          List.find?_cons_of_pos _ (by simp [ha])]
        rfl
      · have hpred : ¬ decide
            ((if a.id = i then { a with alive := false } else a).id = j) = true := by
          rw [hid]
          simp [ha]
        rw [@List.find?_cons_of_neg AqTask (fun t => decide (t.id = j)) _ _ hpred,
          List.find?_cons_of_neg _ (by simp [ha])]
        exact ih

theorem taskAlive_cancel_self (st : EngineState) (i : Nat) :
    taskAlive (cancelTaskId st i) i = false := by
  unfold taskAlive cancelTaskId
  dsimp only
  rw [find_cancel_list]
  cases h : st.aqTasks.find? (fun t => t.id = i) with
  | none => rfl
  | some t =>
      have := List.find?_some h
      simp at this
      simp [this]

theorem taskAlive_cancel_other (st : EngineState) (i j : Nat) (h : ¬ j = i) :
    taskAlive (cancelTaskId st i) j = taskAlive st j := by
  unfold taskAlive cancelTaskId
  dsimp only
  rw [find_cancel_list]
  cases hf : st.aqTasks.find? (fun t => t.id = j) with
  | none => rfl
  | some t =>
      have ht := List.find?_some hf
      simp at ht
      have : ¬ t.id = i := by rw [ht]; exact h
      simp [this]

theorem ids_cancel (st : EngineState) (i : Nat) :
    (cancelTaskId st i).aqTasks.map (fun t => t.id) = st.aqTasks.map (fun t => t.id) := by
  unfold cancelTaskId
  dsimp only
  rw [List.map_map]
  refine List.map_congr_left ?_
  intro t _
  show (if t.id = i then { t with alive := false } else t).id = t.id
  split <;> rfl

theorem cancel_next (st : EngineState) (i : Nat) :
    (cancelTaskId st i).aqNextId = st.aqNextId := rfl

theorem cancel_map (st : EngineState) (i : Nat) :
    (cancelTaskId st i).aqMap = st.aqMap := rfl

theorem find?_filter_ne (m : List (String × Nat)) (l l' : String) (h : ¬ l' = l) :
    (m.filter (fun q => q.1 ≠ l)).find? (fun p => p.1 = l') =
      m.find? (fun p => p.1 = l') := by
  induction m with
  | nil => rfl
  | cons q m ih =>
      by_cases hq : q.1 = l
      · have hq2 : ¬ q.1 = l' := by rw [hq]; exact fun he => h he.symm
        rw [List.filter_cons_of_neg (by simp [hq]),
          List.find?_cons_of_neg _ (by simp [hq2])]
        exact ih
      · rw [List.filter_cons_of_pos (by simp [hq])]
        by_cases hq3 : q.1 = l'
        · rw [List.find?_cons_of_pos _ (by simp [hq3]),
            List.find?_cons_of_pos _ (by simp [hq3])]
        · rw [List.find?_cons_of_neg _ (by simp [hq3]),
            List.find?_cons_of_neg _ (by simp [hq3])]
          exact ih

theorem find_id_self (l : List AqTask) (hnd : (l.map (fun t => t.id)).Nodup) (t : AqTask)
    (ht : t ∈ l) : l.find? (fun x => x.id = t.id) = some t := by
  induction l with
  | nil => cases ht
  | cons a l ih =>
      rcases List.mem_cons.mp ht with he | he
      · subst he
        simp [List.find?]
      · by_cases ha : a.id = t.id
        · exfalso
          have : t.id ∈ l.map (fun t => t.id) := List.mem_map_of_mem _ he
          rw [← ha] at this
          exact (List.nodup_cons.mp hnd).1 this
        · simp [List.find?, ha]
          exact ih (List.nodup_cons.mp hnd).2 he

theorem length_le_one_of_nodup_const {α : Type} (l : List α) (hnd : l.Nodup) (a : α)
    (h : ∀ x ∈ l, x = a) : l.length ≤ 1 := by
  cases l with
  | nil => simp
  | cons x xs =>
      cases xs with
      | nil => simp
      | cons y ys =>
          exfalso
          have hx := h x (List.mem_cons_self _ _)
          have hy := h y (List.mem_cons_of_mem _ (List.mem_cons_self _ _))
          have : x ∈ y :: ys := by rw [hx, ← hy]; exact List.mem_cons_self _ _
          exact (List.nodup_cons.mp hnd).1 this

/-- The at-most-one-live-timer-per-level consequence of `aqWF`. -/
theorem aqWF_at_most_one (st : EngineState) (h : aqWF st) (level : String) :
    (st.aqTasks.filter (fun t => t.alive && t.level = level)).length ≤ 1 := by
  cases hf : (st.aqMap.find? (fun p => p.1 = level)) with
  | none =>
      cases hl : st.aqTasks.filter (fun t => t.alive && t.level = level) with
      | nil => simp
      | cons t ts =>
          exfalso
          have ht : t ∈ st.aqTasks.filter (fun t => t.alive && t.level = level) := by
            rw [hl]; exact List.mem_cons_self _ _
          have hmem := List.mem_of_mem_filter ht
          have hp := List.of_mem_filter ht
          simp at hp
          have := h.2.2.2 t hmem hp.1
          rw [hp.2, hf] at this
          cases this
  | some p =>
      have hsub : List.Sublist
          ((st.aqTasks.filter (fun t => t.alive && t.level = level)).map (fun t => t.id))
          (st.aqTasks.map (fun t => t.id)) :=
        (List.filter_sublist _).map _
      have hids_nd := h.2.1.sublist hsub
      have hlen : (st.aqTasks.filter (fun t => t.alive && t.level = level)).length =
          ((st.aqTasks.filter (fun t => t.alive && t.level = level)).map
            (fun t => t.id)).length := (List.length_map _ _).symm
      rw [hlen]
      refine length_le_one_of_nodup_const _ hids_nd p.2 ?_
      intro x hx
      obtain ⟨t, ht, hid⟩ := List.mem_map.mp hx
      have hmem := List.mem_of_mem_filter ht
      have hp := List.of_mem_filter ht
      simp at hp
      have hown := h.2.2.2 t hmem hp.1
      rw [hp.2, hf] at hown
      simp at hown
      rw [← hid, ← hown]


theorem taskAlive_cancel_le (st : EngineState) (i j : Nat)
    (h : taskAlive (cancelTaskId st i) j = true) : taskAlive st j = true := by
  by_cases hji : j = i
  · rw [hji, taskAlive_cancel_self] at h
    cases h
  · rw [taskAlive_cancel_other st i j hji] at h
    exact h

theorem mem_cancel_src (st : EngineState) (i : Nat) (t' : AqTask)
    (h : t' ∈ (cancelTaskId st i).aqTasks) :
    ∃ t ∈ st.aqTasks, t'.id = t.id ∧ t'.level = t.level ∧
      (t'.alive = true → t' = t ∧ ¬ t.id = i) := by
  have h' : t' ∈ st.aqTasks.map (fun t => if t.id = i then { t with alive := false } else t) := h
  obtain ⟨t, ht, he⟩ := List.mem_map.mp h'
  by_cases hti : t.id = i
  · refine ⟨t, ht, ?_, ?_, ?_⟩
    · rw [← he, if_pos hti]
    · rw [← he, if_pos hti]
    · intro ha
      rw [← he, if_pos hti] at ha
      cases ha
  · refine ⟨t, ht, ?_, ?_, ?_⟩
    · rw [← he, if_neg hti]
    · rw [← he, if_neg hti]
    · intro _
      exact ⟨by rw [← he, if_neg hti], hti⟩

theorem aqWF_cancelTaskId (st : EngineState) (i : Nat) (h : aqWF st) :
    aqWF (cancelTaskId st i) := by
  refine ⟨?_, ?_, ?_, ?_⟩
  · intro t' ht'
    obtain ⟨t, ht, hid, _, _⟩ := mem_cancel_src st i t' ht'
    rw [cancel_next, hid]
    exact h.1 t ht
  · rw [ids_cancel]
    exact h.2.1
  · intro q hq
    rw [cancel_next]
    exact h.2.2.1 q hq
  · intro t' ht' ha
    obtain ⟨t, ht, hid, hlev, hprop⟩ := mem_cancel_src st i t' ht'
    obtain ⟨hte, _⟩ := hprop ha
    have hta : t.alive = true := by rw [← hte]; exact ha
    show ((st.aqMap.find? (fun q => q.1 = t'.level)).map (fun q => q.2) = some t'.id)
    rw [hlev, hid]
    exact h.2.2.2 t ht hta

theorem find?_append_or {α : Type} (l1 l2 : List α) (p : α → Bool) :
    (l1 ++ l2).find? p = ((l1.find? p).or (l2.find? p)) := by
  induction l1 with
  | nil => rfl
  | cons a l ih =>
      by_cases ha : p a = true
      · rw [List.cons_append, List.find?_cons_of_pos _ ha, List.find?_cons_of_pos _ ha]
        rfl
      · rw [List.cons_append, List.find?_cons_of_neg _ ha, List.find?_cons_of_neg _ ha]
        exact ih

theorem aqWF_cancel_aq_task (st : EngineState) (level : String) (h : aqWF st) :
    aqWF (_cancel_aq_task st level) := by
  show aqWF (match st.aqMap.find? (fun p => p.1 = level) with
    | some p =>
        let popped : EngineState := { st with aqMap := st.aqMap.filter (fun q => q.1 ≠ level) }
        if taskAlive popped p.2 then cancelTaskId popped p.2 else popped
    | Option.none => st)
  cases hf : st.aqMap.find? (fun p => p.1 = level) with
  | none => exact h
  | some p =>
      dsimp only
      by_cases hal :
          taskAlive { st with aqMap := st.aqMap.filter (fun q => q.1 ≠ level) } p.2 = true
      · rw [if_pos hal]
        refine ⟨?_, ?_, ?_, ?_⟩
        · intro t' ht'
          obtain ⟨t, ht, hid, _, _⟩ := mem_cancel_src _ p.2 t' ht'
          rw [cancel_next, hid]
          exact h.1 t ht
        · rw [ids_cancel]
          exact h.2.1
        · intro q hq
          rw [cancel_next]
          exact h.2.2.1 q (List.mem_of_mem_filter hq)
        · intro t' ht' ha
          obtain ⟨t, ht, hid, hlev, hprop⟩ := mem_cancel_src _ p.2 t' ht'
          obtain ⟨hte, htne⟩ := hprop ha
          have hta : t.alive = true := by rw [← hte]; exact ha
          have hown := h.2.2.2 t ht hta
          by_cases hlv : t.level = level
          · exfalso
            rw [hlv, hf] at hown
            simp only [Option.map_some'] at hown
            exact htne (Option.some.inj hown).symm
          · show (((st.aqMap.filter (fun q => q.1 ≠ level)).find?
                (fun q => q.1 = t'.level)).map (fun q => q.2) = some t'.id)
            rw [hlev, find?_filter_ne st.aqMap level t.level hlv, hid]
            exact hown
      · rw [if_neg hal]
        refine ⟨fun t ht => h.1 t ht, h.2.1, ?_, ?_⟩
        · intro q hq
          exact h.2.2.1 q (List.mem_of_mem_filter hq)
        · intro t ht ha
          have hown := h.2.2.2 t ht ha
          by_cases hlv : t.level = level
          · exfalso
            rw [hlv, hf] at hown
            simp only [Option.map_some'] at hown
            apply hal
            show taskAlive st p.2 = true
            rw [Option.some.inj hown]
            unfold taskAlive
            rw [find_id_self st.aqTasks h.2.1 t ht]
            exact ha
          · show (((st.aqMap.filter (fun q => q.1 ≠ level)).find?
                (fun q => q.1 = t.level)).map (fun q => q.2) = some t.id)
            rw [find?_filter_ne st.aqMap level t.level hlv]
            exact hown

/-- The state component of `_start_aq`, abstracted over the computed
run duration. -/
def startAqState (st : EngineState) (level : String) (dur : Int) : EngineState :=
  let st1 := match st.aqMap.find? (fun p => p.1 = level) with
    | some p => cancelTaskId st p.2
    | Option.none => st
  { st1 with
    aqTasks := st1.aqTasks ++
      [{ id := st1.aqNextId, level := level, duration := dur, alive := true }],
    aqNextId := st1.aqNextId + 1,
    aqMap := (level, st1.aqNextId) :: st1.aqMap.filter (fun q => q.1 ≠ level) }

theorem start_aq_fst (env : Env) (st : EngineState) (f : Eff) (level : String) (cfg : AqCfg) :
    (_start_aq env st f level cfg).1 =
      startAqState st level (_bounded_int cfg.run_duration 1 (24 * 60) 30 * 60) := rfl

theorem aqWF_push (st : EngineState) (level : String) (dur : Int)
    (h1 : ∀ t ∈ st.aqTasks, t.id < st.aqNextId)
    (h2 : (st.aqTasks.map (fun t => t.id)).Nodup)
    (h3 : ∀ q ∈ st.aqMap, q.2 < st.aqNextId)
    (h4 : ∀ t ∈ st.aqTasks, t.alive = true → ¬ t.level = level →
      (st.aqMap.find? (fun q => q.1 = t.level)).map (fun q => q.2) = some t.id)
    (h5 : ∀ t ∈ st.aqTasks, t.alive = true → ¬ t.level = level) :
    aqWF { st with
      aqTasks := st.aqTasks ++
        [{ id := st.aqNextId, level := level, duration := dur, alive := true }],
      aqNextId := st.aqNextId + 1,
      aqMap := (level, st.aqNextId) :: st.aqMap.filter (fun q => q.1 ≠ level) } := by
  refine ⟨?_, ?_, ?_, ?_⟩
  · intro t' ht'
    rcases List.mem_append.mp ht' with hL | hR
    · exact Nat.lt_succ_of_lt (h1 t' hL)
    · rw [List.mem_singleton] at hR
      rw [hR]
      exact Nat.lt_succ_self _
  · show (List.map (fun t => t.id) (st.aqTasks ++
      [{ id := st.aqNextId, level := level, duration := dur, alive := true }])).Nodup
    rw [List.map_append]
    refine List.Nodup.append h2 (List.nodup_singleton _) ?_
    intro x hx hx'
    simp only [List.map_cons, List.map_nil, List.mem_singleton] at hx'
    obtain ⟨t, ht, hid⟩ := List.mem_map.mp hx
    have := h1 t ht
    rw [hid, hx'] at this
    exact absurd this (Nat.lt_irrefl _)
  · intro q hq
    rcases List.mem_cons.mp hq with he | hm
    · rw [he]
      exact Nat.lt_succ_self _
    · exact Nat.lt_succ_of_lt (h3 q (List.mem_of_mem_filter hm))
  · intro t' ht' ha
    rcases List.mem_append.mp ht' with hL | hR
    · have hne := h5 t' hL ha
      show ((((level, st.aqNextId) :: st.aqMap.filter (fun q => q.1 ≠ level)).find?
          (fun q => q.1 = t'.level)).map (fun q => q.2) = some t'.id)
      rw [List.find?_cons_of_neg _ (by simp; exact fun he => hne he.symm),
        find?_filter_ne st.aqMap level t'.level hne]
      exact h4 t' hL ha hne
    · rw [List.mem_singleton] at hR
      rw [hR]
      show ((((level, st.aqNextId) :: st.aqMap.filter (fun q => q.1 ≠ level)).find?
          (fun q => q.1 = level)).map (fun q => q.2) = some st.aqNextId)
      rw [List.find?_cons_of_pos _ (by simp)]
      rfl

theorem aqWF_startAqState (st : EngineState) (level : String) (dur : Int) (h : aqWF st) :
    aqWF (startAqState st level dur) := by
  unfold startAqState
  cases hf : st.aqMap.find? (fun p => p.1 = level) with
  | none =>
      dsimp only
      refine aqWF_push st level dur h.1 h.2.1 h.2.2.1
        (fun t ht ha _ => h.2.2.2 t ht ha) ?_
      intro t ht ha hlv
      have hown := h.2.2.2 t ht ha
      rw [hlv, hf] at hown
      cases hown
  | some p =>
      dsimp only
      have hc := aqWF_cancelTaskId st p.2 h
      refine aqWF_push (cancelTaskId st p.2) level dur hc.1 hc.2.1 hc.2.2.1
        (fun t ht ha _ => hc.2.2.2 t ht ha) ?_
      intro t' ht' ha hlv
      obtain ⟨t, ht, _, hlev, hprop⟩ := mem_cancel_src st p.2 t' ht'
      obtain ⟨hte, htne⟩ := hprop ha
      have hta : t.alive = true := by rw [← hte]; exact ha
      have hown := h.2.2.2 t ht hta
      rw [← hlev, hlv, hf] at hown
      simp only [Option.map_some'] at hown
      exact htne (Option.some.inj hown).symm

theorem aqWF_start_aq (env : Env) (st : EngineState) (f : Eff) (level : String) (cfg : AqCfg)
    (h : aqWF st) : aqWF (_start_aq env st f level cfg).1 := by
  rw [start_aq_fst]
  exact aqWF_startAqState st level _ h

theorem aqWF_handleAqLevel (env : Env) (eng : Engine) (st : EngineState) (f : Eff) (b : Bool)
    (lc : String × AqCfg) (h : aqWF st) :
    aqWF (handleAqLevel env eng (st, f, b) lc).1 := by
  unfold handleAqLevel
  dsimp only
  split
  · exact aqWF_cancel_aq_task st lc.1 h
  · split
    · split
      · exact aqWF_start_aq env st f lc.1 lc.2 h
      · exact h
    · split
      · exact aqWF_cancel_aq_task st lc.1 h
      · exact h

theorem aqWF_aq_cleanup : ∀ (ls : List String) (env : Env) (acc : EngineState × Eff),
    aqWF acc.1 →
    aqWF ((ls.foldl (fun (acc : EngineState × Eff) level =>
      let st := _cancel_aq_task acc.1 level
      let f := _set_aq_level_active acc.2 level false
      let f := _clear_aq_level_timer env f level
      let st := { st with aqTrigger := fun l => if l = level then false else st.aqTrigger l }
      (st, f)) acc).1) := by
  intro ls
  induction ls with
  | nil => intro env acc h; exact h
  | cons a ls ih =>
      intro env acc h
      rw [List.foldl_cons]
      exact ih env _ (aqWF_cancel_aq_task acc.1 a h)

theorem aqWF_aqLevel_fold : ∀ (l : List (String × AqCfg)) (env : Env) (eng : Engine)
    (acc : EngineState × Eff × Bool), aqWF acc.1 →
    aqWF ((l.foldl (handleAqLevel env eng) acc).1) := by
  intro l
  induction l with
  | nil => intro env eng acc h; exact h
  | cons a l ih =>
      intro env eng acc h
      rw [List.foldl_cons]
      exact ih env eng _ (aqWF_handleAqLevel env eng acc.1 acc.2.1 acc.2.2 a h)

theorem aqWF_handle_aq (env : Env) (eng : Engine) (st : EngineState) (f : Eff) (h : aqWF st) :
    aqWF (_handle_aq env eng st f).1 := by
  unfold _handle_aq
  dsimp only
  exact aqWF_aqLevel_fold _ env eng _ (aqWF_aq_cleanup _ env (st, f) h)

theorem deact_ids : ∀ (l : List (String × Nat)) (s : EngineState),
    ((l.foldl (fun s p => if taskAlive s p.2 then cancelTaskId s p.2 else s) s).aqTasks.map
      (fun t => t.id)) = s.aqTasks.map (fun t => t.id) := by
  intro l
  induction l with
  | nil => intro s; rfl
  | cons a l ih =>
      intro s
      rw [List.foldl_cons, ih]
      by_cases ha : taskAlive s a.2 = true
      · rw [if_pos ha, ids_cancel]
      · rw [if_neg ha]

theorem deact_next : ∀ (l : List (String × Nat)) (s : EngineState),
    (l.foldl (fun s p => if taskAlive s p.2 then cancelTaskId s p.2 else s) s).aqNextId =
      s.aqNextId := by
  intro l
  induction l with
  | nil => intro s; rfl
  | cons a l ih =>
      intro s
      rw [List.foldl_cons, ih]
      by_cases ha : taskAlive s a.2 = true
      · rw [if_pos ha, cancel_next]
      · rw [if_neg ha]

theorem taskAlive_deact_mono : ∀ (l : List (String × Nat)) (s : EngineState) (j : Nat),
    taskAlive (l.foldl (fun s p => if taskAlive s p.2 then cancelTaskId s p.2 else s) s) j =
      true → taskAlive s j = true := by
  intro l
  induction l with
  | nil => intro s j h; exact h
  | cons a l ih =>
      intro s j h
      rw [List.foldl_cons] at h
      have h2 := ih _ j h
      by_cases ha : taskAlive s a.2 = true
      · rw [if_pos ha] at h2
        exact taskAlive_cancel_le s a.2 j h2
      · rw [if_neg ha] at h2
        exact h2

theorem taskAlive_deact_dead (l : List (String × Nat)) (s : EngineState) (j : Nat)
    (h : ¬ taskAlive s j = true) :
    ¬ taskAlive (l.foldl (fun s p => if taskAlive s p.2 then cancelTaskId s p.2 else s) s) j
      = true :=
  fun hc => h (taskAlive_deact_mono l s j hc)

theorem deact_kills : ∀ (l : List (String × Nat)) (s : EngineState), ∀ p ∈ l,
    ¬ taskAlive (l.foldl (fun s p => if taskAlive s p.2 then cancelTaskId s p.2 else s) s) p.2
      = true := by
  intro l
  induction l with
  | nil => intro s p hp; cases hp
  | cons a l ih =>
      intro s p hp
      rw [List.foldl_cons]
      rcases List.mem_cons.mp hp with he | hm
      · rw [he]
        refine taskAlive_deact_dead l _ a.2 ?_
        by_cases ha : taskAlive s a.2 = true
        · rw [if_pos ha, taskAlive_cancel_self]
          exact fun hc => by cases hc
        · rw [if_neg ha]
          exact ha
      · exact ih _ p hm

theorem taskAlive_eq_of_mem (s : EngineState)
    (hnd : (s.aqTasks.map (fun t => t.id)).Nodup) (t : AqTask) (ht : t ∈ s.aqTasks) :
    taskAlive s t.id = t.alive := by
  show (match s.aqTasks.find? (fun x => x.id = t.id) with
    | some t => t.alive
    | Option.none => false) = t.alive
  rw [find_id_self s.aqTasks hnd t ht]

theorem aqWF_deactivate (env : Env) (eng : Engine) (st : EngineState) (f : Eff)
    (setFanAuto : Bool) (h : aqWF st) :
    aqWF (_deactivate_aq_activity env eng st f setFanAuto).1 := by
  unfold _deactivate_aq_activity
  dsimp only
  refine ⟨?_, ?_, ?_, ?_⟩
  · intro t' ht'
    have ht'' : t'.id ∈ ((st.aqMap.foldl
        (fun s p => if taskAlive s p.2 then cancelTaskId s p.2 else s) st).aqTasks.map
        (fun t => t.id)) := List.mem_map_of_mem _ ht'
    rw [deact_ids] at ht''
    obtain ⟨t, ht, hid⟩ := List.mem_map.mp ht''
    show t'.id < ((st.aqMap.foldl
      (fun s p => if taskAlive s p.2 then cancelTaskId s p.2 else s) st).aqNextId)
    rw [deact_next, ← hid]
    exact h.1 t ht
  · show (((st.aqMap.foldl
      (fun s p => if taskAlive s p.2 then cancelTaskId s p.2 else s) st).aqTasks.map
      (fun t => t.id)).Nodup)
    rw [deact_ids]
    exact h.2.1
  · intro q hq
    cases hq
  · intro t' ht' ha
    exfalso
    have hnd : (((st.aqMap.foldl
        (fun s p => if taskAlive s p.2 then cancelTaskId s p.2 else s) st).aqTasks.map
        (fun t => t.id)).Nodup) := by
      rw [deact_ids]; exact h.2.1
    have hal : taskAlive (st.aqMap.foldl
        (fun s p => if taskAlive s p.2 then cancelTaskId s p.2 else s) st) t'.id = true := by
      rw [taskAlive_eq_of_mem _ hnd t' ht']
      exact ha
    have hst := taskAlive_deact_mono st.aqMap st t'.id hal
    have hfind : ∃ t0, st.aqTasks.find? (fun x => x.id = t'.id) = some t0 := by
      unfold taskAlive at hst
      cases hx : st.aqTasks.find? (fun x => x.id = t'.id) with
      | none => rw [hx] at hst; cases hst
      | some t0 => exact ⟨t0, rfl⟩
    obtain ⟨t0, ht0⟩ := hfind
    have ht0alive : t0.alive = true := by
      unfold taskAlive at hst
      rw [ht0] at hst
      exact hst
    have ht0mem : t0 ∈ st.aqTasks := List.mem_of_find?_eq_some ht0
    have ht0id : t0.id = t'.id := by
      have := List.find?_some ht0
      exact of_decide_eq_true this
    have hown := h.2.2.2 t0 ht0mem ht0alive
    obtain ⟨q, hq, hq2⟩ := Option.map_eq_some'.mp hown
    have hqmem : q ∈ st.aqMap := List.mem_of_find?_eq_some hq
    have := deact_kills st.aqMap st q hqmem
    rw [hq2, ht0id] at this
    exact this hal

theorem aqWF_timerFire (env : Env) (eng : Engine) (st : EngineState) (f : Eff) (i : Nat)
    (h : aqWF st) : aqWF (aqTimerFire env eng st f i).1 := by
  unfold aqTimerFire
  cases hf : st.aqTasks.find? (fun t => t.id = i) with
  | none => exact h
  | some t =>
      dsimp only
      split
      · exact h
      · cases hc : eng.aq.find? (fun p => p.1 = t.level) with
        | none => exact h
        | some lc =>
            dsimp only
            split
            · exact aqWF_cancelTaskId _ i (aqWF_start_aq env st f t.level lc.2 h)
            · exact aqWF_cancelTaskId _ i h

theorem startAqState_next (st : EngineState) (level : String) (dur : Int) :
    (startAqState st level dur).aqNextId = st.aqNextId + 1 := by
  unfold startAqState
  cases hf : st.aqMap.find? (fun p => p.1 = level) <;> rfl

theorem startAqState_new_mem (st : EngineState) (level : String) (dur : Int) :
    ({ id := st.aqNextId, level := level, duration := dur, alive := true } : AqTask) ∈
      (startAqState st level dur).aqTasks := by
  unfold startAqState
  cases hf : st.aqMap.find? (fun p => p.1 = level) with
  | none =>
      dsimp only
      exact List.mem_append_right _ (List.mem_singleton.mpr rfl)
  | some p =>
      dsimp only
      exact List.mem_append_right _ (List.mem_singleton.mpr rfl)

theorem find?_new_task (l : List AqTask) (n : Nat) (dur : Int) (level : String)
    (h : ∀ t ∈ l, ¬ t.id = n) :
    ((l ++ [({ id := n, level := level, duration := dur, alive := true } : AqTask)]).find?
        (fun t => t.id = n)) =
      some ({ id := n, level := level, duration := dur, alive := true } : AqTask) := by
  rw [find?_append_or]
  have hnone : l.find? (fun t => t.id = n) = Option.none := by
    cases hx : l.find? (fun t => t.id = n) with
    | none => rfl
    | some t =>
        have hp := List.find?_some hx
        exact absurd (of_decide_eq_true hp) (h t (List.mem_of_find?_eq_some hx))
  rw [hnone, List.find?_cons_of_pos _ (by simp)]
  rfl

theorem startAqState_alive_new (st : EngineState) (level : String) (dur : Int)
    (h1 : ∀ t ∈ st.aqTasks, t.id < st.aqNextId) :
    taskAlive (startAqState st level dur) st.aqNextId = true := by
  unfold startAqState
  cases hf : st.aqMap.find? (fun p => p.1 = level) with
  | none =>
      dsimp only
      show (match ((st.aqTasks ++
          [({ id := st.aqNextId, level := level, duration := dur, alive := true } : AqTask)]).find?
          (fun t => t.id = st.aqNextId)) with
        | some t => t.alive
        | Option.none => false) = true
      rw [find?_new_task st.aqTasks st.aqNextId dur level
        (fun t ht => Nat.ne_of_lt (h1 t ht))]
  | some p =>
      dsimp only
      show (match (((cancelTaskId st p.2).aqTasks ++
          [({ id := st.aqNextId, level := level, duration := dur, alive := true } : AqTask)]).find?
          (fun t => t.id = st.aqNextId)) with
        | some t => t.alive
        | Option.none => false) = true
      have hne : ∀ t' ∈ (cancelTaskId st p.2).aqTasks, ¬ t'.id = st.aqNextId := by
        intro t' ht'
        obtain ⟨t, ht, hid, _, _⟩ := mem_cancel_src st p.2 t' ht'
        rw [hid]
        exact Nat.ne_of_lt (h1 t ht)
      rw [find?_new_task _ st.aqNextId dur level hne]

theorem startAqState_old_dead (st : EngineState) (level : String) (dur : Int)
    (p : String × Nat) (hf : st.aqMap.find? (fun q => q.1 = level) = some p)
    (h3 : ∀ q ∈ st.aqMap, q.2 < st.aqNextId) :
    taskAlive (startAqState st level dur) p.2 = false := by
  unfold startAqState
  rw [hf]
  dsimp only
  show (match (((cancelTaskId st p.2).aqTasks ++
      [({ id := st.aqNextId, level := level, duration := dur, alive := true } : AqTask)]).find?
      (fun t => t.id = p.2)) with
    | some t => t.alive
    | Option.none => false) = false
  rw [find?_append_or]
  have hp2 : p.2 < st.aqNextId := h3 p (List.mem_of_find?_eq_some hf)
  cases hx : (cancelTaskId st p.2).aqTasks.find? (fun t => t.id = p.2) with
  | none =>
      rw [List.find?_cons_of_neg _ (by simp; exact Nat.ne_of_lt' hp2)]
      rfl
  | some t' =>
      obtain ⟨t, ht, hid2, _, hprop⟩ :=
        mem_cancel_src st p.2 t' (List.mem_of_find?_eq_some hx)
      have hp := List.find?_some hx
      have hid : t'.id = p.2 := of_decide_eq_true hp
      cases hal : t'.alive with
      | false => exact hal
      | true =>
          exfalso
          obtain ⟨_, htne⟩ := hprop hal
          exact htne (by rw [← hid2, hid])

theorem startAqState_filter_len (st : EngineState) (level : String) (dur : Int)
    (h : aqWF st) :
    ((startAqState st level dur).aqTasks.filter
      (fun t => t.alive && t.level = level)).length = 1 := by
  have hle := aqWF_at_most_one _ (aqWF_startAqState st level dur h) level
  refine Nat.le_antisymm hle ?_
  have hfil : ({ id := st.aqNextId, level := level, duration := dur, alive := true } : AqTask) ∈
      (startAqState st level dur).aqTasks.filter (fun t => t.alive && t.level = level) :=
    List.mem_filter.mpr ⟨startAqState_new_mem st level dur, by simp⟩
  exact List.length_pos.mpr (List.ne_nil_of_mem hfil)

theorem handleAq_continuous (env : Env) (eng : Engine) (st : EngineState) (f : Eff) (b : Bool)
    (level : String) (cfg : AqCfg)
    (hen : cfg.enabled = true) (hout : ¬ cfg.outputs = [])
    (htrig : ¬ _aq_trigger_details env eng level cfg = [])
    (hrun : taskRunning st level = true) (hprev : st.aqTrigger level = true) :
    (handleAqLevel env eng (st, f, b) (level, cfg)).1.aqTasks = st.aqTasks ∧
    (handleAqLevel env eng (st, f, b) (level, cfg)).1.aqMap = st.aqMap ∧
    (handleAqLevel env eng (st, f, b) (level, cfg)).1.aqNextId = st.aqNextId ∧
    (handleAqLevel env eng (st, f, b) (level, cfg)).2.1 = f := by
  unfold handleAqLevel
  dsimp only
  rw [if_neg (show ¬ (¬ cfg.enabled = true ∨ cfg.outputs = []) from by simp [hen, hout]),
    if_pos htrig,
    if_neg (show ¬ (¬ taskRunning st level = true ∨ ¬ st.aqTrigger level = true) from by
      simp [hrun, hprev])]
  exact ⟨rfl, rfl, rfl, rfl⟩

theorem mem_cancel_of_mem (st : EngineState) (i : Nat) (t : AqTask)
    (ht : t ∈ st.aqTasks) (hne : ¬ t.id = i) : t ∈ (cancelTaskId st i).aqTasks := by
  refine List.mem_map.mpr ⟨t, ht, ?_⟩
  show (if t.id = i then { t with alive := false } else t) = t
  rw [if_neg hne]

theorem timerFire_restart (env : Env) (eng : Engine) (st : EngineState) (f : Eff) (i : Nat)
    (t : AqTask) (lc : String × AqCfg) (h : aqWF st)
    (hfind : st.aqTasks.find? (fun x => x.id = i) = some t)
    (halive : t.alive = true)
    (hcfg : eng.aq.find? (fun p => p.1 = t.level) = some lc)
    (htrig : ¬ _aq_trigger_details env eng t.level lc.2 = []) :
    taskAlive (aqTimerFire env eng st f i).1 i = false ∧
    (∃ nt ∈ (aqTimerFire env eng st f i).1.aqTasks, nt.id = st.aqNextId ∧
      nt.level = t.level ∧ nt.alive = true ∧
      nt.duration = _bounded_int lc.2.run_duration 1 (24 * 60) 30 * 60) := by
  have hred : (aqTimerFire env eng st f i).1 =
      cancelTaskId (_start_aq env st f t.level lc.2).1 i := by
    unfold aqTimerFire
    rw [hfind]
    dsimp only
    rw [if_neg (show ¬ ¬ t.alive = true from by simp [halive]), hcfg]
    dsimp only
    rw [if_pos htrig]
  rw [hred]
  have hne : ¬ (st.aqNextId = i) := by
    have hp := List.find?_some hfind
    have hti : t.id = i := of_decide_eq_true hp
    have hlt := h.1 t (List.mem_of_find?_eq_some hfind)
    rw [hti] at hlt
    exact Nat.ne_of_lt' hlt
  refine ⟨taskAlive_cancel_self _ i, ?_⟩
  refine ⟨({ id := st.aqNextId, level := t.level, duration := _bounded_int lc.2.run_duration 1 (24 * 60) 30 * 60, alive := true } : AqTask), ?_, rfl, rfl, rfl, rfl⟩
  refine mem_cancel_of_mem _ i _ ?_ hne
  rw [start_aq_fst]
  exact startAqState_new_mem st t.level _

/-- C4 (amended): for every AQ level at most one live timer task exists
at any time (`aqWF` is an invariant of the full `_handle_aq` pass and of
timer expiry, and bounds the live-task count per level by one).  A
trigger observed while the run is already in progress AND the trigger
was already active on the previous cycle leaves the timer arena and the
effect stream untouched — the run window is NOT restarted; only a
newly-active trigger (or a trigger with no running timer) reaches
`_start_aq`, which cancels the registered task and installs exactly one
fresh live task for the level.  At expiry with the trigger still
satisfied, the old task dies and a new live task of the configured
duration (`_bounded_int(run_duration, 1, 24*60, 30) * 60`, hence the
same duration as the old one under an unchanged configuration) replaces
it. -/
theorem c4_aq_single_timer (env : Env) (eng : Engine) (st : EngineState) (f : Eff) (b : Bool)
    (level : String) (cfg : AqCfg) (i : Nat) (h : aqWF st) :
    (∀ lv, ((st.aqTasks.filter (fun t => t.alive && t.level = lv)).length ≤ 1)) ∧
    aqWF (_handle_aq env eng st f).1 ∧
    aqWF (aqTimerFire env eng st f i).1 ∧
    (cfg.enabled = true → ¬ cfg.outputs = [] →
      ¬ _aq_trigger_details env eng level cfg = [] →
      taskRunning st level = true → st.aqTrigger level = true →
      (handleAqLevel env eng (st, f, b) (level, cfg)).1.aqTasks = st.aqTasks ∧
      (handleAqLevel env eng (st, f, b) (level, cfg)).1.aqMap = st.aqMap ∧
      (handleAqLevel env eng (st, f, b) (level, cfg)).1.aqNextId = st.aqNextId ∧
      (handleAqLevel env eng (st, f, b) (level, cfg)).2.1 = f) ∧
    ((_start_aq env st f level cfg).1.aqNextId = st.aqNextId + 1 ∧
      taskAlive (_start_aq env st f level cfg).1 st.aqNextId = true ∧
      (∀ p, st.aqMap.find? (fun q => q.1 = level) = some p →
        taskAlive (_start_aq env st f level cfg).1 p.2 = false) ∧
      ((_start_aq env st f level cfg).1.aqTasks.filter
        (fun t => t.alive && t.level = level)).length = 1) ∧
    (∀ t lc, st.aqTasks.find? (fun x => x.id = i) = some t → t.alive = true →
      eng.aq.find? (fun p => p.1 = t.level) = some lc →
      ¬ _aq_trigger_details env eng t.level lc.2 = [] →
      taskAlive (aqTimerFire env eng st f i).1 i = false ∧
      (∃ nt ∈ (aqTimerFire env eng st f i).1.aqTasks, nt.id = st.aqNextId ∧
        nt.level = t.level ∧ nt.alive = true ∧
        nt.duration = _bounded_int lc.2.run_duration 1 (24 * 60) 30 * 60)) := by
  refine ⟨fun lv => aqWF_at_most_one st h lv, aqWF_handle_aq env eng st f h,
    aqWF_timerFire env eng st f i h,
    fun hen hout htrig hrun hprev =>
      handleAq_continuous env eng st f b level cfg hen hout htrig hrun hprev,
    ⟨?_, ?_, ?_, ?_⟩,
    fun t lc hfind halive hcfg htrig =>
      timerFire_restart env eng st f i t lc h hfind halive hcfg htrig⟩
  · rw [start_aq_fst]
    exact startAqState_next st level _
  · rw [start_aq_fst]
    exact startAqState_alive_new st level _ h.1
  · intro p hp
    rw [start_aq_fst]
    exact startAqState_old_dead st level _ p hp h.2.2.1
  · rw [start_aq_fst]
    exact startAqState_filter_len st level _ h

/-- Fixture for C4: one AQ level (`level1`) with a `pm25_high` trigger
(threshold 50, reading 80), a running timer task (id 0) and the trigger
already marked active from the previous cycle. -/
def hassC4 : Hass :=
  { states := fun e =>
      if e = "sensor.pm25_a" then some { state := "80" } else Option.none,
    hasService := fun _ _ => true }

def envC4 : Env :=
  { hass := hassC4, booleans0 := fun _ => Option.none, timers := fun _ => Option.none,
    now := 0, month := 1, nowTime := 600, lnQ := fun _ => 0 }

def cfgC4 : AqCfg :=
  { enabled := true, triggers := ["pm25_high"],
    thresholds := fun t => if t = "pm25_high" then some 50 else Option.none,
    outputs := ["fan.aq"], output_level := some (.intVal 66), run_duration := some 10 }

def engC4 : Engine :=
  { telemetry := [
      { entity_id := some "sensor.pm25_a", sensor_type := some "pm25",
        room := some "Hall", level := some "level1" }],
    aq := [("level1", cfgC4)] }

def stC4 : EngineState :=
  { aqTrigger := fun l => decide (l = "level1"), aqMap := [("level1", 0)], aqNextId := 1,
    aqTasks := [{ id := 0, level := "level1", duration := 600, alive := true }] }

/-- C4 counterexample: the level-1 run is in progress (task 0 live, the
timer registered) and the `pm25_high` trigger is satisfied again while it
was already active last cycle.  The claim says this "cancels and restarts
the existing per-level task (restarting the run window)"; the code leaves
the task arena completely untouched and emits no command — the old run
window keeps counting down. -/
theorem c4_counterexample :
    cfgC4.enabled = true ∧ ¬ cfgC4.outputs = [] ∧
    ¬ _aq_trigger_details envC4 engC4 "level1" cfgC4 = [] ∧
    taskRunning stC4 "level1" = true ∧ stC4.aqTrigger "level1" = true ∧
    (handleAqLevel envC4 engC4 (stC4, initEff envC4, false) ("level1", cfgC4)).1.aqTasks =
      stC4.aqTasks ∧
    (handleAqLevel envC4 engC4 (stC4, initEff envC4, false) ("level1", cfgC4)).1.aqNextId =
      stC4.aqNextId ∧
    taskAlive (handleAqLevel envC4 engC4 (stC4, initEff envC4, false) ("level1", cfgC4)).1 0 =
      true ∧
    (handleAqLevel envC4 engC4 (stC4, initEff envC4, false) ("level1", cfgC4)).2.1.cmds = [] := by
  decide

theorem c4_witness :
    aqWF stC4 ∧ aqWF (_handle_aq envC4 engC4 stC4 (initEff envC4)).1 :=
  ⟨by unfold aqWF; decide,
    (c4_aq_single_timer envC4 engC4 stC4 (initEff envC4) false "level1" cfgC4 0
      (by unfold aqWF; decide)).2.1⟩

/-! ## Claim C5 -/

/-- A command that does not activate an output: everything except a
service call to `turn_on` or `set_percentage`. -/
def nonActivation : Cmd → Bool
  | Cmd.svcCall _ service _ _ =>
      if service = "turn_on" ∨ service = "set_percentage" then false else true
  | _ => true

/-- Every recorded command is non-activating. -/
def NoActivationCmds (f : Eff) : Prop := ∀ c ∈ f.cmds, nonActivation c = true

theorem na_emit {f : Eff} {c : Cmd} (h : NoActivationCmds f) (hc : nonActivation c = true) :
    NoActivationCmds (emit f c) := by
  intro d hd
  rcases List.mem_append.mp hd with hL | hR
  · exact h d hL
  · rw [List.mem_singleton] at hR
    rw [hR]
    exact hc

theorem na_set_bool {f : Eff} (k : String) (v : Bool) (h : NoActivationCmds f) :
    NoActivationCmds (_set_bool f k v) := by
  unfold _set_bool
  cases hb : f.booleans k with
  | none => exact h
  | some b =>
      intro d hd
      rcases List.mem_append.mp hd with hL | hR
      · exact h d hL
      · rw [List.mem_singleton] at hR
        rw [hR]
        rfl

theorem na_set_timer (env : Env) (f : Eff) (k : String) (d : Int) (h : NoActivationCmds f) :
    NoActivationCmds (_set_timer env f k d) := by
  unfold _set_timer
  cases ht : env.timers k with
  | none => exact h
  | some v => exact na_emit h rfl

theorem na_clear_timer (env : Env) (f : Eff) (k : String) (h : NoActivationCmds f) :
    NoActivationCmds (_clear_timer env f k) := by
  unfold _clear_timer
  cases ht : env.timers k with
  | none => exact h
  | some v => exact na_emit h rfl

theorem na_set_runtime_mode (f : Eff) (m : String) (h : NoActivationCmds f) :
    NoActivationCmds (_set_runtime_mode f m) := h

theorem na_foldl {α : Type} (step : Eff → α → Eff)
    (hstep : ∀ f a, NoActivationCmds f → NoActivationCmds (step f a)) :
    ∀ (l : List α) (f : Eff), NoActivationCmds f → NoActivationCmds (l.foldl step f)
  | [], _, h => h
  | a :: l, f, h => na_foldl step hstep l (step f a) (hstep f a h)

theorem na_foldl_proj {α β : Type} (proj : β → Eff) (step : β → α → β)
    (hstep : ∀ b a, NoActivationCmds (proj b) → NoActivationCmds (proj (step b a))) :
    ∀ (l : List α) (b : β), NoActivationCmds (proj b) → NoActivationCmds (proj (l.foldl step b))
  | [], _, h => h
  | a :: l, b, h => na_foldl_proj proj step hstep l (step b a) (hstep b a h)

theorem na_setFanAutoOne (env : Env) (f : Eff) (e : String) (h : NoActivationCmds f) :
    NoActivationCmds (setFanAutoOne env f e) := by
  unfold setFanAutoOne
  dsimp only
  split
  · split
    · exact h
    · split
      · exact h
      · exact na_emit h rfl
  · split
    · split
      · exact h
      · split
        · exact h
        · exact na_emit h rfl
    · exact h

theorem na_set_fan_auto (env : Env) (f : Eff) (l : List String) (h : NoActivationCmds f) :
    NoActivationCmds (_set_fan_auto env f l) :=
  na_foldl _ (fun f e hf => na_setFanAutoOne env f e hf) l f h

theorem na_set_fan_outputs_auto (env : Env) (f : Eff) (l : List String)
    (h : NoActivationCmds f) : NoActivationCmds (_set_fan_outputs_auto env f l) := by
  unfold _set_fan_outputs_auto
  split
  · exact h
  · exact na_set_fan_auto env f l h

theorem na_setHumOne_off (env : Env) (f : Eff) (e : String) (h : NoActivationCmds f) :
    NoActivationCmds (setHumOne env f e false) := by
  have he : setHumOne env f e false =
      (if ¬ env.hass.hasService (domainOf e) "turn_off" = true then f
       else if switchAlreadyAt env.hass e false = true then f
       else emit f (Cmd.svcCall (domainOf e) "turn_off" e Option.none)) := rfl
  rw [he]
  split
  · exact h
  · split
    · exact h
    · exact na_emit h rfl

theorem na_set_humidifier_state_off (env : Env) (f : Eff) (l : List String)
    (h : NoActivationCmds f) : NoActivationCmds (_set_humidifier_state env f l false) :=
  na_foldl _ (fun f e hf => na_setHumOne_off env f e hf) l f h

theorem na_set_humidifier_outputs_state_off (env : Env) (f : Eff) (l : List String)
    (h : NoActivationCmds f) : NoActivationCmds (_set_humidifier_outputs_state env f l false) := by
  unfold _set_humidifier_outputs_state
  split
  · exact h
  · exact na_set_humidifier_state_off env f l h

theorem na_deactivate_humidifier (env : Env) (eng : Engine) (f : Eff) (b : Bool)
    (h : NoActivationCmds f) :
    NoActivationCmds (_deactivate_humidifier_activity env eng f b) := by
  unfold _deactivate_humidifier_activity
  dsimp only
  refine na_set_bool _ _ (na_set_bool _ _ ?_)
  refine na_foldl _ (fun f c hf => ?_) _ _ h
  split
  · exact na_set_humidifier_outputs_state_off env _ _ hf
  · exact hf

theorem na_deactivate_aq (env : Env) (eng : Engine) (st : EngineState) (f : Eff) (b : Bool)
    (h : NoActivationCmds f) :
    NoActivationCmds (_deactivate_aq_activity env eng st f b).2 := by
  unfold _deactivate_aq_activity
  dsimp only
  refine na_clear_timer env _ _ (na_clear_timer env _ _ (na_set_bool _ _ (na_set_bool _ _ ?_)))
  refine na_foldl _ (fun f c hf => ?_) _ _ h
  split
  · exact na_set_fan_outputs_auto env _ _ hf
  · exact hf

theorem na_set_zone_outputs_auto (env : Env) (eng : Engine) (f : Eff)
    (ex : Option (List String)) (h : NoActivationCmds f) :
    NoActivationCmds (_set_zone_outputs_auto env eng f ex) := by
  unfold _set_zone_outputs_auto
  exact na_set_fan_outputs_auto env f _ h

theorem na_clear_alert_switches (eng : Engine) (f : Eff) (h : NoActivationCmds f) :
    NoActivationCmds (_clear_alert_activity_switches eng f) :=
  na_foldl _ (fun f idx hf => na_set_bool _ false hf) _ f h

theorem na_handle_alerts (env : Env) (eng : Engine) (st : EngineState) (f : Eff)
    (h : NoActivationCmds f) :
    NoActivationCmds (_handle_alerts env eng st f).2.1 := by
  unfold _handle_alerts
  dsimp only
  refine na_foldl_proj (fun (acc : EngineState × Eff × Bool) => acc.2.1) _
    (fun acc ia hf => ?_) _ _ (na_clear_alert_switches eng f h)
  dsimp only
  split
  · exact hf
  · split
    · exact na_set_bool _ _ hf
    · split
      · exact na_set_bool _ _ hf
      · exact na_emit (na_set_bool _ _ hf) rfl

theorem na_deactivate_non_alert (env : Env) (eng : Engine) (st : EngineState) (f : Eff)
    (h : NoActivationCmds f) :
    NoActivationCmds (_deactivate_non_alert_activity env eng st f).2 := by
  unfold _deactivate_non_alert_activity
  dsimp only
  exact na_deactivate_humidifier env eng _ true
    (na_set_zone_outputs_auto env eng _ _ (na_deactivate_aq env eng st f true h))

/-- Under passing control lock, gate and pause, an untriggered CO lane
and an active alert lane, the cycle is the alert branch. -/
theorem evaluate_alert_branch (env : Env) (eng : Engine) (st : EngineState)
    (hlock : _control_lock_reason (initEff env) = Option.none)
    (hgate : (_gate_status env eng).1 = true)
    (hpause : _pause_active env = false)
    (hco : (_co_emergency_triggered env eng st).1 = false)
    (halert : (_handle_alerts env eng st
      (_set_bool (initEff env) "air_co_emergency_active" false)).2.2 = true) :
    _evaluate env eng st =
      ((_deactivate_non_alert_activity env eng
          (_handle_alerts env eng st
            (_set_bool (initEff env) "air_co_emergency_active" false)).1
          (_handle_alerts env eng st
            (_set_bool (initEff env) "air_co_emergency_active" false)).2.1).1,
        _set_runtime_mode
          (_deactivate_non_alert_activity env eng
            (_handle_alerts env eng st
              (_set_bool (initEff env) "air_co_emergency_active" false)).1
            (_handle_alerts env eng st
              (_set_bool (initEff env) "air_co_emergency_active" false)).2.1).2 "alert") := by
  obtain ⟨htr, hact⟩ := co_triggered_false env eng st hco
  unfold _evaluate
  dsimp only
  rw [hlock]
  simp [hgate, hpause, htr, hact, halert]

/-- C5 (amended): in an evaluation cycle with the alert lane active (and
the cycle reaching it: control lock, gate and pause pass, CO lane not
triggered), the published runtime mode is `alert` and every command the
cycle issues is non-activating — no `turn_on` and no `set_percentage` is
sent to any output.  The cycle does, however, issue release commands to
zone/AQ/humidifier outputs (fans to their auto preset, humidifiers and
switch outputs off). -/
theorem c5_alert_suppression (env : Env) (eng : Engine) (st : EngineState)
    (hlock : _control_lock_reason (initEff env) = Option.none)
    (hgate : (_gate_status env eng).1 = true)
    (hpause : _pause_active env = false)
    (hco : (_co_emergency_triggered env eng st).1 = false)
    (halert : (_handle_alerts env eng st
      (_set_bool (initEff env) "air_co_emergency_active" false)).2.2 = true) :
    (_evaluate env eng st).2.runtimeMode = some "alert" ∧
    ∀ c ∈ (_evaluate env eng st).2.cmds, nonActivation c = true := by
  rw [evaluate_alert_branch env eng st hlock hgate hpause hco halert]
  constructor
  · rfl
  · have h0 : NoActivationCmds (initEff env) := by
      intro c hc
      cases hc
    exact na_set_runtime_mode _ "alert"
      (na_deactivate_non_alert env eng _ _
        (na_handle_alerts env eng st _ (na_set_bool _ false h0)))

/-- Shared fixture for the alert-cycle claims: one enabled custom-binary
alert whose trigger entity is `on`; a downstairs humidifier with its
switch output currently `on`; downstairs humidity average 30 % (below
the January low target 45). -/
def hassC5 : Hass :=
  { states := fun e =>
      if e = "binary_sensor.alert" then some { state := "on" }
      else if e = "switch.h" then some { state := "on" }
      else if e = "sensor.hum_d" then some { state := "30" }
      else Option.none,
    hasService := fun _ _ => true }

def envC5 : Env :=
  { hass := hassC5,
    booleans0 := fun k => if k = "air_control_enabled" then some true else some false,
    timers := fun _ => Option.none,
    now := 0, month := 1, nowTime := 600, lnQ := fun _ => 0 }

def alertC5 : AlertCfg :=
  { enabled := true, trigger_type := some "custom_binary",
    custom_trigger := some "binary_sensor.alert" }

def humC5 : HumCfg := { enabled := true, outputs := ["switch.h"] }

def engC5 : Engine :=
  { telemetry := [
      { entity_id := some "sensor.hum_d", sensor_type := some "humidity",
        room := some "Hall", level := some "level1" }],
    humidifiers := [("level1", humC5)],
    alerts := [alertC5] }

def stC5 : EngineState := {}

/-- C5 counterexample: in this alert-active cycle the engine DOES issue a
humidifier output command — `switch.turn_off switch.h` — so "no zone, AQ,
or humidifier output commands are issued" is false as stated. -/
theorem c5_counterexample :
    (_handle_alerts envC5 engC5 stC5
      (_set_bool (initEff envC5) "air_co_emergency_active" false)).2.2 = true ∧
    (_evaluate envC5 engC5 stC5).2.runtimeMode = some "alert" ∧
    Cmd.svcCall "switch" "turn_off" "switch.h" Option.none ∈
      (_evaluate envC5 engC5 stC5).2.cmds := by
  decide

theorem c5_witness :
    (_handle_alerts envC5 engC5 stC5
      (_set_bool (initEff envC5) "air_co_emergency_active" false)).2.2 = true ∧
    (_evaluate envC5 engC5 stC5).2.runtimeMode = some "alert" ∧
    (∀ c ∈ (_evaluate envC5 engC5 stC5).2.cmds, nonActivation c = true) :=
  ⟨by decide,
    (c5_alert_suppression envC5 engC5 stC5 (by decide) (by decide) (by decide)
      (by decide) (by decide)).1,
    (c5_alert_suppression envC5 engC5 stC5 (by decide) (by decide) (by decide)
      (by decide) (by decide)).2⟩

/-! ## Claim C6 -/

theorem ext_handle_zone (env : Env) (eng : Engine) (f : Eff) (zoneKey : String) :
    Ext f (_handle_zone_by_key env eng f zoneKey).1 := by
  unfold _handle_zone_by_key
  dsimp only
  split
  · exact ext_rfl f
  · split
    · exact ext_rfl f
    · split
      · exact ext_rfl f
      · split
        · exact ext_rfl f
        · exact ext_set_fan_outputs_level env f _ _

theorem ext_start_aq (env : Env) (st : EngineState) (f : Eff) (level : String) (cfg : AqCfg) :
    Ext f (_start_aq env st f level cfg).2 := by
  unfold _start_aq
  dsimp only
  exact ext_trans (ext_trans (ext_set_fan_outputs_level env f _ _) (ext_set_bool _ _ _))
    (ext_set_timer env _ _ _)

theorem ext_handleAqLevel (env : Env) (eng : Engine) (acc : EngineState × Eff × Bool)
    (lc : String × AqCfg) : Ext acc.2.1 (handleAqLevel env eng acc lc).2.1 := by
  unfold handleAqLevel
  dsimp only
  split
  · exact ext_trans (ext_set_bool _ _ _) (ext_clear_timer env _ _)
  · split
    · split
      · exact ext_start_aq env acc.1 acc.2.1 lc.1 lc.2
      · exact ext_rfl _
    · split
      · exact ext_trans (ext_set_bool _ _ _) (ext_clear_timer env _ _)
      · exact ext_rfl _

theorem ext_aq_fold : ∀ (l : List (String × AqCfg)) (env : Env) (eng : Engine)
    (acc : EngineState × Eff × Bool), Ext acc.2.1 ((l.foldl (handleAqLevel env eng) acc)).2.1
  | [], _, _, _ => ext_rfl _
  | a :: l, env, eng, acc => by
      rw [List.foldl_cons]
      exact ext_trans (ext_handleAqLevel env eng acc a) (ext_aq_fold l env eng _)

theorem ext_aq_cleanup_fold : ∀ (ls : List String) (env : Env) (acc : EngineState × Eff),
    Ext acc.2 ((ls.foldl (fun (acc : EngineState × Eff) level =>
      let st := _cancel_aq_task acc.1 level
      let f := _set_aq_level_active acc.2 level false
      let f := _clear_aq_level_timer env f level
      let st := { st with aqTrigger := fun l => if l = level then false else st.aqTrigger l }
      (st, f)) acc)).2
  | [], _, _ => ext_rfl _
  | a :: ls, env, acc => by
      rw [List.foldl_cons]
      exact ext_trans (ext_trans (ext_set_bool acc.2 _ false) (ext_clear_timer env _ _))
        (ext_aq_cleanup_fold ls env _)

theorem ext_handle_aq (env : Env) (eng : Engine) (st : EngineState) (f : Eff) :
    Ext f (_handle_aq env eng st f).2.1 := by
  unfold _handle_aq
  dsimp only
  exact ext_trans (ext_aq_cleanup_fold _ env (st, f)) (ext_aq_fold _ env eng _)

/-- Inside `evalMain` the humidifier stage runs first, before the zone
and AQ lanes, and its commands stay in the cycle's command log whatever
those lanes decide. -/
theorem ext_evalMain_hum (env : Env) (eng : Engine) (st : EngineState) (f : Eff) :
    Ext (_handle_humidifiers env eng f) (evalMain env eng st f).2 := by
  unfold evalMain
  dsimp only
  refine ext_trans ?_ (ext_set_runtime_mode _ _)
  have hz : Ext (_handle_humidifiers env eng f)
      (_handle_zone_by_key env eng
        (_handle_zone_by_key env eng (_handle_humidifiers env eng f) "zone1").1 "zone2").1 :=
    ext_trans (ext_handle_zone env eng _ "zone1") (ext_handle_zone env eng _ "zone2")
  split
  · refine ext_trans ?_ (ext_set_zone_outputs_auto env eng _ _)
    exact ext_trans hz (ext_handle_aq env eng st _)
  · exact ext_trans hz (ext_deactivate_aq env eng st _ _)

theorem handle_alerts_booleans_ne (env : Env) (eng : Engine) (st : EngineState) (f : Eff)
    (k : String) (hk : k.data.get? 4 ≠ some 'a') :
    (_handle_alerts env eng st f).2.1.booleans k = f.booleans k := by
  unfold _handle_alerts
  dsimp only
  refine Eq.trans (foldl_proj _ (fun (acc : EngineState × Eff × Bool) => acc.2.1.booleans k)
    (fun acc ia => ?_) _ _) (clear_alerts_booleans_ne eng f k hk)
  dsimp only
  split
  · rfl
  · split
    · exact set_bool_booleans_ne _ _ _ _ (Ne.symm (alert_key_ne ia.1 k hk))
    · split
      · exact set_bool_booleans_ne _ _ _ _ (Ne.symm (alert_key_ne ia.1 k hk))
      · exact Eq.trans (congrFun (booleans_emit _ _) k)
          (set_bool_booleans_ne _ _ _ _ (Ne.symm (alert_key_ne ia.1 k hk)))

/-- `_deactivate_humidifier_activity` force-clears both humidifier
active flags (when the input-boolean keys exist). -/
theorem deactivate_humidifier_booleans_set (env : Env) (eng : Engine) (f : Eff) (b : Bool)
    (hd : ((f.booleans "air_downstairs_humidifier_active").isSome) = true)
    (hu : ((f.booleans "air_upstairs_humidifier_active").isSome) = true) :
    (_deactivate_humidifier_activity env eng f b).booleans "air_downstairs_humidifier_active"
      = some false ∧
    (_deactivate_humidifier_activity env eng f b).booleans "air_upstairs_humidifier_active"
      = some false := by
  unfold _deactivate_humidifier_activity
  dsimp only
  have hfold : (eng.humidifiers.foldl
      (fun f c => if b = true then _set_humidifier_outputs_state env f c.2.outputs false else f)
      f).booleans = f.booleans := by
    refine foldl_proj _ (fun (f : Eff) => f.booleans) (fun f c => ?_) _ _
    split
    · exact booleans_set_humidifier_outputs_state env f _ false
    · rfl
  constructor
  · rw [set_bool_booleans_ne _ _ _ _ (by decide)]
    refine set_bool_booleans_eq false ?_
    rw [congrFun hfold _]
    exact hd
  · refine set_bool_booleans_eq false ?_
    rw [set_bool_booleans_ne _ _ _ _ (by decide), congrFun hfold _]
    exact hu

theorem deactivate_non_alert_humid_flags (env : Env) (eng : Engine) (st : EngineState)
    (f : Eff)
    (hd : ((f.booleans "air_downstairs_humidifier_active").isSome) = true)
    (hu : ((f.booleans "air_upstairs_humidifier_active").isSome) = true) :
    ((_deactivate_non_alert_activity env eng st f).2.booleans
      "air_downstairs_humidifier_active" = some false) ∧
    ((_deactivate_non_alert_activity env eng st f).2.booleans
      "air_upstairs_humidifier_active" = some false) := by
  unfold _deactivate_non_alert_activity
  dsimp only
  refine deactivate_humidifier_booleans_set env eng _ true ?_ ?_
  · rw [congrFun (booleans_set_zone_outputs_auto env eng _ _) _,
      deactivate_aq_booleans_ne env eng st f true _ (by decide) (by decide)]
    exact hd
  · rw [congrFun (booleans_set_zone_outputs_auto env eng _ _) _,
      deactivate_aq_booleans_ne env eng st f true _ (by decide) (by decide)]
    exact hu

/-- C6 (amended): the humidifier hysteresis is evaluated on every cycle
that reaches the normal lanes — inside `evalMain` the humidifier stage
runs first and its commands survive whatever the zone/AQ lanes decide,
and the stage is independent of the zone and AQ configuration.  But the
claim's "evaluated every cycle regardless of the other lanes' outcome"
is wrong for the higher-priority lanes: in an alert-active cycle the
hysteresis is not evaluated at all — both humidifier active flags are
force-cleared (and the outputs turned off) no matter what the band logic
would have decided. -/
theorem c6_humidifier_stage (env : Env) (eng : Engine) (st : EngineState) (f : Eff)
    (zs : List (String × ZoneCfg)) (aqs : List (String × AqCfg))
    (hlock : _control_lock_reason (initEff env) = Option.none)
    (hgate : (_gate_status env eng).1 = true)
    (hpause : _pause_active env = false)
    (hco : (_co_emergency_triggered env eng st).1 = false)
    (halert : (_handle_alerts env eng st
      (_set_bool (initEff env) "air_co_emergency_active" false)).2.2 = true)
    (hdk : (((initEff env).booleans "air_downstairs_humidifier_active").isSome) = true)
    (huk : (((initEff env).booleans "air_upstairs_humidifier_active").isSome) = true) :
    Ext (_handle_humidifiers env eng f) (evalMain env eng st f).2 ∧
    _handle_humidifiers env { eng with zones := zs, aq := aqs } f =
      _handle_humidifiers env eng f ∧
    (_evaluate env eng st).2.booleans "air_downstairs_humidifier_active" = some false ∧
    (_evaluate env eng st).2.booleans "air_upstairs_humidifier_active" = some false := by
  have hAL2d : ((((_handle_alerts env eng st
      (_set_bool (initEff env) "air_co_emergency_active" false)).2.1.booleans
      "air_downstairs_humidifier_active").isSome) = true) := by
    rw [handle_alerts_booleans_ne env eng st _ _ (by decide),
      set_bool_booleans_ne _ _ _ _ (by decide)]
    exact hdk
  have hAL2u : ((((_handle_alerts env eng st
      (_set_bool (initEff env) "air_co_emergency_active" false)).2.1.booleans
      "air_upstairs_humidifier_active").isSome) = true) := by
    rw [handle_alerts_booleans_ne env eng st _ _ (by decide),
      set_bool_booleans_ne _ _ _ _ (by decide)]
    exact huk
  have hflags := deactivate_non_alert_humid_flags env eng
    (_handle_alerts env eng st (_set_bool (initEff env) "air_co_emergency_active" false)).1
    (_handle_alerts env eng st (_set_bool (initEff env) "air_co_emergency_active" false)).2.1
    hAL2d hAL2u
  refine ⟨ext_evalMain_hum env eng st f, rfl, ?_, ?_⟩
  · rw [evaluate_alert_branch env eng st hlock hgate hpause hco halert]
    exact Eq.trans (congrFun (booleans_set_runtime_mode _ _) _) hflags.1
  · rw [evaluate_alert_branch env eng st hlock hgate hpause hco halert]
    exact Eq.trans (congrFun (booleans_set_runtime_mode _ _) _) hflags.2

/-- C6 counterexample: the downstairs humidity average (30) is below the
band low (45), so the lane's own hysteresis would mark the lane active
(the humidifier stage alone records the flag `true`); but because the
alert lane is active this cycle, the engine publishes the flag as
`false` and turns the humidifier output off — the hardware state does
NOT toggle per the lane's hysteresis in an alert cycle. -/
theorem c6_counterexample :
    ((_level_avg envC5 engC5 "humidity" (some "level1")).getD 0 ≤ (humBand envC5 humC5).1 ∧
     (_handle_humidifiers envC5 engC5 (initEff envC5)).booleans
       "air_downstairs_humidifier_active" = some true) ∧
    (_evaluate envC5 engC5 stC5).2.booleans "air_downstairs_humidifier_active" = some false ∧
    Cmd.svcCall "switch" "turn_off" "switch.h" Option.none ∈
      (_evaluate envC5 engC5 stC5).2.cmds ∧
    ¬ Cmd.svcCall "switch" "turn_on" "switch.h" Option.none ∈
      (_evaluate envC5 engC5 stC5).2.cmds := by
  decide

theorem c6_witness :
    (((initEff envC5).booleans "air_downstairs_humidifier_active").isSome) = true ∧
    (_evaluate envC5 engC5 stC5).2.booleans "air_downstairs_humidifier_active" = some false :=
  ⟨by decide,
    (c6_humidifier_stage envC5 engC5 stC5 (initEff envC5) [] [] (by decide) (by decide)
      (by decide) (by decide) (by decide) (by decide) (by decide)).2.2.1⟩

end HI
